import Mathlib

/-!
Shallow embedding of the `amqp-proto` AMQP 0-9-1 codec library
(`src/frame/base.rs`, `src/frame/frame_codec.rs`, `src/method/*.rs`,
`src/frame/method/*.rs`, `src/frame/header/*.rs`, `src/class/class.rs`,
`src/error/frame.rs`), together with proofs settling the frozen claims
about the natural-language specification.

Modelling conventions:
* byte buffers are `List Nat` whose elements are intended below 256;
  every encoder writes bytes reduced modulo 256, exactly as the machine does;
* Rust `String` values are represented by their UTF-8 byte lists;
  `String::from_utf8_lossy` is modelled by `utf8Lossy` below, which follows
  the standard library's replacement-character algorithm;
* machine integers are `Nat` bit patterns (an `i8` is represented by its
  two's-complement byte value, etc.), so wire equality coincides with model
  equality; `f32`/`f64` are represented by their IEEE bit patterns, which is
  all the source ever touches (`to_bits`/big-endian bytes);
* a Rust panic (reachable in `FieldName::with_bytes` via `bytes[0]` on an
  empty slice) is modelled by the distinguished error `Panicked`, which every
  error-mapping site passes through unchanged, since a panic unwinds past
  `match`-based error wrapping;
* the source's `loop` constructs and the mutual recursion between
  `FieldValue`/`FieldArray`/`FieldTable` decoding are modelled with an explicit
  fuel parameter; public wrappers pass `buffer.length + 1`, which the proofs
  show is never exhausted on the executions the claims are about.
-/

namespace AmqpProto

/-- Mirror of `FrameDecodeErr` from `src/error/frame.rs`, with one extra
constructor `Panicked` modelling a Rust panic unwinding through callers. -/
inductive FrameDecodeErr where
  | Incomplete : FrameDecodeErr
  | SyntaxError (msg : String) : FrameDecodeErr
  | DecodeError (msg : String) : FrameDecodeErr
  | Panicked : FrameDecodeErr
deriving DecidableEq, Repr

/-- Mirror of the `Display` implementation for `FrameDecodeErr`. -/
def FrameDecodeErr.toMessage : FrameDecodeErr → String
  | .Incomplete => "Incomplete"
  | .SyntaxError e => "Syntax error: " ++ e
  | .DecodeError e => "Decode error while -> " ++ e
  | .Panicked => "panicked"

/-- Translation of the ubiquitous source pattern
`Err(e) => Err(FrameDecodeErr::DecodeError(format!("<context> -> <e>")))`.
A panic is not caught by such a match, so `Panicked` passes through. -/
def wrapErr (ctx : String) : FrameDecodeErr → FrameDecodeErr
  | .Panicked => .Panicked
  | e => .DecodeError (ctx ++ e.toMessage)

/-- Coarse classification of a decode result, used to state claims about
which error *kind* a decoder returns without fixing message strings. -/
inductive ResKind where
  | ok : ResKind
  | incomplete : ResKind
  | syntaxErr : ResKind
  | decodeErr : ResKind
  | panicked : ResKind
deriving DecidableEq, Repr

/-- Classify a decode result by its outcome kind. -/
def resKind {α : Type} : Except FrameDecodeErr α → ResKind
  | .ok _ => .ok
  | .error .Incomplete => .incomplete
  | .error (.SyntaxError _) => .syntaxErr
  | .error (.DecodeError _) => .decodeErr
  | .error .Panicked => .panicked

/-- Mirror of `take_bytes` (`src/frame/base.rs`): nom's streaming `take`
returns `Incomplete` when fewer than `count` bytes are available; on success
the pair is `(remaining, taken)`. -/
def take_bytes (buffer : List Nat) (count : Nat) :
    Except FrameDecodeErr (List Nat × List Nat) :=
  if count ≤ buffer.length then .ok (buffer.drop count, buffer.take count)
  else .error .Incomplete

/-- Big-endian value of a byte list. -/
def beNat (bytes : List Nat) : Nat :=
  bytes.foldl (fun acc b => acc * 256 + b) 0

/-- Mirror of the nom `streaming::be_*` primitive decoders used by the
`Decode` impls for primitive types: consume `width` leading bytes or report
`Incomplete`.  (The only error nom's streaming readers produce here is
`Incomplete`, so the source's extra mapping of other nom errors is inert.) -/
def decodeBE (width : Nat) (buffer : List Nat) :
    Except FrameDecodeErr (List Nat × Nat) :=
  if width ≤ buffer.length then .ok (buffer.drop width, beNat (buffer.take width))
  else .error .Incomplete

/-- Mirror of `impl Decode<u8> for u8`. -/
def u8dec : List Nat → Except FrameDecodeErr (List Nat × Nat) := decodeBE 1

/-- Mirror of `impl Decode<u16> for u16` (also `i16`, as a bit pattern). -/
def u16dec : List Nat → Except FrameDecodeErr (List Nat × Nat) := decodeBE 2

/-- Mirror of `impl Decode<u32> for u32` (also `i32`/`f32`, as bit patterns). -/
def u32dec : List Nat → Except FrameDecodeErr (List Nat × Nat) := decodeBE 4

/-- Mirror of `impl Decode<u64> for u64` (also `i64`/`f64`, as bit patterns). -/
def u64dec : List Nat → Except FrameDecodeErr (List Nat × Nat) := decodeBE 8

/-- Mirror of `BytesMut::put_u8`. -/
def u8enc (v : Nat) : List Nat := [v % 256]

/-- Mirror of `BytesMut::put_u16` (big endian). -/
def u16be (v : Nat) : List Nat := [v / 2 ^ 8 % 256, v % 256]

/-- Mirror of `BytesMut::put_u32` (big endian). -/
def u32be (v : Nat) : List Nat :=
  [v / 2 ^ 24 % 256, v / 2 ^ 16 % 256, v / 2 ^ 8 % 256, v % 256]

/-- Mirror of `BytesMut::put_u64` (big endian). -/
def u64be (v : Nat) : List Nat :=
  [v / 2 ^ 56 % 256, v / 2 ^ 48 % 256, v / 2 ^ 40 % 256, v / 2 ^ 32 % 256,
   v / 2 ^ 24 % 256, v / 2 ^ 16 % 256, v / 2 ^ 8 % 256, v % 256]

/-- UTF-8 encoding of U+FFFD, the replacement character. -/
def replacementChar : List Nat := [0xEF, 0xBF, 0xBD]

/-- Allowed second byte of a three-byte UTF-8 sequence, per the head byte
(the `E0 A0..BF`, `E1..EC 80..BF`, `ED 80..9F`, `EE..EF 80..BF` table of
`core::str::validations`). -/
def utf8Sec3 (b0 b1 : Nat) : Prop :=
  (if b0 = 0xE0 then 0xA0 else 0x80) ≤ b1 ∧
    b1 ≤ (if b0 = 0xED then 0x9F else 0xBF)

instance (b0 b1 : Nat) : Decidable (utf8Sec3 b0 b1) := by
  unfold utf8Sec3; infer_instance

/-- Allowed second byte of a four-byte UTF-8 sequence, per the head byte
(the `F0 90..BF`, `F1..F3 80..BF`, `F4 80..8F` table). -/
def utf8Sec4 (b0 b1 : Nat) : Prop :=
  (if b0 = 0xF0 then 0x90 else 0x80) ≤ b1 ∧
    b1 ≤ (if b0 = 0xF4 then 0x8F else 0xBF)

instance (b0 b1 : Nat) : Decidable (utf8Sec4 b0 b1) := by
  unfold utf8Sec4; infer_instance

/-- One step of the UTF-8 validation automaton used by
`String::from_utf8_lossy`: given a head byte and the rest of the input,
return how many bytes the maximal subpart occupies and whether it is a valid
scalar-value encoding.  Invalid or truncated subparts are skipped whole and
replaced by a single replacement character, matching `Utf8Chunks`. -/
def utf8Classify (b0 : Nat) (rest : List Nat) : Nat × Bool :=
  if b0 < 0x80 then (1, true)
  else if 0xC2 ≤ b0 ∧ b0 ≤ 0xDF then
    match rest with
    | [] => (1, false)
    | b1 :: _ => if 0x80 ≤ b1 ∧ b1 ≤ 0xBF then (2, true) else (1, false)
  else if 0xE0 ≤ b0 ∧ b0 ≤ 0xEF then
    match rest with
    | [] => (1, false)
    | b1 :: rest1 =>
      if utf8Sec3 b0 b1 then
        match rest1 with
        | [] => (2, false)
        | b2 :: _ => if 0x80 ≤ b2 ∧ b2 ≤ 0xBF then (3, true) else (2, false)
      else (1, false)
  else if 0xF0 ≤ b0 ∧ b0 ≤ 0xF4 then
    match rest with
    | [] => (1, false)
    | b1 :: rest1 =>
      if utf8Sec4 b0 b1 then
        match rest1 with
        | [] => (2, false)
        | b2 :: rest2 =>
          if 0x80 ≤ b2 ∧ b2 ≤ 0xBF then
            match rest2 with
            | [] => (3, false)
            | b3 :: _ =>
              if 0x80 ≤ b3 ∧ b3 ≤ 0xBF then (4, true) else (3, false)
          else (2, false)
      else (1, false)
  else (1, false)

/-- Fuel-indexed worker for `utf8Lossy`; the fuel only needs to dominate the
input length because each step consumes at least one byte. -/
def utf8LossyGo : Nat → List Nat → List Nat
  | 0, _ => []
  | _ + 1, [] => []
  | fuel + 1, b :: rest =>
    let c := utf8Classify b rest
    (if c.2 then (b :: rest).take c.1 else replacementChar) ++
      utf8LossyGo fuel ((b :: rest).drop c.1)

/-- Model of `String::from_utf8_lossy(bytes).to_string()`, returning the
UTF-8 bytes of the resulting string. -/
def utf8Lossy (s : List Nat) : List Nat := utf8LossyGo s.length s

/-- Mirror of `ShortStr` (`src/frame/base.rs`): a Rust `String`, modelled by
its UTF-8 bytes. -/
structure ShortStr where
  s : List Nat
deriving DecidableEq, Repr

instance : Inhabited ShortStr := ⟨⟨[]⟩⟩

/-- Mirror of `ShortStr::with_bytes`. -/
def ShortStr.with_bytes (bytes : List Nat) : Except FrameDecodeErr ShortStr :=
  if 255 < bytes.length then .error (.SyntaxError "ShortStr too long")
  else .ok ⟨utf8Lossy bytes⟩

/-- Mirror of `impl Encode for ShortStr`: `put_u8(len as u8)` then the raw
string bytes (note the `as u8` truncation of the *string* length). -/
def ShortStr.encode (v : ShortStr) : List Nat := u8enc v.s.length ++ v.s

/-- Mirror of `impl Decode<ShortStr> for ShortStr`. -/
def ShortStr.decode (buffer : List Nat) :
    Except FrameDecodeErr (List Nat × ShortStr) :=
  match u8dec buffer with
  | .error e => .error (wrapErr "decode ShortStr length -> " e)
  | .ok (buffer, length) =>
    match take_bytes buffer length with
    | .error e => .error (wrapErr "decode ShortStr bytes -> " e)
    | .ok (buffer, data) =>
      match ShortStr.with_bytes data with
      | .error e => .error (wrapErr "decode but build ShortStr failed -> " e)
      | .ok short_str => .ok (buffer, short_str)

/-- Mirror of `MAX_LONG_STR_LEN`. -/
def MAX_LONG_STR_LEN : Nat := 64 * 1024

/-- Mirror of `LongStr` (`src/frame/base.rs`). -/
structure LongStr where
  s : List Nat
deriving DecidableEq, Repr

instance : Inhabited LongStr := ⟨⟨[]⟩⟩

/-- Mirror of `LongStr::with_bytes`. -/
def LongStr.with_bytes (bytes : List Nat) : Except FrameDecodeErr LongStr :=
  if MAX_LONG_STR_LEN < bytes.length then .error (.SyntaxError "LongStr too long")
  else .ok ⟨utf8Lossy bytes⟩

/-- Mirror of `impl Encode for LongStr`. -/
def LongStr.encode (v : LongStr) : List Nat := u32be v.s.length ++ v.s

/-- Mirror of `impl Decode<LongStr> for LongStr`. -/
def LongStr.decode (buffer : List Nat) :
    Except FrameDecodeErr (List Nat × LongStr) :=
  match u32dec buffer with
  | .error e => .error (wrapErr "decode LongStr length -> " e)
  | .ok (buffer, length) =>
    match take_bytes buffer length with
    | .error e => .error (wrapErr "decode LongStr bytes -> " e)
    | .ok (buffer, data) =>
      match LongStr.with_bytes data with
      | .error e => .error (wrapErr "decode but build LongStr failed -> " e)
      | .ok long_str => .ok (buffer, long_str)

/-- Mirror of `pub type ByteArray = LongStr`. -/
abbrev AmqpByteArray := LongStr

/-- Mirror of `pub type BytesArray = LongStr`. -/
abbrev BytesArrayTy := LongStr

/-- Mirror of `Decimal` (`src/frame/base.rs`): `(scale: u8, value: u32)`. -/
structure Decimal where
  scale : Nat
  value : Nat
deriving DecidableEq, Repr

/-- Mirror of `Decimal::new`. -/
def Decimal.new (scale value : Nat) : Decimal := ⟨scale, value⟩

/-- Mirror of `impl Encode for Decimal`. -/
def Decimal.encode (v : Decimal) : List Nat := u8enc v.scale ++ u32be v.value

/-- Mirror of `impl Decode<Decimal> for Decimal`. -/
def Decimal.decode (buffer : List Nat) :
    Except FrameDecodeErr (List Nat × Decimal) :=
  match u8dec buffer with
  | .error e => .error (wrapErr "decode Decimal scale -> " e)
  | .ok (buffer, scale) =>
    match u32dec buffer with
    | .error e => .error (wrapErr "decode Decimal value -> " e)
    | .ok (buffer, value) => .ok (buffer, ⟨scale, value⟩)

/-- Mirror of `MAX_FIELD_NAME_LEN`. -/
def MAX_FIELD_NAME_LEN : Nat := 128

/-- Mirror of `FieldName` (`src/frame/base.rs`): a constrained `ShortStr`. -/
structure FieldName where
  inner : ShortStr
deriving DecidableEq, Repr

/-- The first-character check of `FieldName::with_bytes`: `$`, `#`,
`a`-`z` or `A`-`Z`. -/
def fieldNameStartOk (b0 : Nat) : Prop :=
  b0 = 36 ∨ b0 = 35 ∨ (97 ≤ b0 ∧ b0 ≤ 122) ∨ (65 ≤ b0 ∧ b0 ≤ 90)

instance (b0 : Nat) : Decidable (fieldNameStartOk b0) := by
  unfold fieldNameStartOk; infer_instance

/-- Mirror of `FieldName::with_bytes`.  The source evaluates `bytes[0]`
unconditionally, which on an empty slice is an out-of-bounds index and hence
a Rust panic; this is modelled by `Panicked`. -/
def FieldName.with_bytes (bytes : List Nat) : Except FrameDecodeErr FieldName :=
  match bytes with
  | [] => .error .Panicked
  | b0 :: _ =>
    if fieldNameStartOk b0 then
      if MAX_FIELD_NAME_LEN < bytes.length then
        .error (.SyntaxError "FieldName field name length too long")
      else
        match ShortStr.with_bytes bytes with
        | .ok value => .ok ⟨value⟩
        | .error e => .error (wrapErr "build FieldName failed -> " e)
    else .error (.SyntaxError "FieldName start char error")

/-- Mirror of `impl Encode for FieldName`. -/
def FieldName.encode (v : FieldName) : List Nat := ShortStr.encode v.inner

/-- Mirror of `impl Decode<FieldName> for FieldName`. -/
def FieldName.decode (buffer : List Nat) :
    Except FrameDecodeErr (List Nat × FieldName) :=
  match u8dec buffer with
  | .error e => .error (wrapErr "decode FieldName length -> " e)
  | .ok (buffer, length) =>
    match take_bytes buffer length with
    | .error e => .error (wrapErr "decode FieldName bytes -> " e)
    | .ok (buffer, data) =>
      match FieldName.with_bytes data with
      | .ok v => .ok (buffer, v)
      | .error e => .error (wrapErr "decode but build FieldName failed -> " e)

/-! ### UTF-8 lossy conversion: supporting lemmas -/

/-- Every classification step consumes at least one byte. -/
theorem utf8Classify_pos (b0 : Nat) (rest : List Nat) :
    1 ≤ (utf8Classify b0 rest).1 := by
  rcases rest with _ | ⟨b1, _ | ⟨b2, _ | ⟨b3, rest3⟩⟩⟩ <;>
    (unfold utf8Classify; repeat' split) <;>
    first | decide | simp_all | (simp_all; omega)

/-- Every classification step stays within the input. -/
theorem utf8Classify_le (b0 : Nat) (rest : List Nat) :
    (utf8Classify b0 rest).1 ≤ rest.length + 1 := by
  rcases rest with _ | ⟨b1, _ | ⟨b2, _ | ⟨b3, rest3⟩⟩⟩ <;>
    (unfold utf8Classify; repeat' split) <;>
    first | decide | simp_all | (simp_all; omega) | simp | omega

/-- The fuel of `utf8LossyGo` is irrelevant once it dominates the length. -/
theorem utf8LossyGo_over (f : Nat) :
    ∀ g s, s.length ≤ g → g ≤ f → utf8LossyGo g s = utf8LossyGo s.length s := by
  induction f with
  | zero =>
    intro g s hs hg
    interval_cases g
    simp_all
  | succ f ih =>
    intro g s hs hg
    match s with
    | [] =>
      cases g <;> simp [utf8LossyGo]
    | b :: rest =>
      match g, hs with
      | g + 1, hs =>
        simp only [utf8LossyGo, List.length_cons]
        have hn1 := utf8Classify_pos b rest
        have hn2 := utf8Classify_le b rest
        have hc : (b :: rest).length = rest.length + 1 := rfl
        have hd : ((b :: rest).drop (utf8Classify b rest).1).length =
            rest.length + 1 - (utf8Classify b rest).1 := by
          simp only [List.length_drop, List.length_cons]
        rw [ih g ((b :: rest).drop (utf8Classify b rest).1) (by omega) (by omega),
            ih rest.length ((b :: rest).drop (utf8Classify b rest).1) (by omega) (by omega)]

/-- Unfolding step for `utf8Lossy` on a nonempty input. -/
theorem utf8Lossy_step (b0 : Nat) (rest : List Nat) :
    utf8Lossy (b0 :: rest) =
      (if (utf8Classify b0 rest).2 then (b0 :: rest).take (utf8Classify b0 rest).1
       else replacementChar) ++ utf8Lossy ((b0 :: rest).drop (utf8Classify b0 rest).1) := by
  have hn1 := utf8Classify_pos b0 rest
  have hn2 := utf8Classify_le b0 rest
  simp only [utf8Lossy, List.length_cons, utf8LossyGo]
  rw [utf8LossyGo_over rest.length rest.length ((b0 :: rest).drop (utf8Classify b0 rest).1)
        (by simp only [List.length_drop, List.length_cons]; omega) (le_refl _)]

/-- A single valid UTF-8 scalar-value encoding, following the byte-range
table of `core::str::validations::run_utf8_validation`. -/
inductive Utf8Seq : List Nat → Prop where
  | one (b0 : Nat) (h : b0 < 0x80) : Utf8Seq [b0]
  | two (b0 b1 : Nat) (h0 : 0xC2 ≤ b0 ∧ b0 ≤ 0xDF)
      (h1 : 0x80 ≤ b1 ∧ b1 ≤ 0xBF) : Utf8Seq [b0, b1]
  | three (b0 b1 b2 : Nat) (h0 : 0xE0 ≤ b0 ∧ b0 ≤ 0xEF) (h1 : utf8Sec3 b0 b1)
      (h2 : 0x80 ≤ b2 ∧ b2 ≤ 0xBF) : Utf8Seq [b0, b1, b2]
  | four (b0 b1 b2 b3 : Nat) (h0 : 0xF0 ≤ b0 ∧ b0 ≤ 0xF4) (h1 : utf8Sec4 b0 b1)
      (h2 : 0x80 ≤ b2 ∧ b2 ≤ 0xBF) (h3 : 0x80 ≤ b3 ∧ b3 ≤ 0xBF) :
      Utf8Seq [b0, b1, b2, b3]

/-- A valid UTF-8 string: a concatenation of valid scalar encodings. -/
inductive ValidUtf8 : List Nat → Prop where
  | nil : ValidUtf8 []
  | app (c t : List Nat) : Utf8Seq c → ValidUtf8 t → ValidUtf8 (c ++ t)

/-- Classification at the head of a valid sequence recognises exactly that
sequence, regardless of what follows. -/
theorem utf8Classify_seq {b0 : Nat} {cs : List Nat} (h : Utf8Seq (b0 :: cs))
    (t : List Nat) : utf8Classify b0 (cs ++ t) = (cs.length + 1, true) := by
  cases h with
  | one b0 hb =>
    simp [utf8Classify, if_pos hb]
  | two b0 b1 h0 h1 =>
    unfold utf8Classify
    rw [if_neg (by omega), if_pos h0]
    simp [if_pos h1]
  | three b0 b1 b2 h0 h1 h2 =>
    unfold utf8Classify
    rw [if_neg (by omega), if_neg (by unfold utf8Sec3 at h1; split at h1 <;> omega),
        if_pos h0]
    simp [if_pos h1, if_pos h2]
  | four b0 b1 b2 b3 h0 h1 h2 h3 =>
    unfold utf8Classify
    rw [if_neg (by omega), if_neg (by omega), if_neg (by omega), if_pos h0]
    simp [if_pos h1, if_pos h2, if_pos h3]

/-- `utf8Lossy` copies a leading valid sequence verbatim. -/
theorem utf8Lossy_seq_append {c : List Nat} (h : Utf8Seq c) (t : List Nat) :
    utf8Lossy (c ++ t) = c ++ utf8Lossy t := by
  have hne : ∃ b0 cs, c = b0 :: cs := by
    cases h <;> exact ⟨_, _, rfl⟩
  obtain ⟨b0, cs, rfl⟩ := hne
  rw [List.cons_append, utf8Lossy_step, utf8Classify_seq h t]
  simp only [← List.cons_append]
  have hlen : (b0 :: cs).length = cs.length + 1 := by simp
  rw [← hlen, List.take_left, List.drop_left]
  simp

/-- `utf8Lossy` is the identity on valid UTF-8 input (`from_utf8_lossy` of a
valid string copies it). -/
theorem utf8Lossy_of_valid {s : List Nat} (h : ValidUtf8 s) : utf8Lossy s = s := by
  induction h with
  | nil => rfl
  | app c t hc _ ih => rw [utf8Lossy_seq_append hc, ih]

/-- The replacement character is itself a valid sequence. -/
theorem utf8Seq_replacement : Utf8Seq replacementChar := by
  refine Utf8Seq.three 0xEF 0xBF 0xBD (by omega) ?_ (by omega)
  unfold utf8Sec3
  norm_num

/-- A successful classification yields a valid sequence. -/
theorem utf8Classify_true_seq {b0 : Nat} {rest : List Nat} {n : Nat}
    (h : utf8Classify b0 rest = (n, true)) : Utf8Seq ((b0 :: rest).take n) := by
  rcases rest with _ | ⟨b1, _ | ⟨b2, _ | ⟨b3, rest3⟩⟩⟩ <;>
    (unfold utf8Classify at h; repeat' split at h) <;>
    (try cases h) <;> simp_all <;>
    first
      | exact Utf8Seq.one _ (by assumption)
      | exact Utf8Seq.two _ _ (by assumption) (by assumption)
      | exact Utf8Seq.three _ _ _ (by assumption) (by assumption) (by assumption)
      | exact Utf8Seq.four _ _ _ _ (by assumption) (by assumption) (by assumption)
          (by assumption)

/-- The output of `utf8Lossy` is always valid UTF-8. -/
theorem validUtf8_utf8Lossy (s : List Nat) : ValidUtf8 (utf8Lossy s) := by
  generalize hn : s.length = n
  induction n using Nat.strong_induction_on generalizing s with
  | _ n ih =>
    match s with
    | [] => exact ValidUtf8.nil
    | b0 :: rest =>
      rw [utf8Lossy_step]
      have hn1 := utf8Classify_pos b0 rest
      have hrec : ValidUtf8 (utf8Lossy ((b0 :: rest).drop (utf8Classify b0 rest).1)) := by
        refine ih ((b0 :: rest).drop (utf8Classify b0 rest).1).length ?_ _ rfl
        simp only [List.length_drop, List.length_cons] at *
        omega
      rcases hc : (utf8Classify b0 rest).2 with _ | _
      · rw [if_neg (by simp)]
        exact ValidUtf8.app _ _ utf8Seq_replacement hrec
      · rw [if_pos rfl]
        refine ValidUtf8.app _ _ ?_ hrec
        exact utf8Classify_true_seq (by rw [← hc])

/-- `from_utf8_lossy` is idempotent. -/
theorem utf8Lossy_idem (s : List Nat) : utf8Lossy (utf8Lossy s) = utf8Lossy s :=
  utf8Lossy_of_valid (validUtf8_utf8Lossy s)

/-! ### FieldValue, FieldArray, FieldTable -/

/-- Mirror of `FieldValueKind` (`src/frame/base.rs`). -/
inductive FieldValueKind where
  | Boolean : FieldValueKind
  | I8 : FieldValueKind
  | U8 : FieldValueKind
  | I16 : FieldValueKind
  | U16 : FieldValueKind
  | I32 : FieldValueKind
  | U32 : FieldValueKind
  | I64 : FieldValueKind
  | U64 : FieldValueKind
  | F32 : FieldValueKind
  | F64 : FieldValueKind
  | Timestamp : FieldValueKind
  | Decimal : FieldValueKind
  | LongStr : FieldValueKind
  | FieldArray : FieldValueKind
  | FieldTable : FieldValueKind
  | BytesArray : FieldValueKind
  | Void : FieldValueKind
  | Unknown : FieldValueKind
deriving DecidableEq, Repr

/-- Mirror of `FieldValueKind::as_u8`. -/
def FieldValueKind.as_u8 : FieldValueKind → Nat
  | .Boolean => 116
  | .I8 => 98
  | .U8 => 66
  | .I16 => 115
  | .U16 => 117
  | .I32 => 73
  | .U32 => 105
  | .I64 => 108
  | .U64 => 76
  | .F32 => 102
  | .F64 => 100
  | .Timestamp => 84
  | .Decimal => 68
  | .LongStr => 83
  | .FieldArray => 65
  | .FieldTable => 70
  | .BytesArray => 120
  | .Void => 86
  | .Unknown => 0xff

/-- Mirror of `impl From<u8> for FieldValueKind` (the ASCII tag table). -/
def FieldValueKind.fromU8 (tag : Nat) : FieldValueKind :=
  if tag = 116 then .Boolean
  else if tag = 98 then .I8
  else if tag = 66 then .U8
  else if tag = 115 then .I16
  else if tag = 117 then .U16
  else if tag = 73 then .I32
  else if tag = 105 then .U32
  else if tag = 108 then .I64
  else if tag = 76 then .U64
  else if tag = 102 then .F32
  else if tag = 100 then .F64
  else if tag = 84 then .Timestamp
  else if tag = 68 then .Decimal
  else if tag = 83 then .LongStr
  else if tag = 65 then .FieldArray
  else if tag = 70 then .FieldTable
  else if tag = 120 then .BytesArray
  else if tag = 86 then .Void
  else .Unknown

mutual
/-- Mirror of `FieldValue` (`src/frame/base.rs`).  Signed integers and floats
are represented by their bit patterns (the only view the codec ever takes). -/
inductive FieldValue where
  | Boolean (v : Bool) : FieldValue
  | U8 (v : Nat) : FieldValue
  | I8 (v : Nat) : FieldValue
  | U16 (v : Nat) : FieldValue
  | I16 (v : Nat) : FieldValue
  | U32 (v : Nat) : FieldValue
  | I32 (v : Nat) : FieldValue
  | U64 (v : Nat) : FieldValue
  | I64 (v : Nat) : FieldValue
  | F32 (bits : Nat) : FieldValue
  | F64 (bits : Nat) : FieldValue
  | Timestamp (v : Nat) : FieldValue
  | Decimal (d : AmqpProto.Decimal) : FieldValue
  | LongStr (s : AmqpProto.LongStr) : FieldValue
  | FieldArray (a : FieldArray) : FieldValue
  | FieldTable (t : FieldTable) : FieldValue
  | BytesArray (s : AmqpProto.LongStr) : FieldValue
  | Void : FieldValue
/-- Mirror of `pub type FieldArray = Vec<FieldValue>` (a list of values). -/
inductive FieldArray where
  | nil : FieldArray
  | cons (v : FieldValue) (tl : FieldArray) : FieldArray
/-- Mirror of `pub type FieldTable = HashMap<FieldName, FieldValue>`, modelled
as its sequence of entries in iteration order. -/
inductive FieldTable where
  | nil : FieldTable
  | cons (k : FieldName) (v : FieldValue) (tl : FieldTable) : FieldTable
end

deriving instance DecidableEq for FieldValue
deriving instance DecidableEq for FieldArray
deriving instance DecidableEq for FieldTable

/-- Mirror of `FieldValue::get_value_kind`. -/
def FieldValue.get_value_kind : FieldValue → FieldValueKind
  | .Boolean _ => .Boolean
  | .U8 _ => .U8
  | .I8 _ => .I8
  | .U16 _ => .U16
  | .I16 _ => .I16
  | .U32 _ => .U32
  | .I32 _ => .I32
  | .U64 _ => .U64
  | .I64 _ => .I64
  | .F32 _ => .F32
  | .F64 _ => .F64
  | .Timestamp _ => .Timestamp
  | .Decimal _ => .Decimal
  | .LongStr _ => .LongStr
  | .FieldArray _ => .FieldArray
  | .FieldTable _ => .FieldTable
  | .BytesArray _ => .BytesArray
  | .Void => .Void

mutual
/-- Mirror of `impl Encode for FieldValue`: the kind tag byte, then the
payload.  For the container kinds the byte-length prefix produced by the
source's two-pass length patch (reserve a u32, write the body, patch the
length) is written inline; `FieldArray.encode`/`FieldTable.encode` below are
the same expressions, packaged for the container `Encode` impls. -/
def FieldValue.encode : FieldValue → List Nat
  | .Boolean v => u8enc (FieldValueKind.Boolean.as_u8) ++ u8enc (if v then 1 else 0)
  | .U8 v => u8enc (FieldValueKind.U8.as_u8) ++ u8enc v
  | .I8 v => u8enc (FieldValueKind.I8.as_u8) ++ u8enc v
  | .U16 v => u8enc (FieldValueKind.U16.as_u8) ++ u16be v
  | .I16 v => u8enc (FieldValueKind.I16.as_u8) ++ u16be v
  | .U32 v => u8enc (FieldValueKind.U32.as_u8) ++ u32be v
  | .I32 v => u8enc (FieldValueKind.I32.as_u8) ++ u32be v
  | .U64 v => u8enc (FieldValueKind.U64.as_u8) ++ u64be v
  | .I64 v => u8enc (FieldValueKind.I64.as_u8) ++ u64be v
  | .F32 bits => u8enc (FieldValueKind.F32.as_u8) ++ u32be bits
  | .F64 bits => u8enc (FieldValueKind.F64.as_u8) ++ u64be bits
  | .Timestamp v => u8enc (FieldValueKind.Timestamp.as_u8) ++ u64be v
  | .Decimal d => u8enc (FieldValueKind.Decimal.as_u8) ++ Decimal.encode d
  | .LongStr s => u8enc (FieldValueKind.LongStr.as_u8) ++ LongStr.encode s
  | .FieldArray a =>
      u8enc (FieldValueKind.FieldArray.as_u8) ++
        (u32be (FieldArray.encodeItems a).length ++ FieldArray.encodeItems a)
  | .FieldTable t =>
      u8enc (FieldValueKind.FieldTable.as_u8) ++
        (u32be (FieldTable.encodeEntries t).length ++ FieldTable.encodeEntries t)
  | .BytesArray s => u8enc (FieldValueKind.BytesArray.as_u8) ++ LongStr.encode s
  | .Void => u8enc (FieldValueKind.Void.as_u8)
termination_by structural v => v
/-- The item-writing loop of `impl Encode for FieldArray`. -/
def FieldArray.encodeItems : FieldArray → List Nat
  | .nil => []
  | .cons v tl => FieldValue.encode v ++ FieldArray.encodeItems tl
termination_by structural a => a
/-- The entry-writing loop of `impl Encode for FieldTable`. -/
def FieldTable.encodeEntries : FieldTable → List Nat
  | .nil => []
  | .cons k v tl =>
      FieldName.encode k ++ FieldValue.encode v ++ FieldTable.encodeEntries tl
termination_by structural t => t
end

/-- Mirror of `impl Encode for FieldArray`: the two-pass strategy nets a
big-endian byte-length prefix followed by the item encodings. -/
def FieldArray.encode (a : FieldArray) : List Nat :=
  u32be (FieldArray.encodeItems a).length ++ FieldArray.encodeItems a

/-- Mirror of `impl Encode for FieldTable` (same two-pass length patch). -/
def FieldTable.encode (t : FieldTable) : List Nat :=
  u32be (FieldTable.encodeEntries t).length ++ FieldTable.encodeEntries t

/-- `FieldValue::encode` of an array value is the tag byte followed by the
array encoding, as in the source dispatch. -/
theorem fieldValue_encode_fieldArray (a : FieldArray) :
    FieldValue.encode (.FieldArray a) =
      u8enc (FieldValueKind.FieldArray.as_u8) ++ FieldArray.encode a := rfl

/-- `FieldValue::encode` of a table value is the tag byte followed by the
table encoding, as in the source dispatch. -/
theorem fieldValue_encode_fieldTable (t : FieldTable) :
    FieldValue.encode (.FieldTable t) =
      u8enc (FieldValueKind.FieldTable.as_u8) ++ FieldTable.encode t := rfl

/-- Mirror of `Vec::push`. -/
def FieldArray.push : FieldArray → FieldValue → FieldArray
  | .nil, v => .cons v .nil
  | .cons v' tl, v => .cons v' (FieldArray.push tl v)

/-- Model of `HashMap::insert`: overwrite the binding if the key is present,
otherwise add a new binding (at the end of the model's iteration order). -/
def FieldTable.insertEntry : FieldTable → FieldName → FieldValue → FieldTable
  | .nil, k, v => .cons k v .nil
  | .cons k' v' tl, k, v =>
      if k' = k then .cons k' v tl else .cons k' v' (FieldTable.insertEntry tl k v)

mutual
/-- Mirror of `impl Decode<FieldValue> for FieldValue`.  The `fuel` parameter
bounds the recursion depth of the model; the public wrapper passes
`buffer.length + 1` and the proofs show the bound is never hit on the
executions at issue. -/
def FieldValue.decodeF : Nat → List Nat → Except FrameDecodeErr (List Nat × FieldValue)
  | 0, _ => .error (.DecodeError "model recursion fuel exhausted")
  | fuel + 1, buffer =>
    match u8dec buffer with
    | .error e => .error (wrapErr "decode FieldValue type -> " e)
    | .ok (buffer, value_type) =>
      match FieldValueKind.fromU8 value_type with
      | .Boolean =>
        match u8dec buffer with
        | .ok (buffer, value) =>
          if value = 0 then .ok (buffer, .Boolean false)
          else .ok (buffer, .Boolean true)
        | .error e => .error (wrapErr "decode FieldValue boolean -> " e)
      | .I8 =>
        match u8dec buffer with
        | .error e => .error (wrapErr "decode FieldValue i8 -> " e)
        | .ok (buffer, v) => .ok (buffer, .I8 v)
      | .U8 =>
        match u8dec buffer with
        | .error e => .error (wrapErr "decode FieldValue u8 -> " e)
        | .ok (buffer, v) => .ok (buffer, .U8 v)
      | .I16 =>
        match u16dec buffer with
        | .error e => .error (wrapErr "decode FieldValue i16 -> " e)
        | .ok (buffer, v) => .ok (buffer, .I16 v)
      | .U16 =>
        match u16dec buffer with
        | .error e => .error (wrapErr "decode FieldValue u16 -> " e)
        | .ok (buffer, v) => .ok (buffer, .U16 v)
      | .I32 =>
        match u32dec buffer with
        | .error e => .error (wrapErr "decode FieldValue i32 -> " e)
        | .ok (buffer, v) => .ok (buffer, .I32 v)
      | .U32 =>
        match u32dec buffer with
        | .error e => .error (wrapErr "decode FieldValue u32 -> " e)
        | .ok (buffer, v) => .ok (buffer, .U32 v)
      | .I64 =>
        match u64dec buffer with
        | .error e => .error (wrapErr "decode FieldValue i64 -> " e)
        | .ok (buffer, v) => .ok (buffer, .I64 v)
      | .U64 =>
        match u64dec buffer with
        | .error e => .error (wrapErr "decode FieldValue u64 -> " e)
        | .ok (buffer, v) => .ok (buffer, .U64 v)
      | .F32 =>
        match u32dec buffer with
        | .error e => .error (wrapErr "decode FieldValue f32 -> " e)
        | .ok (buffer, v) => .ok (buffer, .F32 v)
      | .F64 =>
        match u64dec buffer with
        | .error e => .error (wrapErr "decode FieldValue f64 -> " e)
        | .ok (buffer, v) => .ok (buffer, .F64 v)
      | .Timestamp =>
        match u64dec buffer with
        | .error e => .error (wrapErr "decode FieldValue timestamp -> " e)
        | .ok (buffer, v) => .ok (buffer, .Timestamp v)
      | .Decimal =>
        match Decimal.decode buffer with
        | .error e => .error (wrapErr "decode FieldValue decimal -> " e)
        | .ok (buffer, v) => .ok (buffer, .Decimal v)
      | .LongStr =>
        match LongStr.decode buffer with
        | .error e => .error (wrapErr "decode FieldValue long string -> " e)
        | .ok (buffer, v) => .ok (buffer, .LongStr v)
      | .FieldArray =>
        match FieldArray.decodeF fuel buffer with
        | .error e => .error (wrapErr "decode FieldValue FieldArray -> " e)
        | .ok (buffer, v) => .ok (buffer, .FieldArray v)
      | .BytesArray =>
        match LongStr.decode buffer with
        | .error e => .error (wrapErr "decode FieldValue ByteArray -> " e)
        | .ok (buffer, v) => .ok (buffer, .BytesArray v)
      | .FieldTable =>
        match FieldTable.decodeF fuel buffer with
        | .error e => .error (wrapErr "decode FieldValue FieldTable -> " e)
        | .ok (buffer, v) => .ok (buffer, .FieldTable v)
      | .Void => .ok (buffer, .Void)
      | .Unknown => .error (.DecodeError "decode FieldValue failed, unknown field value kind")
termination_by structural fuel buffer => fuel
/-- Mirror of `impl Decode<FieldArray> for FieldArray`. -/
def FieldArray.decodeF : Nat → List Nat → Except FrameDecodeErr (List Nat × FieldArray)
  | 0, _ => .error (.DecodeError "model recursion fuel exhausted")
  | fuel + 1, buffer =>
    match u32dec buffer with
    | .error e => .error (wrapErr "decode FieldArray length -> " e)
    | .ok (buffer, length) =>
      match take_bytes buffer length with
      | .error e => .error (wrapErr "decode FieldArray bytes->" e)
      | .ok (buffer, data) =>
        match FieldArray.decodeItems fuel .nil data with
        | .error e => .error e
        | .ok arr => .ok (buffer, arr)
termination_by structural fuel buffer => fuel
/-- The item loop of `FieldArray::decode` (a do-while: it decodes one value
before testing whether the slice is exhausted). -/
def FieldArray.decodeItems : Nat → FieldArray → List Nat → Except FrameDecodeErr FieldArray
  | 0, _, _ => .error (.DecodeError "model recursion fuel exhausted")
  | fuel + 1, arr, tmp =>
    match FieldValue.decodeF fuel tmp with
    | .error e => .error (wrapErr "read FieldArray item failed -> " e)
    | .ok (retain, value) =>
      if retain.length = 0 then .ok (FieldArray.push arr value)
      else FieldArray.decodeItems fuel (FieldArray.push arr value) retain
termination_by structural fuel arr tmp => fuel
/-- Mirror of `impl Decode<FieldTable> for FieldTable`. -/
def FieldTable.decodeF : Nat → List Nat → Except FrameDecodeErr (List Nat × FieldTable)
  | 0, _ => .error (.DecodeError "model recursion fuel exhausted")
  | fuel + 1, buffer =>
    match u32dec buffer with
    | .error e => .error (wrapErr "decode FieldTable length -> " e)
    | .ok (buffer, length) =>
      match take_bytes buffer length with
      | .error e => .error (wrapErr "decode FieldTable bytes -> " e)
      | .ok (buffer, data) =>
        match FieldTable.decodeItems fuel .nil data with
        | .error e => .error e
        | .ok table => .ok (buffer, table)
termination_by structural fuel buffer => fuel
/-- The entry loop of `FieldTable::decode` (a do-while over name/value pairs,
inserting into the map as it goes). -/
def FieldTable.decodeItems : Nat → FieldTable → List Nat → Except FrameDecodeErr FieldTable
  | 0, _, _ => .error (.DecodeError "model recursion fuel exhausted")
  | fuel + 1, table, tmp =>
    match FieldName.decode tmp with
    | .error e => .error (wrapErr "decode FieldTable FieldName failed: " e)
    | .ok (retain, name) =>
      match FieldValue.decodeF fuel retain with
      | .error e => .error (wrapErr "decode FieldTable FieldValue failed: " e)
      | .ok (retain, value) =>
        if retain.length = 0 then .ok (FieldTable.insertEntry table name value)
        else FieldTable.decodeItems fuel (FieldTable.insertEntry table name value) retain
termination_by structural fuel table tmp => fuel
end

/-- Public wrapper for `FieldValue::decode` with enough fuel for its input. -/
def FieldValue.decode (buffer : List Nat) : Except FrameDecodeErr (List Nat × FieldValue) :=
  FieldValue.decodeF (buffer.length + 1) buffer

/-- Public wrapper for `FieldArray::decode` with enough fuel for its input. -/
def FieldArray.decode (buffer : List Nat) : Except FrameDecodeErr (List Nat × FieldArray) :=
  FieldArray.decodeF (buffer.length + 1) buffer

/-- Public wrapper for `FieldTable::decode` with enough fuel for its input. -/
def FieldTable.decode (buffer : List Nat) : Except FrameDecodeErr (List Nat × FieldTable) :=
  FieldTable.decodeF (buffer.length + 1) buffer

/-- Emptiness test for the array model. -/
def FieldArray.isNil : FieldArray → Bool
  | .nil => true
  | .cons _ _ => false

/-- Emptiness test for the table model. -/
def FieldTable.isNil : FieldTable → Bool
  | .nil => true
  | .cons _ _ _ => false

/-- Key freshness in the table model. -/
def FieldTable.keyNotIn (k : FieldName) : FieldTable → Bool
  | .nil => true
  | .cons k' _ tl => decide (k' ≠ k) && FieldTable.keyNotIn k tl

/-- Key uniqueness in the table model (the `HashMap` representation
invariant). -/
def FieldTable.keysNodup : FieldTable → Bool
  | .nil => true
  | .cons k _ tl => FieldTable.keyNotIn k tl && FieldTable.keysNodup tl

/-- Well-formedness of a `ShortStr` value for round-trip purposes: its string
is valid UTF-8 (true of every Rust `String`) and at most 255 bytes long. -/
def ShortStr.wfB (v : ShortStr) : Bool :=
  decide (v.s.length ≤ 255) && (utf8Lossy v.s == v.s)

/-- Well-formedness of a `LongStr` value: valid UTF-8, within the library's
64 KiB cap. -/
def LongStr.wfB (v : LongStr) : Bool :=
  decide (v.s.length ≤ MAX_LONG_STR_LEN) && (utf8Lossy v.s == v.s)

/-- Well-formedness of a `FieldName` value: nonempty, an allowed first byte,
within the 128-byte cap, valid UTF-8 (the invariants `with_bytes` enforces on
construction). -/
def FieldName.wfB (k : FieldName) : Bool :=
  match k.inner.s with
  | [] => false
  | b0 :: _ =>
      decide (fieldNameStartOk b0) &&
      decide (k.inner.s.length ≤ MAX_FIELD_NAME_LEN) &&
      (utf8Lossy k.inner.s == k.inner.s)

mutual
/-- Well-formedness of a `FieldValue`: numeric payloads fit their wire width;
strings satisfy their constructors' invariants; nested containers are
nonempty (the decoder's do-while loop cannot return an empty container),
within the u32 length prefix, and have unique keys. -/
def FieldValue.wf : FieldValue → Bool
  | .Boolean _ => true
  | .U8 v => decide (v < 2 ^ 8)
  | .I8 v => decide (v < 2 ^ 8)
  | .U16 v => decide (v < 2 ^ 16)
  | .I16 v => decide (v < 2 ^ 16)
  | .U32 v => decide (v < 2 ^ 32)
  | .I32 v => decide (v < 2 ^ 32)
  | .U64 v => decide (v < 2 ^ 64)
  | .I64 v => decide (v < 2 ^ 64)
  | .F32 bits => decide (bits < 2 ^ 32)
  | .F64 bits => decide (bits < 2 ^ 64)
  | .Timestamp v => decide (v < 2 ^ 64)
  | .Decimal d => decide (d.scale < 2 ^ 8) && decide (d.value < 2 ^ 32)
  | .LongStr s => LongStr.wfB s
  | .BytesArray s => LongStr.wfB s
  | .FieldArray a =>
      FieldArray.wfItems a && !a.isNil &&
        decide ((FieldArray.encodeItems a).length < 2 ^ 32)
  | .FieldTable t =>
      FieldTable.wfEntries t && !t.isNil && FieldTable.keysNodup t &&
        decide ((FieldTable.encodeEntries t).length < 2 ^ 32)
  | .Void => true
termination_by structural v => v
/-- Well-formedness of every element of an array. -/
def FieldArray.wfItems : FieldArray → Bool
  | .nil => true
  | .cons v tl => FieldValue.wf v && FieldArray.wfItems tl
termination_by structural a => a
/-- Well-formedness of every entry of a table. -/
def FieldTable.wfEntries : FieldTable → Bool
  | .nil => true
  | .cons k v tl => FieldName.wfB k && FieldValue.wf v && FieldTable.wfEntries tl
termination_by structural t => t
end

/-! ### Primitive reader/writer lemmas -/

theorem beNat_u8enc (v : Nat) : beNat (u8enc v) = v % 256 := by
  simp [beNat, u8enc]

theorem beNat_u16be (v : Nat) : beNat (u16be v) = v % 2 ^ 16 := by
  simp only [beNat, u16be, List.foldl]
  omega

theorem beNat_u32be (v : Nat) : beNat (u32be v) = v % 2 ^ 32 := by
  simp only [beNat, u32be, List.foldl]
  omega

theorem beNat_u64be (v : Nat) : beNat (u64be v) = v % 2 ^ 64 := by
  simp only [beNat, u64be, List.foldl]
  omega

theorem u8enc_length (v : Nat) : (u8enc v).length = 1 := rfl

theorem u16be_length (v : Nat) : (u16be v).length = 2 := rfl

theorem u32be_length (v : Nat) : (u32be v).length = 4 := rfl

theorem u64be_length (v : Nat) : (u64be v).length = 8 := rfl

/-- A big-endian reader consumes exactly its chunk when it leads the input. -/
theorem decodeBE_append (chunk rest : List Nat) (w : Nat) (h : chunk.length = w) :
    decodeBE w (chunk ++ rest) = .ok (rest, beNat chunk) := by
  subst h
  rw [decodeBE, if_pos (by simp), List.drop_left, List.take_left]

/-- A big-endian reader reports `Incomplete` on a short input. -/
theorem decodeBE_short (b : List Nat) (w : Nat) (h : b.length < w) :
    decodeBE w b = .error .Incomplete := by
  rw [decodeBE, if_neg (by omega)]

/-- `take_bytes` consumes exactly its chunk when it leads the input. -/
theorem take_bytes_append (chunk rest : List Nat) :
    take_bytes (chunk ++ rest) chunk.length = .ok (rest, chunk) := by
  rw [take_bytes, if_pos (by simp), List.drop_left, List.take_left]

/-- `take_bytes` reports `Incomplete` on a short input. -/
theorem take_bytes_short (b : List Nat) (n : Nat) (h : b.length < n) :
    take_bytes b n = .error .Incomplete := by
  rw [take_bytes, if_neg (by omega)]

/-- An `Incomplete` passed through the error-wrapping pattern becomes a
generic `DecodeError`. -/
theorem resKind_wrap_incomplete {α : Type} (ctx : String) :
    resKind (α := α) (.error (wrapErr ctx .Incomplete)) = .decodeErr := rfl

/-! ### String-type round-trip lemmas -/

/-- `ShortStr::decode` undoes `ShortStr::encode` for well-formed values
(valid UTF-8, string at most 255 bytes), consuming exactly the encoding. -/
theorem shortStr_decode_encode (v : ShortStr) (h : v.wfB = true) (rest : List Nat) :
    ShortStr.decode (ShortStr.encode v ++ rest) = .ok (rest, v) := by
  obtain ⟨hle, hlossy⟩ := by simpa [ShortStr.wfB] using h
  have hlen : v.s.length % 256 = v.s.length := Nat.mod_eq_of_lt (by omega)
  rw [ShortStr.encode, List.append_assoc, ShortStr.decode]
  simp only [show u8dec (u8enc v.s.length ++ (v.s ++ rest)) = .ok (v.s ++ rest, v.s.length) by
      rw [u8dec, decodeBE_append _ _ _ (u8enc_length _), beNat_u8enc, hlen],
    show take_bytes (v.s ++ rest) v.s.length = .ok (rest, v.s) from
      take_bytes_append v.s rest,
    ShortStr.with_bytes, if_neg (show ¬255 < v.s.length by omega), hlossy]

/-- `LongStr::decode` undoes `LongStr::encode` for well-formed values
(valid UTF-8, string within the 64 KiB cap). -/
theorem longStr_decode_encode (v : LongStr) (h : v.wfB = true) (rest : List Nat) :
    LongStr.decode (LongStr.encode v ++ rest) = .ok (rest, v) := by
  obtain ⟨hle, hlossy⟩ := by simpa [LongStr.wfB] using h
  rw [MAX_LONG_STR_LEN] at hle
  have hlen : v.s.length % 2 ^ 32 = v.s.length := Nat.mod_eq_of_lt (by omega)
  rw [LongStr.encode, List.append_assoc, LongStr.decode]
  simp only [show u32dec (u32be v.s.length ++ (v.s ++ rest)) = .ok (v.s ++ rest, v.s.length) by
      rw [u32dec, decodeBE_append _ _ _ (u32be_length _), beNat_u32be, hlen],
    show take_bytes (v.s ++ rest) v.s.length = .ok (rest, v.s) from
      take_bytes_append v.s rest,
    LongStr.with_bytes, if_neg (show ¬MAX_LONG_STR_LEN < v.s.length by
      rw [MAX_LONG_STR_LEN]; omega), hlossy]

/-- `FieldName::with_bytes` accepts exactly the bytes a well-formed
`FieldName` carries, and rebuilds the same value. -/
theorem fieldName_with_bytes_wf (k : FieldName) (h : k.wfB = true) :
    FieldName.with_bytes k.inner.s = .ok k := by
  rw [FieldName.wfB] at h
  rcases hs : k.inner.s with _ | ⟨b0, tl⟩
  · rw [hs] at h; simp at h
  · rw [hs] at h
    obtain ⟨⟨hstart, hle⟩, hlossy⟩ := by simpa using h
    replace hle : tl.length + 1 ≤ 128 := by simpa [MAX_FIELD_NAME_LEN] using hle
    rw [FieldName.with_bytes]
    simp only [if_pos hstart,
      if_neg (show ¬MAX_FIELD_NAME_LEN < (b0 :: tl).length by
        simp only [MAX_FIELD_NAME_LEN, List.length_cons]; omega),
      ShortStr.with_bytes,
      if_neg (show ¬255 < (b0 :: tl).length by simp only [List.length_cons]; omega),
      hlossy]
    rw [show (⟨⟨b0 :: tl⟩⟩ : FieldName) = ⟨⟨k.inner.s⟩⟩ by rw [hs]]

/-- `FieldName::decode` undoes `FieldName::encode` for well-formed names. -/
theorem fieldName_decode_encode (k : FieldName) (h : k.wfB = true) (rest : List Nat) :
    FieldName.decode (FieldName.encode k ++ rest) = .ok (rest, k) := by
  have hle : k.inner.s.length ≤ MAX_FIELD_NAME_LEN := by
    rw [FieldName.wfB] at h
    rcases hs : k.inner.s with _ | ⟨b0, tl⟩
    · rw [hs] at h; simp at h
    · rw [hs] at h
      obtain ⟨⟨hstart, hle⟩, hlossy⟩ := by simpa using h
      simpa [MAX_FIELD_NAME_LEN] using hle
  rw [MAX_FIELD_NAME_LEN] at hle
  have hlen : k.inner.s.length % 256 = k.inner.s.length := Nat.mod_eq_of_lt (by omega)
  rw [FieldName.encode, ShortStr.encode, List.append_assoc, FieldName.decode]
  simp only [show u8dec (u8enc k.inner.s.length ++ (k.inner.s ++ rest)) =
      .ok (k.inner.s ++ rest, k.inner.s.length) by
    rw [u8dec, decodeBE_append _ _ _ (u8enc_length _), beNat_u8enc, hlen],
    show take_bytes (k.inner.s ++ rest) k.inner.s.length = .ok (rest, k.inner.s) from
      take_bytes_append k.inner.s rest,
    fieldName_with_bytes_wf k h]

/-! ### Container support machinery -/

/-- List concatenation on the array model. -/
def FieldArray.append : FieldArray → FieldArray → FieldArray
  | .nil, b => b
  | .cons v tl, b => .cons v (FieldArray.append tl b)

/-- Entry concatenation on the table model. -/
def FieldTable.append : FieldTable → FieldTable → FieldTable
  | .nil, b => b
  | .cons k v tl, b => .cons k v (FieldTable.append tl b)

/-- Every key of the first table is absent from the second. -/
def FieldTable.keysFreshIn : FieldTable → FieldTable → Bool
  | .nil, _ => true
  | .cons k _ tl, acc => FieldTable.keyNotIn k acc && FieldTable.keysFreshIn tl acc

theorem u8dec_enc (v : Nat) (rest : List Nat) :
    u8dec (u8enc v ++ rest) = .ok (rest, v % 256) := by
  rw [u8dec, decodeBE_append _ _ _ (u8enc_length _), beNat_u8enc]

theorem fieldValue_encode_pos (v : FieldValue) : 1 ≤ (FieldValue.encode v).length := by
  cases v <;> simp [FieldValue.encode, u8enc]

theorem fieldName_encode_pos (k : FieldName) : 1 ≤ (FieldName.encode k).length := by
  simp [FieldName.encode, ShortStr.encode, u8enc]

theorem fieldArray_encodeItems_cons_pos (v : FieldValue) (tl : FieldArray) :
    1 ≤ (FieldArray.encodeItems (.cons v tl)).length := by
  have := fieldValue_encode_pos v
  simp only [FieldArray.encodeItems, List.length_append]
  omega

theorem fieldTable_encodeEntries_cons_pos (k : FieldName) (v : FieldValue) (tl : FieldTable) :
    1 ≤ (FieldTable.encodeEntries (.cons k v tl)).length := by
  have := fieldName_encode_pos k
  simp only [FieldTable.encodeEntries, List.length_append]
  omega

theorem fieldArray_push_eq_append (a : FieldArray) (v : FieldValue) :
    FieldArray.push a v = a.append (.cons v .nil) := by
  match a with
  | .nil => rfl
  | .cons v' tl =>
    rw [FieldArray.push, FieldArray.append, fieldArray_push_eq_append tl v]
termination_by structural a

theorem fieldArray_append_assoc (a b c : FieldArray) :
    (a.append b).append c = a.append (b.append c) := by
  match a with
  | .nil => rfl
  | .cons v tl =>
    simp only [FieldArray.append]
    rw [fieldArray_append_assoc tl b c]
termination_by structural a

theorem fieldTable_append_assoc (a b c : FieldTable) :
    (a.append b).append c = a.append (b.append c) := by
  match a with
  | .nil => rfl
  | .cons k v tl =>
    simp only [FieldTable.append]
    rw [fieldTable_append_assoc tl b c]
termination_by structural a

/-- Inserting a fresh key into the model `HashMap` appends the binding. -/
theorem fieldTable_insertEntry_fresh (acc : FieldTable) (k : FieldName) (v : FieldValue)
    (h : FieldTable.keyNotIn k acc = true) :
    FieldTable.insertEntry acc k v = acc.append (.cons k v .nil) := by
  match acc with
  | .nil => rfl
  | .cons k' v' tl =>
    rw [FieldTable.keyNotIn] at h
    obtain ⟨hne, htl⟩ := by simpa using h
    rw [FieldTable.insertEntry, if_neg hne, FieldTable.append,
        fieldTable_insertEntry_fresh tl k v htl]
termination_by structural acc

theorem fieldTable_keyNotIn_append (k : FieldName) (a b : FieldTable) :
    FieldTable.keyNotIn k (a.append b) =
      (FieldTable.keyNotIn k a && FieldTable.keyNotIn k b) := by
  match a with
  | .nil => simp [FieldTable.append, FieldTable.keyNotIn]
  | .cons k' v' tl =>
    simp only [FieldTable.append, FieldTable.keyNotIn,
      fieldTable_keyNotIn_append k tl b, Bool.and_assoc]
termination_by structural a

/-- Freshness of a table's keys survives appending a binding whose key is
absent from that table. -/
theorem fieldTable_keysFreshIn_append_one (t acc : FieldTable) (k1 : FieldName)
    (v1 : FieldValue) (hfr : FieldTable.keysFreshIn t acc = true)
    (hni : FieldTable.keyNotIn k1 t = true) :
    FieldTable.keysFreshIn t (acc.append (.cons k1 v1 .nil)) = true := by
  match t with
  | .nil => rfl
  | .cons k v tl =>
    rw [FieldTable.keysFreshIn] at hfr
    rw [FieldTable.keyNotIn] at hni
    obtain ⟨hk, htl⟩ := by simpa using hfr
    obtain ⟨hne, hni'⟩ := by simpa using hni
    rw [FieldTable.keysFreshIn, fieldTable_keyNotIn_append]
    simp only [FieldTable.keyNotIn, Bool.and_true]
    simp [hk, fieldTable_keysFreshIn_append_one tl acc k1 v1 htl hni', Ne.symm hne]
termination_by structural t

theorem u16dec_enc (v : Nat) (rest : List Nat) :
    u16dec (u16be v ++ rest) = .ok (rest, v % 2 ^ 16) := by
  rw [u16dec, decodeBE_append _ _ _ (u16be_length _), beNat_u16be]

theorem u32dec_enc (v : Nat) (rest : List Nat) :
    u32dec (u32be v ++ rest) = .ok (rest, v % 2 ^ 32) := by
  rw [u32dec, decodeBE_append _ _ _ (u32be_length _), beNat_u32be]

theorem u64dec_enc (v : Nat) (rest : List Nat) :
    u64dec (u64be v ++ rest) = .ok (rest, v % 2 ^ 64) := by
  rw [u64dec, decodeBE_append _ _ _ (u64be_length _), beNat_u64be]

/-- `Decimal::decode` undoes `Decimal::encode` for in-range components. -/
theorem decimal_decode_encode (d : Decimal) (hs : d.scale < 2 ^ 8)
    (hv : d.value < 2 ^ 32) (rest : List Nat) :
    Decimal.decode (Decimal.encode d ++ rest) = .ok (rest, d) := by
  cases d with
  | mk scale value =>
    simp only [Decimal.encode, List.append_assoc, Decimal.decode, u8dec_enc, u32dec_enc]
    simp at hs hv
    rw [Nat.mod_eq_of_lt (by omega), Nat.mod_eq_of_lt (by omega)]

theorem fieldTable_keysFreshIn_nil (t : FieldTable) :
    FieldTable.keysFreshIn t .nil = true := by
  match t with
  | .nil => rfl
  | .cons k v tl =>
    simp [FieldTable.keysFreshIn, FieldTable.keyNotIn, fieldTable_keysFreshIn_nil tl]
termination_by structural t

/-! ### Round-trip of the composite type codec -/

mutual
/-- `FieldValue` round-trip: decoding the encoding of a well-formed value
returns exactly that value and consumes exactly its encoding, for any fuel at
least the encoding's length. -/
theorem fieldValue_decodeF_encode (v : FieldValue) (h : FieldValue.wf v = true)
    (rest : List Nat) (fuel : Nat) (hf : (FieldValue.encode v).length ≤ fuel) :
    FieldValue.decodeF fuel (FieldValue.encode v ++ rest) = .ok (rest, v) := by
  obtain ⟨f, rfl⟩ : ∃ f, fuel = f + 1 :=
    ⟨fuel - 1, by have := fieldValue_encode_pos v; omega⟩
  match v, h with
  | .Boolean b, h =>
    cases b <;>
      simp [FieldValue.encode, FieldValueKind.as_u8, FieldValue.decodeF,
        FieldValueKind.fromU8, List.append_assoc, u8dec_enc]
  | .U8 v, h =>
    have hv : v < 256 := by
      have h' : v < 2 ^ 8 := by simpa [FieldValue.wf] using h
      omega
    simp [FieldValue.encode, FieldValueKind.as_u8, FieldValue.decodeF,
      FieldValueKind.fromU8, List.append_assoc, u8dec_enc, Nat.mod_eq_of_lt hv]
  | .I8 v, h =>
    have hv : v < 256 := by
      have h' : v < 2 ^ 8 := by simpa [FieldValue.wf] using h
      omega
    simp [FieldValue.encode, FieldValueKind.as_u8, FieldValue.decodeF,
      FieldValueKind.fromU8, List.append_assoc, u8dec_enc, Nat.mod_eq_of_lt hv]
  | .U16 v, h =>
    have hv : v < 65536 := by
      have h' : v < 2 ^ 16 := by simpa [FieldValue.wf] using h
      omega
    simp [FieldValue.encode, FieldValueKind.as_u8, FieldValue.decodeF,
      FieldValueKind.fromU8, List.append_assoc, u8dec_enc, u16dec_enc,
      Nat.mod_eq_of_lt hv]
  | .I16 v, h =>
    have hv : v < 65536 := by
      have h' : v < 2 ^ 16 := by simpa [FieldValue.wf] using h
      omega
    simp [FieldValue.encode, FieldValueKind.as_u8, FieldValue.decodeF,
      FieldValueKind.fromU8, List.append_assoc, u8dec_enc, u16dec_enc,
      Nat.mod_eq_of_lt hv]
  | .U32 v, h =>
    have hv : v < 4294967296 := by
      have h' : v < 2 ^ 32 := by simpa [FieldValue.wf] using h
      omega
    simp [FieldValue.encode, FieldValueKind.as_u8, FieldValue.decodeF,
      FieldValueKind.fromU8, List.append_assoc, u8dec_enc, u32dec_enc,
      Nat.mod_eq_of_lt hv]
  | .I32 v, h =>
    have hv : v < 4294967296 := by
      have h' : v < 2 ^ 32 := by simpa [FieldValue.wf] using h
      omega
    simp [FieldValue.encode, FieldValueKind.as_u8, FieldValue.decodeF,
      FieldValueKind.fromU8, List.append_assoc, u8dec_enc, u32dec_enc,
      Nat.mod_eq_of_lt hv]
  | .U64 v, h =>
    have hv : v < 18446744073709551616 := by
      have h' : v < 2 ^ 64 := by simpa [FieldValue.wf] using h
      omega
    simp [FieldValue.encode, FieldValueKind.as_u8, FieldValue.decodeF,
      FieldValueKind.fromU8, List.append_assoc, u8dec_enc, u64dec_enc,
      Nat.mod_eq_of_lt hv]
  | .I64 v, h =>
    have hv : v < 18446744073709551616 := by
      have h' : v < 2 ^ 64 := by simpa [FieldValue.wf] using h
      omega
    simp [FieldValue.encode, FieldValueKind.as_u8, FieldValue.decodeF,
      FieldValueKind.fromU8, List.append_assoc, u8dec_enc, u64dec_enc,
      Nat.mod_eq_of_lt hv]
  | .F32 bits, h =>
    have hv : bits < 4294967296 := by
      have h' : bits < 2 ^ 32 := by simpa [FieldValue.wf] using h
      omega
    simp [FieldValue.encode, FieldValueKind.as_u8, FieldValue.decodeF,
      FieldValueKind.fromU8, List.append_assoc, u8dec_enc, u32dec_enc,
      Nat.mod_eq_of_lt hv]
  | .F64 bits, h =>
    have hv : bits < 18446744073709551616 := by
      have h' : bits < 2 ^ 64 := by simpa [FieldValue.wf] using h
      omega
    simp [FieldValue.encode, FieldValueKind.as_u8, FieldValue.decodeF,
      FieldValueKind.fromU8, List.append_assoc, u8dec_enc, u64dec_enc,
      Nat.mod_eq_of_lt hv]
  | .Timestamp v, h =>
    have hv : v < 18446744073709551616 := by
      have h' : v < 2 ^ 64 := by simpa [FieldValue.wf] using h
      omega
    simp [FieldValue.encode, FieldValueKind.as_u8, FieldValue.decodeF,
      FieldValueKind.fromU8, List.append_assoc, u8dec_enc, u64dec_enc,
      Nat.mod_eq_of_lt hv]
  | .Decimal d, h =>
    obtain ⟨hs, hv⟩ := by simpa [FieldValue.wf] using h
    simp [FieldValue.encode, FieldValueKind.as_u8, FieldValue.decodeF,
      FieldValueKind.fromU8, List.append_assoc, u8dec_enc,
      decimal_decode_encode d hs hv]
  | .LongStr s, h =>
    have hs : s.wfB = true := by simpa [FieldValue.wf, LongStr.wfB] using h
    simp [FieldValue.encode, FieldValueKind.as_u8, FieldValue.decodeF,
      FieldValueKind.fromU8, List.append_assoc, u8dec_enc,
      longStr_decode_encode s hs]
  | .BytesArray s, h =>
    have hs : s.wfB = true := by simpa [FieldValue.wf, LongStr.wfB] using h
    simp [FieldValue.encode, FieldValueKind.as_u8, FieldValue.decodeF,
      FieldValueKind.fromU8, List.append_assoc, u8dec_enc,
      longStr_decode_encode s hs]
  | .Void, h =>
    simp [FieldValue.encode, FieldValueKind.as_u8, FieldValue.decodeF,
      FieldValueKind.fromU8, u8dec_enc]
  | .FieldArray a, h =>
    obtain ⟨⟨hwf, hnil⟩, hlen⟩ := by simpa [FieldValue.wf] using h
    have henc : (FieldValue.encode (.FieldArray a)).length =
        5 + (FieldArray.encodeItems a).length := by
      rw [fieldValue_encode_fieldArray]
      simp only [FieldArray.encode, List.length_append, u8enc_length, u32be_length]
      omega
    obtain ⟨f', rfl⟩ : ∃ f', f = f' + 1 := ⟨f - 1, by omega⟩
    rw [fieldValue_encode_fieldArray, List.append_assoc]
    simp only [FieldValue.decodeF,
      show u8dec (u8enc FieldValueKind.FieldArray.as_u8 ++ (FieldArray.encode a ++ rest)) =
        .ok (FieldArray.encode a ++ rest, 65) by simp [u8dec_enc, FieldValueKind.as_u8],
      show FieldValueKind.fromU8 65 = FieldValueKind.FieldArray from rfl]
    rw [FieldArray.encode, List.append_assoc]
    simp only [FieldArray.decodeF,
      show u32dec (u32be (FieldArray.encodeItems a).length ++
          (FieldArray.encodeItems a ++ rest)) =
        .ok (FieldArray.encodeItems a ++ rest, (FieldArray.encodeItems a).length) by
          rw [u32dec, decodeBE_append _ _ _ (u32be_length _), beNat_u32be,
            Nat.mod_eq_of_lt (by omega)],
      show take_bytes (FieldArray.encodeItems a ++ rest)
          (FieldArray.encodeItems a).length = .ok (rest, FieldArray.encodeItems a) from
        take_bytes_append _ _,
      fieldArray_decodeItems_encode a hwf (by simpa using hnil) .nil f' (by omega)]
    rfl
  | .FieldTable t, h =>
    obtain ⟨⟨⟨hwf, hnil⟩, hnd⟩, hlen⟩ := by simpa [FieldValue.wf] using h
    have henc : (FieldValue.encode (.FieldTable t)).length =
        5 + (FieldTable.encodeEntries t).length := by
      rw [fieldValue_encode_fieldTable]
      simp only [FieldTable.encode, List.length_append, u8enc_length, u32be_length]
      omega
    obtain ⟨f', rfl⟩ : ∃ f', f = f' + 1 := ⟨f - 1, by omega⟩
    rw [fieldValue_encode_fieldTable, List.append_assoc]
    simp only [FieldValue.decodeF,
      show u8dec (u8enc FieldValueKind.FieldTable.as_u8 ++ (FieldTable.encode t ++ rest)) =
        .ok (FieldTable.encode t ++ rest, 70) by simp [u8dec_enc, FieldValueKind.as_u8],
      show FieldValueKind.fromU8 70 = FieldValueKind.FieldTable from rfl]
    rw [FieldTable.encode, List.append_assoc]
    simp only [FieldTable.decodeF,
      show u32dec (u32be (FieldTable.encodeEntries t).length ++
          (FieldTable.encodeEntries t ++ rest)) =
        .ok (FieldTable.encodeEntries t ++ rest, (FieldTable.encodeEntries t).length) by
          rw [u32dec, decodeBE_append _ _ _ (u32be_length _), beNat_u32be,
            Nat.mod_eq_of_lt (by omega)],
      show take_bytes (FieldTable.encodeEntries t ++ rest)
          (FieldTable.encodeEntries t).length = .ok (rest, FieldTable.encodeEntries t) from
        take_bytes_append _ _,
      fieldTable_decodeItems_encode t hwf (by simpa using hnil) hnd .nil
        (fieldTable_keysFreshIn_nil t) f' (by omega)]
    rfl
/-- The item loop of `FieldArray::decode` reconstructs a nonempty list of
well-formed values from the concatenation of their encodings, appending them
to the accumulator. -/
theorem fieldArray_decodeItems_encode (a : FieldArray) (h : FieldArray.wfItems a = true)
    (hne : a.isNil = false) (acc : FieldArray) (fuel : Nat)
    (hf : (FieldArray.encodeItems a).length + 1 ≤ fuel) :
    FieldArray.decodeItems fuel acc (FieldArray.encodeItems a) = .ok (acc.append a) := by
  match a, h, hne with
  | .cons v1 tl, h, _ =>
    obtain ⟨hv1, htl⟩ := by simpa [FieldArray.wfItems] using h
    obtain ⟨g, rfl⟩ : ∃ g, fuel = g + 1 := ⟨fuel - 1, by omega⟩
    have h1 := fieldValue_encode_pos v1
    have hlen : (FieldArray.encodeItems (.cons v1 tl)).length =
        (FieldValue.encode v1).length + (FieldArray.encodeItems tl).length := by
      simp [FieldArray.encodeItems]
    rw [FieldArray.encodeItems]
    simp only [FieldArray.decodeItems,
      fieldValue_decodeF_encode v1 hv1 (FieldArray.encodeItems tl) g (by omega)]
    match tl, htl with
    | .nil, _ =>
      simp [FieldArray.encodeItems, fieldArray_push_eq_append]
    | .cons v2 tl2, htl =>
      have hpos := fieldArray_encodeItems_cons_pos v2 tl2
      rw [if_neg (by omega)]
      rw [fieldArray_decodeItems_encode (.cons v2 tl2) htl rfl
        (FieldArray.push acc v1) g (by
          rw [hlen] at hf
          omega)]
      rw [fieldArray_push_eq_append, fieldArray_append_assoc]
      rfl
/-- The entry loop of `FieldTable::decode` reconstructs a nonempty table of
well-formed entries with pairwise distinct keys, all fresh for the
accumulator, appending the entries to the accumulator. -/
theorem fieldTable_decodeItems_encode (t : FieldTable) (h : FieldTable.wfEntries t = true)
    (hne : t.isNil = false) (hnd : FieldTable.keysNodup t = true) (acc : FieldTable)
    (hfr : FieldTable.keysFreshIn t acc = true) (fuel : Nat)
    (hf : (FieldTable.encodeEntries t).length + 1 ≤ fuel) :
    FieldTable.decodeItems fuel acc (FieldTable.encodeEntries t) = .ok (acc.append t) := by
  match t, h, hne, hnd, hfr with
  | .cons k1 v1 tl, h, _, hnd, hfr =>
    obtain ⟨⟨hk1, hv1⟩, htl⟩ := by simpa [FieldTable.wfEntries] using h
    obtain ⟨hni, hnd'⟩ := by simpa [FieldTable.keysNodup] using hnd
    obtain ⟨hfk, hfr'⟩ := by simpa [FieldTable.keysFreshIn] using hfr
    obtain ⟨g, rfl⟩ : ∃ g, fuel = g + 1 := ⟨fuel - 1, by omega⟩
    have h1 := fieldName_encode_pos k1
    have h2 := fieldValue_encode_pos v1
    have hlen : (FieldTable.encodeEntries (.cons k1 v1 tl)).length =
        (FieldName.encode k1).length + (FieldValue.encode v1).length +
          (FieldTable.encodeEntries tl).length := by
      simp only [FieldTable.encodeEntries, List.length_append]
    rw [FieldTable.encodeEntries, List.append_assoc]
    simp only [FieldTable.decodeItems,
      fieldName_decode_encode k1 hk1 (FieldValue.encode v1 ++ FieldTable.encodeEntries tl),
      fieldValue_decodeF_encode v1 hv1 (FieldTable.encodeEntries tl) g (by
        rw [hlen] at hf
        omega)]
    match tl, htl, hnd', hfr', hni with
    | .nil, _, _, _, hni =>
      simp [FieldTable.encodeEntries, fieldTable_insertEntry_fresh acc k1 v1 hfk]
    | .cons k2 v2 tl2, htl, hnd', hfr', hni =>
      have hpos := fieldTable_encodeEntries_cons_pos k2 v2 tl2
      rw [if_neg (by omega)]
      rw [fieldTable_insertEntry_fresh acc k1 v1 hfk]
      rw [fieldTable_decodeItems_encode (.cons k2 v2 tl2) htl rfl hnd'
        (acc.append (.cons k1 v1 .nil))
        (fieldTable_keysFreshIn_append_one _ acc k1 v1 hfr' hni) g (by
          rw [hlen] at hf
          omega)]
      rw [fieldTable_append_assoc]
      rfl
end

/-- Array round-trip at any leading position of a buffer. -/
theorem fieldArray_decodeF_encode_ok (a : FieldArray) (h : FieldArray.wfItems a = true)
    (hne : a.isNil = false) (hlen : (FieldArray.encodeItems a).length < 2 ^ 32)
    (rest : List Nat) (fuel : Nat) (hf : (FieldArray.encodeItems a).length + 2 ≤ fuel) :
    FieldArray.decodeF fuel (FieldArray.encode a ++ rest) = .ok (rest, a) := by
  obtain ⟨f, rfl⟩ : ∃ f, fuel = f + 1 := ⟨fuel - 1, by omega⟩
  rw [FieldArray.encode, List.append_assoc]
  simp only [FieldArray.decodeF,
    show u32dec (u32be (FieldArray.encodeItems a).length ++
        (FieldArray.encodeItems a ++ rest)) =
      .ok (FieldArray.encodeItems a ++ rest, (FieldArray.encodeItems a).length) by
        rw [u32dec, decodeBE_append _ _ _ (u32be_length _), beNat_u32be,
          Nat.mod_eq_of_lt (by omega)],
    show take_bytes (FieldArray.encodeItems a ++ rest)
        (FieldArray.encodeItems a).length = .ok (rest, FieldArray.encodeItems a) from
      take_bytes_append _ _,
    fieldArray_decodeItems_encode a h hne .nil f (by omega)]
  rfl

/-- Table round-trip at any leading position of a buffer. -/
theorem fieldTable_decodeF_encode_ok (t : FieldTable) (h : FieldTable.wfEntries t = true)
    (hne : t.isNil = false) (hnd : FieldTable.keysNodup t = true)
    (hlen : (FieldTable.encodeEntries t).length < 2 ^ 32)
    (rest : List Nat) (fuel : Nat) (hf : (FieldTable.encodeEntries t).length + 2 ≤ fuel) :
    FieldTable.decodeF fuel (FieldTable.encode t ++ rest) = .ok (rest, t) := by
  obtain ⟨f, rfl⟩ : ∃ f, fuel = f + 1 := ⟨fuel - 1, by omega⟩
  rw [FieldTable.encode, List.append_assoc]
  simp only [FieldTable.decodeF,
    show u32dec (u32be (FieldTable.encodeEntries t).length ++
        (FieldTable.encodeEntries t ++ rest)) =
      .ok (FieldTable.encodeEntries t ++ rest, (FieldTable.encodeEntries t).length) by
        rw [u32dec, decodeBE_append _ _ _ (u32be_length _), beNat_u32be,
          Nat.mod_eq_of_lt (by omega)],
    show take_bytes (FieldTable.encodeEntries t ++ rest)
        (FieldTable.encodeEntries t).length = .ok (rest, FieldTable.encodeEntries t) from
      take_bytes_append _ _,
    fieldTable_decodeItems_encode t h hne hnd .nil (fieldTable_keysFreshIn_nil t) f
      (by omega)]
  rfl

/-- `FieldArray::decode` undoes `FieldArray::encode`, consuming everything. -/
theorem fieldArray_decode_encode (a : FieldArray) (h : FieldArray.wfItems a = true)
    (hne : a.isNil = false) (hlen : (FieldArray.encodeItems a).length < 2 ^ 32) :
    FieldArray.decode (FieldArray.encode a) = .ok ([], a) := by
  have hb : (FieldArray.encode a).length = 4 + (FieldArray.encodeItems a).length := by
    simp only [FieldArray.encode, List.length_append, u32be_length]
  rw [FieldArray.decode,
    show FieldArray.encode a = FieldArray.encode a ++ [] from (List.append_nil _).symm]
  rw [fieldArray_decodeF_encode_ok a h hne hlen [] _ (by simp [hb]; omega)]

/-- `FieldTable::decode` undoes `FieldTable::encode`, consuming everything. -/
theorem fieldTable_decode_encode (t : FieldTable) (h : FieldTable.wfEntries t = true)
    (hne : t.isNil = false) (hnd : FieldTable.keysNodup t = true)
    (hlen : (FieldTable.encodeEntries t).length < 2 ^ 32) :
    FieldTable.decode (FieldTable.encode t) = .ok ([], t) := by
  have hb : (FieldTable.encode t).length = 4 + (FieldTable.encodeEntries t).length := by
    simp only [FieldTable.encode, List.length_append, u32be_length]
  rw [FieldTable.decode,
    show FieldTable.encode t = FieldTable.encode t ++ [] from (List.append_nil _).symm]
  rw [fieldTable_decodeF_encode_ok t h hne hnd hlen [] _ (by simp [hb]; omega)]

/-- `FieldValue::decode` undoes `FieldValue::encode`, consuming everything. -/
theorem fieldValue_decode_encode (v : FieldValue) (h : FieldValue.wf v = true) :
    FieldValue.decode (FieldValue.encode v) = .ok ([], v) := by
  rw [FieldValue.decode,
    show FieldValue.encode v = FieldValue.encode v ++ [] from (List.append_nil _).symm]
  exact fieldValue_decodeF_encode v h [] _ (by simp)

/-! ### Strict-prefix behaviour of the composite decoders -/

/-- Taking a strict prefix keeps a leading block and truncates the tail. -/
theorem take_app_ge (l1 l2 : List Nat) (n : Nat) (h : l1.length ≤ n) :
    (l1 ++ l2).take n = l1 ++ l2.take (n - l1.length) := by
  rw [List.take_append_eq_append_take, List.take_of_length_le h]

/-- On every strict prefix of a valid `ShortStr` encoding, `ShortStr::decode`
returns a generic `DecodeError` (wrapping the underlying `Incomplete`). -/
theorem shortStr_decode_pfx (v : ShortStr) (h : v.wfB = true) (k : Nat)
    (hk : k < (ShortStr.encode v).length) :
    ∃ m, ShortStr.decode ((ShortStr.encode v).take k) = .error (.DecodeError m) := by
  obtain ⟨hle, hlossy⟩ := by simpa [ShortStr.wfB] using h
  rw [ShortStr.encode, List.length_append, u8enc_length] at hk
  rcases Nat.eq_zero_or_pos k with rfl | hpos
  · exact ⟨"decode ShortStr length -> Incomplete", rfl⟩
  · rw [ShortStr.encode, take_app_ge _ _ _ (by rw [u8enc_length]; omega), u8enc_length]
    rw [ShortStr.decode]
    simp only [u8dec_enc, Nat.mod_eq_of_lt (show v.s.length < 256 by omega)]
    rw [take_bytes_short _ _ (by
      rw [List.length_take]
      omega)]
    exact ⟨"decode ShortStr bytes -> Incomplete", rfl⟩

/-- On every strict prefix of a valid `LongStr` encoding, `LongStr::decode`
returns a generic `DecodeError`. -/
theorem longStr_decode_pfx (v : LongStr) (h : v.wfB = true) (k : Nat)
    (hk : k < (LongStr.encode v).length) :
    ∃ m, LongStr.decode ((LongStr.encode v).take k) = .error (.DecodeError m) := by
  obtain ⟨hle, hlossy⟩ := by simpa [LongStr.wfB] using h
  rw [MAX_LONG_STR_LEN] at hle
  rw [LongStr.encode, List.length_append, u32be_length] at hk
  rcases Nat.lt_or_ge k 4 with hlt | hge
  · refine ⟨"decode LongStr length -> Incomplete", ?_⟩
    rw [LongStr.decode, u32dec, decodeBE_short _ _ (by
      rw [List.length_take]
      simp only [LongStr.encode, List.length_append, u32be_length]
      omega)]
    rfl
  · rw [LongStr.encode, take_app_ge _ _ _ (by rw [u32be_length]; omega), u32be_length]
    rw [LongStr.decode]
    simp only [u32dec_enc, Nat.mod_eq_of_lt (show v.s.length < 2 ^ 32 by omega)]
    rw [take_bytes_short _ _ (by
      rw [List.length_take]
      omega)]
    exact ⟨"decode LongStr bytes -> Incomplete", rfl⟩

/-- On every strict prefix of a valid `FieldName` encoding, `FieldName::decode`
returns a generic `DecodeError`. -/
theorem fieldName_decode_pfx (v : FieldName) (h : v.wfB = true) (k : Nat)
    (hk : k < (FieldName.encode v).length) :
    ∃ m, FieldName.decode ((FieldName.encode v).take k) = .error (.DecodeError m) := by
  have hle : v.inner.s.length ≤ 128 := by
    rw [FieldName.wfB] at h
    rcases hs : v.inner.s with _ | ⟨b0, tl⟩
    · rw [hs] at h; simp at h
    · rw [hs] at h
      obtain ⟨⟨hstart, hle⟩, hlossy⟩ := by simpa using h
      simpa [MAX_FIELD_NAME_LEN] using hle
  rw [FieldName.encode, ShortStr.encode, List.length_append, u8enc_length] at hk
  rcases Nat.eq_zero_or_pos k with rfl | hpos
  · exact ⟨"decode FieldName length -> Incomplete", rfl⟩
  · rw [FieldName.encode, ShortStr.encode,
      take_app_ge _ _ _ (by rw [u8enc_length]; omega), u8enc_length]
    rw [FieldName.decode]
    simp only [u8dec_enc, Nat.mod_eq_of_lt (show v.inner.s.length < 256 by omega)]
    rw [take_bytes_short _ _ (by
      rw [List.length_take]
      omega)]
    exact ⟨"decode FieldName bytes -> Incomplete", rfl⟩

/-- On every strict prefix of a `Decimal` encoding, `Decimal::decode` returns
a generic `DecodeError`. -/
theorem decimal_decode_pfx (d : Decimal) (k : Nat) (hk : k < (Decimal.encode d).length) :
    ∃ m, Decimal.decode ((Decimal.encode d).take k) = .error (.DecodeError m) := by
  have hk' : k < 5 := by simpa [Decimal.encode, u8enc, u32be] using hk
  rcases Nat.eq_zero_or_pos k with rfl | hpos
  · exact ⟨"decode Decimal scale -> Incomplete", rfl⟩
  · refine ⟨"decode Decimal value -> Incomplete", ?_⟩
    rw [Decimal.encode, take_app_ge _ _ _ (by rw [u8enc_length]; omega), u8enc_length]
    rw [Decimal.decode]
    simp only [u8dec_enc,
      show u32dec ((u32be d.value).take (k - 1)) = .error .Incomplete by
        rw [u32dec, decodeBE_short _ _ (by rw [List.length_take, u32be_length]; omega)]]
    rfl

/-- On every strict prefix of a `FieldArray` encoding whose body fits the u32
length prefix, `FieldArray::decode` returns a generic `DecodeError`. -/
theorem fieldArray_decodeF_pfx (a : FieldArray)
    (hlen : (FieldArray.encodeItems a).length < 2 ^ 32) (k : Nat)
    (hk : k < (FieldArray.encode a).length) (fuel : Nat) (hfu : 1 ≤ fuel) :
    ∃ m, FieldArray.decodeF fuel ((FieldArray.encode a).take k) =
      .error (.DecodeError m) := by
  obtain ⟨f, rfl⟩ : ∃ f, fuel = f + 1 := ⟨fuel - 1, by omega⟩
  rw [FieldArray.encode, List.length_append, u32be_length] at hk
  rcases Nat.lt_or_ge k 4 with hlt | hge
  · refine ⟨"decode FieldArray length -> Incomplete", ?_⟩
    simp only [FieldArray.decodeF,
      show u32dec ((FieldArray.encode a).take k) = .error .Incomplete by
        rw [u32dec, decodeBE_short _ _ (by
          rw [List.length_take]
          simp only [FieldArray.encode, List.length_append, u32be_length]
          omega)]]
    rfl
  · refine ⟨"decode FieldArray bytes->Incomplete", ?_⟩
    rw [FieldArray.encode, take_app_ge _ _ _ (by rw [u32be_length]; omega), u32be_length]
    simp only [FieldArray.decodeF,
      show u32dec (u32be (FieldArray.encodeItems a).length ++
          (FieldArray.encodeItems a).take (k - 4)) =
        .ok ((FieldArray.encodeItems a).take (k - 4), (FieldArray.encodeItems a).length) by
          rw [u32dec, decodeBE_append _ _ _ (u32be_length _), beNat_u32be,
            Nat.mod_eq_of_lt hlen],
      show take_bytes ((FieldArray.encodeItems a).take (k - 4))
          (FieldArray.encodeItems a).length = .error .Incomplete from
        take_bytes_short _ _ (by rw [List.length_take]; omega)]
    rfl

/-- On every strict prefix of a `FieldTable` encoding whose body fits the u32
length prefix, `FieldTable::decode` returns a generic `DecodeError`. -/
theorem fieldTable_decodeF_pfx (t : FieldTable)
    (hlen : (FieldTable.encodeEntries t).length < 2 ^ 32) (k : Nat)
    (hk : k < (FieldTable.encode t).length) (fuel : Nat) (hfu : 1 ≤ fuel) :
    ∃ m, FieldTable.decodeF fuel ((FieldTable.encode t).take k) =
      .error (.DecodeError m) := by
  obtain ⟨f, rfl⟩ : ∃ f, fuel = f + 1 := ⟨fuel - 1, by omega⟩
  rw [FieldTable.encode, List.length_append, u32be_length] at hk
  rcases Nat.lt_or_ge k 4 with hlt | hge
  · refine ⟨"decode FieldTable length -> Incomplete", ?_⟩
    simp only [FieldTable.decodeF,
      show u32dec ((FieldTable.encode t).take k) = .error .Incomplete by
        rw [u32dec, decodeBE_short _ _ (by
          rw [List.length_take]
          simp only [FieldTable.encode, List.length_append, u32be_length]
          omega)]]
    rfl
  · refine ⟨"decode FieldTable bytes -> Incomplete", ?_⟩
    rw [FieldTable.encode, take_app_ge _ _ _ (by rw [u32be_length]; omega), u32be_length]
    simp only [FieldTable.decodeF,
      show u32dec (u32be (FieldTable.encodeEntries t).length ++
          (FieldTable.encodeEntries t).take (k - 4)) =
        .ok ((FieldTable.encodeEntries t).take (k - 4), (FieldTable.encodeEntries t).length) by
          rw [u32dec, decodeBE_append _ _ _ (u32be_length _), beNat_u32be,
            Nat.mod_eq_of_lt hlen],
      show take_bytes ((FieldTable.encodeEntries t).take (k - 4))
          (FieldTable.encodeEntries t).length = .error .Incomplete from
        take_bytes_short _ _ (by rw [List.length_take]; omega)]
    rfl

/-- On every strict prefix of a valid `FieldValue` encoding, `FieldValue::decode`
returns a generic `DecodeError`, never the distinguished `Incomplete`. -/
theorem fieldValue_decode_pfx (v : FieldValue) (h : FieldValue.wf v = true) (k : Nat)
    (hk : k < (FieldValue.encode v).length) :
    ∃ m, FieldValue.decode ((FieldValue.encode v).take k) = .error (.DecodeError m) := by
  rcases Nat.eq_zero_or_pos k with rfl | hpos
  · exact ⟨"decode FieldValue type -> Incomplete", rfl⟩
  have htl : ((FieldValue.encode v).take k).length = k := by
    rw [List.length_take]
    omega
  rw [FieldValue.decode, htl]
  match v, h, hk with
  | .Boolean b, _, hk =>
    have hk' : k < 2 := by simpa [FieldValue.encode, FieldValueKind.as_u8, u8enc] using hk
    refine ⟨"decode FieldValue boolean -> Incomplete", ?_⟩
    rw [show FieldValue.encode (.Boolean b) =
        u8enc 116 ++ u8enc (if b then 1 else 0) from rfl]
    rw [take_app_ge _ _ _ (by rw [u8enc_length]; omega), u8enc_length]
    simp only [FieldValue.decodeF,
      show u8dec (u8enc 116 ++ (u8enc (if b then 1 else 0)).take (k - 1)) =
        .ok ((u8enc (if b then 1 else 0)).take (k - 1), 116) by simp [u8dec_enc],
      show FieldValueKind.fromU8 116 = FieldValueKind.Boolean from rfl,
      show u8dec ((u8enc (if b then 1 else 0)).take (k - 1)) = .error .Incomplete by
        rw [u8dec, decodeBE_short _ _ (by rw [List.length_take, u8enc_length]; omega)]]
    rfl
  | .U8 val, _, hk =>
    have hk' : k < 2 := by simpa [FieldValue.encode, FieldValueKind.as_u8, u8enc] using hk
    refine ⟨"decode FieldValue u8 -> Incomplete", ?_⟩
    rw [show FieldValue.encode (.U8 val) = u8enc 66 ++ u8enc val from rfl]
    rw [take_app_ge _ _ _ (by rw [u8enc_length]; omega), u8enc_length]
    simp only [FieldValue.decodeF,
      show u8dec (u8enc 66 ++ (u8enc val).take (k - 1)) =
        .ok ((u8enc val).take (k - 1), 66) by simp [u8dec_enc],
      show FieldValueKind.fromU8 66 = FieldValueKind.U8 from rfl,
      show u8dec ((u8enc val).take (k - 1)) = .error .Incomplete by
        rw [u8dec, decodeBE_short _ _ (by rw [List.length_take, u8enc_length]; omega)]]
    rfl
  | .I8 val, _, hk =>
    have hk' : k < 2 := by simpa [FieldValue.encode, FieldValueKind.as_u8, u8enc] using hk
    refine ⟨"decode FieldValue i8 -> Incomplete", ?_⟩
    rw [show FieldValue.encode (.I8 val) = u8enc 98 ++ u8enc val from rfl]
    rw [take_app_ge _ _ _ (by rw [u8enc_length]; omega), u8enc_length]
    simp only [FieldValue.decodeF,
      show u8dec (u8enc 98 ++ (u8enc val).take (k - 1)) =
        .ok ((u8enc val).take (k - 1), 98) by simp [u8dec_enc],
      show FieldValueKind.fromU8 98 = FieldValueKind.I8 from rfl,
      show u8dec ((u8enc val).take (k - 1)) = .error .Incomplete by
        rw [u8dec, decodeBE_short _ _ (by rw [List.length_take, u8enc_length]; omega)]]
    rfl
  | .U16 val, _, hk =>
    have hk' : k < 3 := by
      simpa [FieldValue.encode, FieldValueKind.as_u8, u8enc, u16be] using hk
    refine ⟨"decode FieldValue u16 -> Incomplete", ?_⟩
    rw [show FieldValue.encode (.U16 val) = u8enc 117 ++ u16be val from rfl]
    rw [take_app_ge _ _ _ (by rw [u8enc_length]; omega), u8enc_length]
    simp only [FieldValue.decodeF,
      show u8dec (u8enc 117 ++ (u16be val).take (k - 1)) =
        .ok ((u16be val).take (k - 1), 117) by simp [u8dec_enc],
      show FieldValueKind.fromU8 117 = FieldValueKind.U16 from rfl,
      show u16dec ((u16be val).take (k - 1)) = .error .Incomplete by
        rw [u16dec, decodeBE_short _ _ (by rw [List.length_take, u16be_length]; omega)]]
    rfl
  | .I16 val, _, hk =>
    have hk' : k < 3 := by
      simpa [FieldValue.encode, FieldValueKind.as_u8, u8enc, u16be] using hk
    refine ⟨"decode FieldValue i16 -> Incomplete", ?_⟩
    rw [show FieldValue.encode (.I16 val) = u8enc 115 ++ u16be val from rfl]
    rw [take_app_ge _ _ _ (by rw [u8enc_length]; omega), u8enc_length]
    simp only [FieldValue.decodeF,
      show u8dec (u8enc 115 ++ (u16be val).take (k - 1)) =
        .ok ((u16be val).take (k - 1), 115) by simp [u8dec_enc],
      show FieldValueKind.fromU8 115 = FieldValueKind.I16 from rfl,
      show u16dec ((u16be val).take (k - 1)) = .error .Incomplete by
        rw [u16dec, decodeBE_short _ _ (by rw [List.length_take, u16be_length]; omega)]]
    rfl
  | .U32 val, _, hk =>
    have hk' : k < 5 := by
      simpa [FieldValue.encode, FieldValueKind.as_u8, u8enc, u32be] using hk
    refine ⟨"decode FieldValue u32 -> Incomplete", ?_⟩
    rw [show FieldValue.encode (.U32 val) = u8enc 105 ++ u32be val from rfl]
    rw [take_app_ge _ _ _ (by rw [u8enc_length]; omega), u8enc_length]
    simp only [FieldValue.decodeF,
      show u8dec (u8enc 105 ++ (u32be val).take (k - 1)) =
        .ok ((u32be val).take (k - 1), 105) by simp [u8dec_enc],
      show FieldValueKind.fromU8 105 = FieldValueKind.U32 from rfl,
      show u32dec ((u32be val).take (k - 1)) = .error .Incomplete by
        rw [u32dec, decodeBE_short _ _ (by rw [List.length_take, u32be_length]; omega)]]
    rfl
  | .I32 val, _, hk =>
    have hk' : k < 5 := by
      simpa [FieldValue.encode, FieldValueKind.as_u8, u8enc, u32be] using hk
    refine ⟨"decode FieldValue i32 -> Incomplete", ?_⟩
    rw [show FieldValue.encode (.I32 val) = u8enc 73 ++ u32be val from rfl]
    rw [take_app_ge _ _ _ (by rw [u8enc_length]; omega), u8enc_length]
    simp only [FieldValue.decodeF,
      show u8dec (u8enc 73 ++ (u32be val).take (k - 1)) =
        .ok ((u32be val).take (k - 1), 73) by simp [u8dec_enc],
      show FieldValueKind.fromU8 73 = FieldValueKind.I32 from rfl,
      show u32dec ((u32be val).take (k - 1)) = .error .Incomplete by
        rw [u32dec, decodeBE_short _ _ (by rw [List.length_take, u32be_length]; omega)]]
    rfl
  | .U64 val, _, hk =>
    have hk' : k < 9 := by
      simpa [FieldValue.encode, FieldValueKind.as_u8, u8enc, u64be] using hk
    refine ⟨"decode FieldValue u64 -> Incomplete", ?_⟩
    rw [show FieldValue.encode (.U64 val) = u8enc 76 ++ u64be val from rfl]
    rw [take_app_ge _ _ _ (by rw [u8enc_length]; omega), u8enc_length]
    simp only [FieldValue.decodeF,
      show u8dec (u8enc 76 ++ (u64be val).take (k - 1)) =
        .ok ((u64be val).take (k - 1), 76) by simp [u8dec_enc],
      show FieldValueKind.fromU8 76 = FieldValueKind.U64 from rfl,
      show u64dec ((u64be val).take (k - 1)) = .error .Incomplete by
        rw [u64dec, decodeBE_short _ _ (by rw [List.length_take, u64be_length]; omega)]]
    rfl
  | .I64 val, _, hk =>
    have hk' : k < 9 := by
      simpa [FieldValue.encode, FieldValueKind.as_u8, u8enc, u64be] using hk
    refine ⟨"decode FieldValue i64 -> Incomplete", ?_⟩
    rw [show FieldValue.encode (.I64 val) = u8enc 108 ++ u64be val from rfl]
    rw [take_app_ge _ _ _ (by rw [u8enc_length]; omega), u8enc_length]
    simp only [FieldValue.decodeF,
      show u8dec (u8enc 108 ++ (u64be val).take (k - 1)) =
        .ok ((u64be val).take (k - 1), 108) by simp [u8dec_enc],
      show FieldValueKind.fromU8 108 = FieldValueKind.I64 from rfl,
      show u64dec ((u64be val).take (k - 1)) = .error .Incomplete by
        rw [u64dec, decodeBE_short _ _ (by rw [List.length_take, u64be_length]; omega)]]
    rfl
  | .F32 bits, _, hk =>
    have hk' : k < 5 := by
      simpa [FieldValue.encode, FieldValueKind.as_u8, u8enc, u32be] using hk
    refine ⟨"decode FieldValue f32 -> Incomplete", ?_⟩
    rw [show FieldValue.encode (.F32 bits) = u8enc 102 ++ u32be bits from rfl]
    rw [take_app_ge _ _ _ (by rw [u8enc_length]; omega), u8enc_length]
    simp only [FieldValue.decodeF,
      show u8dec (u8enc 102 ++ (u32be bits).take (k - 1)) =
        .ok ((u32be bits).take (k - 1), 102) by simp [u8dec_enc],
      show FieldValueKind.fromU8 102 = FieldValueKind.F32 from rfl,
      show u32dec ((u32be bits).take (k - 1)) = .error .Incomplete by
        rw [u32dec, decodeBE_short _ _ (by rw [List.length_take, u32be_length]; omega)]]
    rfl
  | .F64 bits, _, hk =>
    have hk' : k < 9 := by
      simpa [FieldValue.encode, FieldValueKind.as_u8, u8enc, u64be] using hk
    refine ⟨"decode FieldValue f64 -> Incomplete", ?_⟩
    rw [show FieldValue.encode (.F64 bits) = u8enc 100 ++ u64be bits from rfl]
    rw [take_app_ge _ _ _ (by rw [u8enc_length]; omega), u8enc_length]
    simp only [FieldValue.decodeF,
      show u8dec (u8enc 100 ++ (u64be bits).take (k - 1)) =
        .ok ((u64be bits).take (k - 1), 100) by simp [u8dec_enc],
      show FieldValueKind.fromU8 100 = FieldValueKind.F64 from rfl,
      show u64dec ((u64be bits).take (k - 1)) = .error .Incomplete by
        rw [u64dec, decodeBE_short _ _ (by rw [List.length_take, u64be_length]; omega)]]
    rfl
  | .Timestamp val, _, hk =>
    have hk' : k < 9 := by
      simpa [FieldValue.encode, FieldValueKind.as_u8, u8enc, u64be] using hk
    refine ⟨"decode FieldValue timestamp -> Incomplete", ?_⟩
    rw [show FieldValue.encode (.Timestamp val) = u8enc 84 ++ u64be val from rfl]
    rw [take_app_ge _ _ _ (by rw [u8enc_length]; omega), u8enc_length]
    simp only [FieldValue.decodeF,
      show u8dec (u8enc 84 ++ (u64be val).take (k - 1)) =
        .ok ((u64be val).take (k - 1), 84) by simp [u8dec_enc],
      show FieldValueKind.fromU8 84 = FieldValueKind.Timestamp from rfl,
      show u64dec ((u64be val).take (k - 1)) = .error .Incomplete by
        rw [u64dec, decodeBE_short _ _ (by rw [List.length_take, u64be_length]; omega)]]
    rfl
  | .Decimal d, _, hk =>
    have hk' : k - 1 < (Decimal.encode d).length := by
      have : k < 6 := by
        simpa [FieldValue.encode, FieldValueKind.as_u8, u8enc, Decimal.encode, u32be]
          using hk
      simp only [Decimal.encode, List.length_append, u8enc_length, u32be_length]
      omega
    obtain ⟨m, hm⟩ := decimal_decode_pfx d (k - 1) hk'
    refine ⟨"decode FieldValue decimal -> " ++ ("Decode error while -> " ++ m), ?_⟩
    rw [show FieldValue.encode (.Decimal d) = u8enc 68 ++ Decimal.encode d from rfl]
    rw [take_app_ge _ _ _ (by rw [u8enc_length]; omega), u8enc_length]
    simp only [FieldValue.decodeF,
      show u8dec (u8enc 68 ++ (Decimal.encode d).take (k - 1)) =
        .ok ((Decimal.encode d).take (k - 1), 68) by simp [u8dec_enc],
      show FieldValueKind.fromU8 68 = FieldValueKind.Decimal from rfl, hm]
    rfl
  | .LongStr s, h, hk =>
    have hs : s.wfB = true := by simpa [FieldValue.wf, LongStr.wfB] using h
    have hk' : k - 1 < (LongStr.encode s).length := by
      have h2 : k < (LongStr.encode s).length + 1 := by
        simpa [FieldValue.encode, FieldValueKind.as_u8, u8enc] using hk
      omega
    obtain ⟨m, hm⟩ := longStr_decode_pfx s hs (k - 1) hk'
    refine ⟨"decode FieldValue long string -> " ++ ("Decode error while -> " ++ m), ?_⟩
    rw [show FieldValue.encode (.LongStr s) = u8enc 83 ++ LongStr.encode s from rfl]
    rw [take_app_ge _ _ _ (by rw [u8enc_length]; omega), u8enc_length]
    simp only [FieldValue.decodeF,
      show u8dec (u8enc 83 ++ (LongStr.encode s).take (k - 1)) =
        .ok ((LongStr.encode s).take (k - 1), 83) by simp [u8dec_enc],
      show FieldValueKind.fromU8 83 = FieldValueKind.LongStr from rfl, hm]
    rfl
  | .BytesArray s, h, hk =>
    have hs : s.wfB = true := by simpa [FieldValue.wf, LongStr.wfB] using h
    have hk' : k - 1 < (LongStr.encode s).length := by
      have h2 : k < (LongStr.encode s).length + 1 := by
        simpa [FieldValue.encode, FieldValueKind.as_u8, u8enc] using hk
      omega
    obtain ⟨m, hm⟩ := longStr_decode_pfx s hs (k - 1) hk'
    refine ⟨"decode FieldValue ByteArray -> " ++ ("Decode error while -> " ++ m), ?_⟩
    rw [show FieldValue.encode (.BytesArray s) = u8enc 120 ++ LongStr.encode s from rfl]
    rw [take_app_ge _ _ _ (by rw [u8enc_length]; omega), u8enc_length]
    simp only [FieldValue.decodeF,
      show u8dec (u8enc 120 ++ (LongStr.encode s).take (k - 1)) =
        .ok ((LongStr.encode s).take (k - 1), 120) by simp [u8dec_enc],
      show FieldValueKind.fromU8 120 = FieldValueKind.BytesArray from rfl, hm]
    rfl
  | .Void, _, hk =>
    have hk' : k < 1 := by simpa [FieldValue.encode, FieldValueKind.as_u8, u8enc] using hk
    omega
  | .FieldArray a, h, hk =>
    obtain ⟨⟨hwf, hnil⟩, hlen⟩ := by simpa [FieldValue.wf] using h
    have hk' : k - 1 < (FieldArray.encode a).length := by
      have h2 : k < (FieldArray.encode a).length + 1 := by
        simpa [fieldValue_encode_fieldArray, u8enc] using hk
      omega
    obtain ⟨m, hm⟩ := fieldArray_decodeF_pfx a (by omega) (k - 1) hk' k (by omega)
    refine ⟨"decode FieldValue FieldArray -> " ++ ("Decode error while -> " ++ m), ?_⟩
    rw [fieldValue_encode_fieldArray]
    rw [take_app_ge _ _ _ (by rw [u8enc_length]; omega), u8enc_length]
    simp only [FieldValue.decodeF,
      show u8dec (u8enc FieldValueKind.FieldArray.as_u8 ++
          (FieldArray.encode a).take (k - 1)) =
        .ok ((FieldArray.encode a).take (k - 1), 65) by
          simp [u8dec_enc, FieldValueKind.as_u8],
      show FieldValueKind.fromU8 65 = FieldValueKind.FieldArray from rfl, hm]
    rfl
  | .FieldTable t, h, hk =>
    obtain ⟨⟨⟨hwf, hnil⟩, hnd⟩, hlen⟩ := by simpa [FieldValue.wf] using h
    have hk' : k - 1 < (FieldTable.encode t).length := by
      have h2 : k < (FieldTable.encode t).length + 1 := by
        simpa [fieldValue_encode_fieldTable, u8enc] using hk
      omega
    obtain ⟨m, hm⟩ := fieldTable_decodeF_pfx t (by omega) (k - 1) hk' k (by omega)
    refine ⟨"decode FieldValue FieldTable -> " ++ ("Decode error while -> " ++ m), ?_⟩
    rw [fieldValue_encode_fieldTable]
    rw [take_app_ge _ _ _ (by rw [u8enc_length]; omega), u8enc_length]
    simp only [FieldValue.decodeF,
      show u8dec (u8enc FieldValueKind.FieldTable.as_u8 ++
          (FieldTable.encode t).take (k - 1)) =
        .ok ((FieldTable.encode t).take (k - 1), 70) by
          simp [u8dec_enc, FieldValueKind.as_u8],
      show FieldValueKind.fromU8 70 = FieldValueKind.FieldTable from rfl, hm]
    rfl

/-- Public-wrapper form of the `FieldArray` prefix lemma. -/
theorem fieldArray_decode_pfx (a : FieldArray)
    (hlen : (FieldArray.encodeItems a).length < 2 ^ 32) (k : Nat)
    (hk : k < (FieldArray.encode a).length) :
    ∃ m, FieldArray.decode ((FieldArray.encode a).take k) = .error (.DecodeError m) := by
  rw [FieldArray.decode]
  exact fieldArray_decodeF_pfx a hlen k hk _ (by omega)

/-- Public-wrapper form of the `FieldTable` prefix lemma. -/
theorem fieldTable_decode_pfx (t : FieldTable)
    (hlen : (FieldTable.encodeEntries t).length < 2 ^ 32) (k : Nat)
    (hk : k < (FieldTable.encode t).length) :
    ∃ m, FieldTable.decode ((FieldTable.encode t).take k) = .error (.DecodeError m) := by
  rw [FieldTable.decode]
  exact fieldTable_decodeF_pfx t hlen k hk _ (by omega)

/-- C2 (corrected): on every strict prefix of a valid encoding, each of the six
decoders — `ShortStr::decode`, `LongStr::decode`, `FieldName::decode`,
`FieldValue::decode`, `FieldArray::decode`, `FieldTable::decode` — returns a
generic `DecodeError` (the wrapped form), never the distinguished `Incomplete`
error itself: every one of these decoders catches `Incomplete` and wraps it. -/
theorem claim_C2_corrected :
    (∀ (s : ShortStr), s.wfB = true → ∀ k, k < (ShortStr.encode s).length →
      ∃ m, ShortStr.decode ((ShortStr.encode s).take k) = .error (.DecodeError m)) ∧
    (∀ (s : LongStr), s.wfB = true → ∀ k, k < (LongStr.encode s).length →
      ∃ m, LongStr.decode ((LongStr.encode s).take k) = .error (.DecodeError m)) ∧
    (∀ (n : FieldName), n.wfB = true → ∀ k, k < (FieldName.encode n).length →
      ∃ m, FieldName.decode ((FieldName.encode n).take k) = .error (.DecodeError m)) ∧
    (∀ (v : FieldValue), FieldValue.wf v = true → ∀ k, k < (FieldValue.encode v).length →
      ∃ m, FieldValue.decode ((FieldValue.encode v).take k) = .error (.DecodeError m)) ∧
    (∀ (a : FieldArray), (FieldArray.encodeItems a).length < 2 ^ 32 →
      ∀ k, k < (FieldArray.encode a).length →
      ∃ m, FieldArray.decode ((FieldArray.encode a).take k) = .error (.DecodeError m)) ∧
    (∀ (t : FieldTable), (FieldTable.encodeEntries t).length < 2 ^ 32 →
      ∀ k, k < (FieldTable.encode t).length →
      ∃ m, FieldTable.decode ((FieldTable.encode t).take k) = .error (.DecodeError m)) :=
  ⟨shortStr_decode_pfx, longStr_decode_pfx, fieldName_decode_pfx,
    fieldValue_decode_pfx, fieldArray_decode_pfx, fieldTable_decode_pfx⟩

/-- C2 witness: the corrected claim instantiated on the one-byte string "a"
(strict prefix of length 1 of its 2-byte encoding) and on the empty field
table's encoding cut to 3 of its 4 bytes. -/
theorem claim_C2_witness :
    (∃ m, ShortStr.decode ((ShortStr.encode ⟨[97]⟩).take 1) =
      .error (.DecodeError m)) ∧
    (∃ m, FieldTable.decode ((FieldTable.encode .nil).take 3) =
      .error (.DecodeError m)) :=
  ⟨claim_C2_corrected.1 ⟨[97]⟩ (by decide) 1 (by decide),
    claim_C2_corrected.2.2.2.2.2 .nil (by decide) 3 (by decide)⟩

/-- C2 counterexample, refuting the claim as stated: the empty buffer is a
strict prefix of the valid encoding `[0]` of the empty `ShortStr`, yet
`ShortStr::decode` on it returns a generic `DecodeError` wrapping the
incomplete-input message — not the distinguished `Incomplete` error that the
claim says passes through unchanged. -/
theorem claim_C2_counterexample :
    (ShortStr.encode ⟨[]⟩ = [0] ∧ ([] : List Nat) = (ShortStr.encode ⟨[]⟩).take 0 ∧
      ShortStr.wfB ⟨[]⟩ = true) ∧
    ShortStr.decode [] = .error (.DecodeError "decode ShortStr length -> Incomplete") ∧
    ShortStr.decode [] ≠ .error .Incomplete := by
  refine ⟨⟨rfl, rfl, by decide⟩, rfl, ?_⟩
  intro hcontra
  rw [show ShortStr.decode [] =
      .error (.DecodeError "decode ShortStr length -> Incomplete") from rfl] at hcontra
  exact FrameDecodeErr.noConfusion (Except.error.inj hcontra)

/-- C3 (corrected): round-trip law for the length-delimited containers,
restricted to *non-empty* containers (the do-while decode loops reject an
empty body, so the law fails for the empty table and the empty array): for
every non-empty well-formed `FieldArray` and every non-empty well-formed
`FieldTable` with distinct keys, decoding the encoding returns `Ok` with the
original value and consumes the whole encoding. -/
theorem claim_C3_corrected :
    (∀ (a : FieldArray), FieldArray.wfItems a = true → a.isNil = false →
      (FieldArray.encodeItems a).length < 2 ^ 32 →
      FieldArray.decode (FieldArray.encode a) = .ok ([], a)) ∧
    (∀ (t : FieldTable), FieldTable.wfEntries t = true → t.isNil = false →
      FieldTable.keysNodup t = true → (FieldTable.encodeEntries t).length < 2 ^ 32 →
      FieldTable.decode (FieldTable.encode t) = .ok ([], t)) :=
  ⟨fieldArray_decode_encode, fieldTable_decode_encode⟩

/-- C3 witness: the corrected round-trip law instantiated on the singleton
array `[true]` and the singleton table `{"a": true}`. -/
theorem claim_C3_witness :
    FieldArray.decode (FieldArray.encode (.cons (.Boolean true) .nil)) =
      .ok ([], .cons (.Boolean true) .nil) ∧
    FieldTable.decode (FieldTable.encode (.cons ⟨⟨[97]⟩⟩ (.Boolean true) .nil)) =
      .ok ([], .cons ⟨⟨[97]⟩⟩ (.Boolean true) .nil) :=
  ⟨claim_C3_corrected.1 _ (by decide) (by decide) (by decide),
    claim_C3_corrected.2 _ (by decide) (by decide) (by decide) (by decide)⟩

/-- C3 counterexample, refuting the claim as stated for the empty containers:
decoding the encoding of the empty `FieldArray` and of the empty `FieldTable`
returns a generic `DecodeError` rather than `Ok` — the decode loops are
do-while loops that always attempt at least one item read. -/
theorem claim_C3_counterexample :
    resKind (FieldArray.decode (FieldArray.encode .nil)) = .decodeErr ∧
    resKind (FieldTable.decode (FieldTable.encode .nil)) = .decodeErr :=
  ⟨rfl, rfl⟩

/-- C5 (corrected): `ShortStr::with_bytes` rejects bodies longer than 255
bytes with a constructor (syntax) error and lossy-accepts all shorter bodies;
but the round-trip law holds only when the *lossy-converted* string still fits
in 255 bytes — the additional hypothesis `(utf8Lossy body).length ≤ 255` is
needed because `encode` truncates the stored string's length with `as u8`,
and invalid UTF-8 input can grow past 255 bytes under replacement-character
conversion. -/
theorem claim_C5_corrected :
    (∀ body : List Nat, 255 < body.length →
      ShortStr.with_bytes body = .error (.SyntaxError "ShortStr too long")) ∧
    (∀ body : List Nat, body.length ≤ 255 →
      ShortStr.with_bytes body = .ok ⟨utf8Lossy body⟩) ∧
    (∀ body : List Nat, body.length ≤ 255 → (utf8Lossy body).length ≤ 255 →
      ShortStr.decode (ShortStr.encode ⟨utf8Lossy body⟩) =
        .ok ([], (⟨utf8Lossy body⟩ : ShortStr))) := by
  refine ⟨?_, ?_, ?_⟩
  · intro body hb
    rw [ShortStr.with_bytes, if_pos hb]
  · intro body hb
    rw [ShortStr.with_bytes, if_neg (by omega)]
  · intro body hb hl
    have hwf : ShortStr.wfB ⟨utf8Lossy body⟩ = true := by
      simp only [ShortStr.wfB, Bool.and_eq_true, decide_eq_true_eq, beq_iff_eq]
      exact ⟨hl, utf8Lossy_idem body⟩
    simpa using shortStr_decode_encode ⟨utf8Lossy body⟩ hwf []

set_option maxRecDepth 10000 in
/-- C5 witness: the corrected claim instantiated on a 256-byte body (rejected),
and on the ASCII body "hi" (lossy-accepted and round-tripping). -/
theorem claim_C5_witness :
    ShortStr.with_bytes (List.replicate 256 97) =
      .error (.SyntaxError "ShortStr too long") ∧
    ShortStr.with_bytes [104, 105] = .ok ⟨utf8Lossy [104, 105]⟩ ∧
    ShortStr.decode (ShortStr.encode ⟨utf8Lossy [104, 105]⟩) =
      .ok ([], (⟨utf8Lossy [104, 105]⟩ : ShortStr)) :=
  ⟨claim_C5_corrected.1 _ (by decide), claim_C5_corrected.2.1 _ (by decide),
    claim_C5_corrected.2.2 _ (by decide) (by decide)⟩

set_option maxRecDepth 10000 in
/-- C5 counterexample, refuting the claim as stated: the 86-byte body made of
0xFF bytes is within the 255-byte cap and is lossy-accepted, but each byte
becomes the 3-byte replacement character, giving a 258-byte string; `encode`
then writes the length byte as `258 as u8 = 2`, so decoding the encoding
returns a 3-byte string with 256 bytes left over instead of the original
value with nothing left over. -/
theorem claim_C5_counterexample :
    (List.replicate 86 255).length ≤ 255 ∧
    ShortStr.with_bytes (List.replicate 86 255) =
      .ok ⟨(List.replicate 86 [239, 191, 189]).join⟩ ∧
    ShortStr.decode (ShortStr.encode ⟨(List.replicate 86 [239, 191, 189]).join⟩) =
      .ok (((List.replicate 86 [239, 191, 189]).join).drop 2, ⟨[239, 191, 189]⟩) ∧
    ShortStr.decode (ShortStr.encode ⟨(List.replicate 86 [239, 191, 189]).join⟩) ≠
      .ok ([], (⟨(List.replicate 86 [239, 191, 189]).join⟩ : ShortStr)) := by
  refine ⟨by decide, rfl, rfl, ?_⟩
  intro hcontra
  rw [show ShortStr.decode (ShortStr.encode ⟨(List.replicate 86 [239, 191, 189]).join⟩) =
      .ok (((List.replicate 86 [239, 191, 189]).join).drop 2, ⟨[239, 191, 189]⟩)
      from rfl] at hcontra
  exact absurd (Except.ok.inj hcontra) (by decide)

/-! ### Class and method registry (`src/class/class.rs`, `src/method/`) -/

/-- Type alias for AMQP timestamps (`pub type Timestamp = u64;`). -/
abbrev Timestamp := Nat

/-- Mirror of `enum Class` from `src/class/class.rs`. -/
inductive Class where
  | Connection | Channel | Access | Exchange | Queue | Basic | Tx | Confirm | Unknown
deriving DecidableEq, Repr

/-- Mirror of `Class::class_id`. -/
def Class.class_id : Class → Nat
  | .Connection => 10
  | .Channel => 20
  | .Access => 30
  | .Exchange => 40
  | .Queue => 50
  | .Basic => 60
  | .Confirm => 85
  | .Tx => 90
  | .Unknown => 0xffff

/-- Mirror of `impl From<u16> for Class`. -/
def Class.fromU16 : Nat → Class
  | 10 => .Connection
  | 20 => .Channel
  | 30 => .Access
  | 40 => .Exchange
  | 50 => .Queue
  | 60 => .Basic
  | 85 => .Confirm
  | 90 => .Tx
  | _ => .Unknown

/-- Mirror of `enum ConnectionMethod` from `src/method/connection.rs`. -/
inductive ConnectionMethod where
  | Start | StartOk | Secure | SecureOk | Tune | TuneOk | Open | OpenOk | Close | CloseOk
  | Unknown
deriving DecidableEq, Repr

/-- Mirror of `ConnectionMethod::method_id`. -/
def ConnectionMethod.method_id : ConnectionMethod → Nat
  | .Start => 10
  | .StartOk => 11
  | .Secure => 20
  | .SecureOk => 21
  | .Tune => 30
  | .TuneOk => 31
  | .Open => 40
  | .OpenOk => 41
  | .Close => 50
  | .CloseOk => 51
  | .Unknown => 0xffff

/-- Mirror of `impl From<u16> for ConnectionMethod`. -/
def ConnectionMethod.fromU16 : Nat → ConnectionMethod
  | 10 => .Start
  | 11 => .StartOk
  | 20 => .Secure
  | 21 => .SecureOk
  | 30 => .Tune
  | 31 => .TuneOk
  | 40 => .Open
  | 41 => .OpenOk
  | 50 => .Close
  | 51 => .CloseOk
  | _ => .Unknown

/-- Mirror of `enum ChannelMethod` from `src/method/channel.rs`. -/
inductive ChannelMethod where
  | Open | OpenOk | Flow | FlowOk | Close | CloseOk | Unknown
deriving DecidableEq, Repr

/-- Mirror of `ChannelMethod::method_id`. -/
def ChannelMethod.method_id : ChannelMethod → Nat
  | .Open => 10
  | .OpenOk => 11
  | .Flow => 20
  | .FlowOk => 21
  | .Close => 40
  | .CloseOk => 41
  | .Unknown => 0xffff

/-- Mirror of `impl From<u16> for ChannelMethod`. -/
def ChannelMethod.fromU16 : Nat → ChannelMethod
  | 10 => .Open
  | 11 => .OpenOk
  | 20 => .Flow
  | 21 => .FlowOk
  | 40 => .Close
  | 41 => .CloseOk
  | _ => .Unknown

/-- Mirror of `enum AccessMethod` from `src/method/access.rs`. -/
inductive AccessMethod where
  | Request | RequestOk | Unknown
deriving DecidableEq, Repr

/-- Mirror of `AccessMethod::method_id`. -/
def AccessMethod.method_id : AccessMethod → Nat
  | .Request => 10
  | .RequestOk => 11
  | .Unknown => 0xffff

/-- Mirror of `impl From<u16> for AccessMethod`. -/
def AccessMethod.fromU16 : Nat → AccessMethod
  | 10 => .Request
  | 11 => .RequestOk
  | _ => .Unknown

/-- Mirror of `enum ExchangeMethod` from `src/method/exchange.rs`. -/
inductive ExchangeMethod where
  | Declare | DeclareOk | Delete | DeleteOk | Bind | BindOk | Unbind | UnbindOk | Unknown
deriving DecidableEq, Repr

/-- Mirror of `ExchangeMethod::method_id` — note `UnbindOk => 51`, not 41. -/
def ExchangeMethod.method_id : ExchangeMethod → Nat
  | .Declare => 10
  | .DeclareOk => 11
  | .Delete => 20
  | .DeleteOk => 21
  | .Bind => 30
  | .BindOk => 31
  | .Unbind => 40
  | .UnbindOk => 51
  | .Unknown => 0xffff

/-- Mirror of `impl From<u16> for ExchangeMethod` — `51 => UnbindOk`, and 41
falls through to `Unknown`. -/
def ExchangeMethod.fromU16 : Nat → ExchangeMethod
  | 10 => .Declare
  | 11 => .DeclareOk
  | 20 => .Delete
  | 21 => .DeleteOk
  | 30 => .Bind
  | 31 => .BindOk
  | 40 => .Unbind
  | 51 => .UnbindOk
  | _ => .Unknown

/-- Mirror of `enum QueueMethod` from `src/method/queue.rs`. -/
inductive QueueMethod where
  | Declare | DeclareOk | Bind | BindOk | Unbind | UnbindOk | Purge | PurgeOk
  | Delete | DeleteOk | Unknown
deriving DecidableEq, Repr

/-- Mirror of `QueueMethod::method_id`. -/
def QueueMethod.method_id : QueueMethod → Nat
  | .Declare => 10
  | .DeclareOk => 11
  | .Bind => 20
  | .BindOk => 21
  | .Unbind => 50
  | .UnbindOk => 51
  | .Purge => 30
  | .PurgeOk => 31
  | .Delete => 40
  | .DeleteOk => 41
  | .Unknown => 0xffff

/-- Mirror of `impl From<u16> for QueueMethod`. -/
def QueueMethod.fromU16 : Nat → QueueMethod
  | 10 => .Declare
  | 11 => .DeclareOk
  | 20 => .Bind
  | 21 => .BindOk
  | 50 => .Unbind
  | 51 => .UnbindOk
  | 30 => .Purge
  | 31 => .PurgeOk
  | 40 => .Delete
  | 41 => .DeleteOk
  | _ => .Unknown

/-- Mirror of `enum BasicMethod` from `src/method/basic.rs`. -/
inductive BasicMethod where
  | Qos | QosOk | Consume | ConsumeOk | Cancel | CancelOk | Publish | Return
  | Deliver | Get | GetOk | GetEmpty | Ack | Reject | RecoverAsync | Recover
  | RecoverOk | Nack | Unknown
deriving DecidableEq, Repr

/-- Mirror of `BasicMethod::method_id` — `Nack => 120`. -/
def BasicMethod.method_id : BasicMethod → Nat
  | .Qos => 10
  | .QosOk => 11
  | .Consume => 20
  | .ConsumeOk => 21
  | .Cancel => 30
  | .CancelOk => 31
  | .Publish => 40
  | .Return => 50
  | .Deliver => 60
  | .Get => 70
  | .GetOk => 71
  | .GetEmpty => 72
  | .Ack => 80
  | .Reject => 90
  | .RecoverAsync => 100
  | .Recover => 110
  | .RecoverOk => 111
  | .Nack => 120
  | .Unknown => 0xffff

/-- Mirror of `impl From<u16> for BasicMethod` — faithfully reproducing the
source, which has NO `120 => Nack` arm: 120 falls through to `Unknown`. -/
def BasicMethod.fromU16 : Nat → BasicMethod
  | 10 => .Qos
  | 11 => .QosOk
  | 20 => .Consume
  | 21 => .ConsumeOk
  | 30 => .Cancel
  | 31 => .CancelOk
  | 40 => .Publish
  | 50 => .Return
  | 60 => .Deliver
  | 70 => .Get
  | 71 => .GetOk
  | 72 => .GetEmpty
  | 80 => .Ack
  | 90 => .Reject
  | 100 => .RecoverAsync
  | 110 => .Recover
  | 111 => .RecoverOk
  | _ => .Unknown

/-- Mirror of `enum TxMethod` from `src/method/tx.rs`. -/
inductive TxMethod where
  | Select | SelectOk | Commit | CommitOk | Rollback | RollbackOk | Unknown
deriving DecidableEq, Repr

/-- Mirror of `TxMethod::method_id`. -/
def TxMethod.method_id : TxMethod → Nat
  | .Select => 10
  | .SelectOk => 11
  | .Commit => 20
  | .CommitOk => 21
  | .Rollback => 30
  | .RollbackOk => 31
  | .Unknown => 0xffff

/-- Mirror of `impl From<u16> for TxMethod`. -/
def TxMethod.fromU16 : Nat → TxMethod
  | 10 => .Select
  | 11 => .SelectOk
  | 20 => .Commit
  | 21 => .CommitOk
  | 30 => .Rollback
  | 31 => .RollbackOk
  | _ => .Unknown

/-- Mirror of `enum ConfirmMethod` from `src/method/confirm.rs`. -/
inductive ConfirmMethod where
  | Select | SelectOk | Unknown
deriving DecidableEq, Repr

/-- Mirror of `ConfirmMethod::method_id`. -/
def ConfirmMethod.method_id : ConfirmMethod → Nat
  | .Select => 10
  | .SelectOk => 11
  | .Unknown => 0xffff

/-- Mirror of `impl From<u16> for ConfirmMethod`. -/
def ConfirmMethod.fromU16 : Nat → ConfirmMethod
  | 10 => .Select
  | 11 => .SelectOk
  | _ => .Unknown

/-- Mirror of `enum Method` from `src/method/base.rs`. -/
inductive Method where
  | Connection (m : ConnectionMethod)
  | Channel (m : ChannelMethod)
  | Access (m : AccessMethod)
  | Exchange (m : ExchangeMethod)
  | Queue (m : QueueMethod)
  | Basic (m : BasicMethod)
  | Confirm (m : ConfirmMethod)
  | Tx (m : TxMethod)
deriving DecidableEq, Repr

/-- Mirror of `impl MethodId for Method`. -/
def Method.method_id : Method → Nat
  | .Connection m => m.method_id
  | .Channel m => m.method_id
  | .Access m => m.method_id
  | .Exchange m => m.method_id
  | .Queue m => m.method_id
  | .Basic m => m.method_id
  | .Confirm m => m.method_id
  | .Tx m => m.method_id

/-- Mirror of `get_method_type` from `src/method/base.rs`: maps a class and a
wire method id to the method type, rejecting unknown ids with a syntax error. -/
def get_method_type (cls : Class) (method_id : Nat) : Except FrameDecodeErr Method :=
  match cls with
  | .Connection =>
    match ConnectionMethod.fromU16 method_id with
    | .Unknown => .error (.SyntaxError "unknown method for connection")
    | m => .ok (.Connection m)
  | .Channel =>
    match ChannelMethod.fromU16 method_id with
    | .Unknown => .error (.SyntaxError "unknown method for channel")
    | m => .ok (.Channel m)
  | .Access =>
    match AccessMethod.fromU16 method_id with
    | .Unknown => .error (.SyntaxError "unknown method for access")
    | m => .ok (.Access m)
  | .Exchange =>
    match ExchangeMethod.fromU16 method_id with
    | .Unknown => .error (.SyntaxError "unknown method for exchange")
    | m => .ok (.Exchange m)
  | .Queue =>
    match QueueMethod.fromU16 method_id with
    | .Unknown => .error (.SyntaxError "unknown method for queue")
    | m => .ok (.Queue m)
  | .Basic =>
    match BasicMethod.fromU16 method_id with
    | .Unknown => .error (.SyntaxError "unknown method for basic")
    | m => .ok (.Basic m)
  | .Tx =>
    match TxMethod.fromU16 method_id with
    | .Unknown => .error (.SyntaxError "unknown method for tx")
    | m => .ok (.Tx m)
  | .Confirm =>
    match ConfirmMethod.fromU16 method_id with
    | .Unknown => .error (.SyntaxError "unknown method for confirm")
    | m => .ok (.Confirm m)
  | .Unknown => .error (.SyntaxError "unknown class")

/-! ### Content-header properties (`src/frame/header/`) -/

/-- Mirror of `ConnectionProperties` from `src/frame/header/connection.rs`. -/
structure ConnectionProperties where
  flags : Nat
deriving DecidableEq, Repr

/-- Mirror of `ChannelProperties` from `src/frame/header/channel.rs`. -/
structure ChannelProperties where
  flags : Nat
deriving DecidableEq, Repr

/-- Mirror of `AccessProperties` from `src/frame/header/access.rs`. -/
structure AccessProperties where
  flags : Nat
deriving DecidableEq, Repr

/-- Mirror of `ExchangeProperties`. The module tree of `src/lib.rs` refers to
`frame::header::exchange`, whose file is absent from the sources; the struct is
modelled after the identically shaped `ExchangeProperties` in `src/exchange.rs`
(a `u32` flags word whose decode passes errors through unwrapped, like the
connection/channel/queue/tx/confirm properties). -/
structure ExchangeProperties where
  flags : Nat
deriving DecidableEq, Repr

/-- Mirror of `QueueProperties` from `src/frame/header/queue.rs`. -/
structure QueueProperties where
  flags : Nat
deriving DecidableEq, Repr

/-- Mirror of `TxProperties` from `src/frame/header/tx.rs`. -/
structure TxProperties where
  flags : Nat
deriving DecidableEq, Repr

/-- Mirror of `ConfirmProperties` from `src/frame/header/confirm.rs`. -/
structure ConfirmProperties where
  flags : Nat
deriving DecidableEq, Repr

/-- Mirror of `BasicProperties` from `src/frame/header/basic.rs`: a 32-bit
flags word plus one field per optional property. -/
structure BasicProperties where
  flags : Nat := 0
  content_type : ShortStr := ⟨[]⟩
  content_encoding : ShortStr := ⟨[]⟩
  headers : FieldTable := .nil
  delivery_mode : Nat := 0
  priority : Nat := 0
  correlation_id : ShortStr := ⟨[]⟩
  reply_to : ShortStr := ⟨[]⟩
  expiration : ShortStr := ⟨[]⟩
  message_id : ShortStr := ⟨[]⟩
  timestamp : Timestamp := 0
  basic_type : ShortStr := ⟨[]⟩
  user_id : ShortStr := ⟨[]⟩
  app_id : ShortStr := ⟨[]⟩
  cluster_id : ShortStr := ⟨[]⟩
deriving DecidableEq

/-- `BasicProperties::CONTENT_TYPE_FLAG`. -/
def BasicProperties.CONTENT_TYPE_FLAG : Nat := 1 <<< 15
/-- `BasicProperties::CONTENT_ENCODING_FLAG`. -/
def BasicProperties.CONTENT_ENCODING_FLAG : Nat := 1 <<< 14
/-- `BasicProperties::HEADERS_FLAG`. -/
def BasicProperties.HEADERS_FLAG : Nat := 1 <<< 13
/-- `BasicProperties::DELIVERY_FLAG`. -/
def BasicProperties.DELIVERY_FLAG : Nat := 1 <<< 12
/-- `BasicProperties::PRIORITY_FLAG`. -/
def BasicProperties.PRIORITY_FLAG : Nat := 1 <<< 11
/-- `BasicProperties::CORRELATION_ID_FLAG`. -/
def BasicProperties.CORRELATION_ID_FLAG : Nat := 1 <<< 10
/-- `BasicProperties::REPLY_TO_FLAG`. -/
def BasicProperties.REPLY_TO_FLAG : Nat := 1 <<< 9
/-- `BasicProperties::EXPIRATION_FLAG`. -/
def BasicProperties.EXPIRATION_FLAG : Nat := 1 <<< 8
/-- `BasicProperties::MESSAGE_ID_FLAG`. -/
def BasicProperties.MESSAGE_ID_FLAG : Nat := 1 <<< 7
/-- `BasicProperties::TIMESTAMP_FLAG`. -/
def BasicProperties.TIMESTAMP_FLAG : Nat := 1 <<< 6
/-- `BasicProperties::BASIC_TYPE_FLAG`. -/
def BasicProperties.BASIC_TYPE_FLAG : Nat := 1 <<< 5
/-- `BasicProperties::USER_ID_FLAG`. -/
def BasicProperties.USER_ID_FLAG : Nat := 1 <<< 4
/-- `BasicProperties::APP_ID_FLAG`. -/
def BasicProperties.APP_ID_FLAG : Nat := 1 <<< 3
/-- `BasicProperties::CLUSTER_ID_FLAG`. -/
def BasicProperties.CLUSTER_ID_FLAG : Nat := 1 <<< 2

/-- `BasicProperties::set_content_type`: ORs the flag bit and stores the field. -/
def BasicProperties.set_content_type (p : BasicProperties) (content_type : ShortStr) :
    BasicProperties :=
  { p with flags := p.flags ||| BasicProperties.CONTENT_TYPE_FLAG, content_type }

/-- `BasicProperties::set_content_encoding`. -/
def BasicProperties.set_content_encoding (p : BasicProperties) (content_encoding : ShortStr) :
    BasicProperties :=
  { p with flags := p.flags ||| BasicProperties.CONTENT_ENCODING_FLAG, content_encoding }

/-- `BasicProperties::set_headers`. -/
def BasicProperties.set_headers (p : BasicProperties) (headers : FieldTable) :
    BasicProperties :=
  { p with flags := p.flags ||| BasicProperties.HEADERS_FLAG, headers }

/-- `BasicProperties::set_delivery_mode`. -/
def BasicProperties.set_delivery_mode (p : BasicProperties) (delivery_mode : Nat) :
    BasicProperties :=
  { p with flags := p.flags ||| BasicProperties.DELIVERY_FLAG, delivery_mode }

/-- `BasicProperties::set_priority`. -/
def BasicProperties.set_priority (p : BasicProperties) (priority : Nat) :
    BasicProperties :=
  { p with flags := p.flags ||| BasicProperties.PRIORITY_FLAG, priority }

/-- `BasicProperties::set_correlation_id`. -/
def BasicProperties.set_correlation_id (p : BasicProperties) (correlation_id : ShortStr) :
    BasicProperties :=
  { p with flags := p.flags ||| BasicProperties.CORRELATION_ID_FLAG, correlation_id }

/-- `BasicProperties::set_reply_to`. -/
def BasicProperties.set_reply_to (p : BasicProperties) (reply_to : ShortStr) :
    BasicProperties :=
  { p with flags := p.flags ||| BasicProperties.REPLY_TO_FLAG, reply_to }

/-- `BasicProperties::set_expiration`. -/
def BasicProperties.set_expiration (p : BasicProperties) (expiration : ShortStr) :
    BasicProperties :=
  { p with flags := p.flags ||| BasicProperties.EXPIRATION_FLAG, expiration }

/-- `BasicProperties::set_message_id`. -/
def BasicProperties.set_message_id (p : BasicProperties) (message_id : ShortStr) :
    BasicProperties :=
  { p with flags := p.flags ||| BasicProperties.MESSAGE_ID_FLAG, message_id }

/-- `BasicProperties::set_timestamp`. -/
def BasicProperties.set_timestamp (p : BasicProperties) (timestamp : Timestamp) :
    BasicProperties :=
  { p with flags := p.flags ||| BasicProperties.TIMESTAMP_FLAG, timestamp }

/-- `BasicProperties::set_basic_type`. -/
def BasicProperties.set_basic_type (p : BasicProperties) (basic_type : ShortStr) :
    BasicProperties :=
  { p with flags := p.flags ||| BasicProperties.BASIC_TYPE_FLAG, basic_type }

/-- `BasicProperties::set_user_id`. -/
def BasicProperties.set_user_id (p : BasicProperties) (user_id : ShortStr) :
    BasicProperties :=
  { p with flags := p.flags ||| BasicProperties.USER_ID_FLAG, user_id }

/-- `BasicProperties::set_app_id`. -/
def BasicProperties.set_app_id (p : BasicProperties) (app_id : ShortStr) :
    BasicProperties :=
  { p with flags := p.flags ||| BasicProperties.APP_ID_FLAG, app_id }

/-- `BasicProperties::set_cluster_id`. -/
def BasicProperties.set_cluster_id (p : BasicProperties) (cluster_id : ShortStr) :
    BasicProperties :=
  { p with flags := p.flags ||| BasicProperties.CLUSTER_ID_FLAG, cluster_id }

/-- Mirror of `impl Encode for BasicProperties`: the flags word, then each
present field in descending flag-bit order. -/
def BasicProperties.encode (p : BasicProperties) : List Nat :=
  u32be p.flags
  ++ (if p.flags &&& BasicProperties.CONTENT_TYPE_FLAG ≠ 0 then p.content_type.encode else [])
  ++ (if p.flags &&& BasicProperties.CONTENT_ENCODING_FLAG ≠ 0 then p.content_encoding.encode else [])
  ++ (if p.flags &&& BasicProperties.HEADERS_FLAG ≠ 0 then p.headers.encode else [])
  ++ (if p.flags &&& BasicProperties.DELIVERY_FLAG ≠ 0 then u8enc p.delivery_mode else [])
  ++ (if p.flags &&& BasicProperties.PRIORITY_FLAG ≠ 0 then u8enc p.priority else [])
  ++ (if p.flags &&& BasicProperties.CORRELATION_ID_FLAG ≠ 0 then p.correlation_id.encode else [])
  ++ (if p.flags &&& BasicProperties.REPLY_TO_FLAG ≠ 0 then p.reply_to.encode else [])
  ++ (if p.flags &&& BasicProperties.EXPIRATION_FLAG ≠ 0 then p.expiration.encode else [])
  ++ (if p.flags &&& BasicProperties.MESSAGE_ID_FLAG ≠ 0 then p.message_id.encode else [])
  ++ (if p.flags &&& BasicProperties.TIMESTAMP_FLAG ≠ 0 then u64be p.timestamp else [])
  ++ (if p.flags &&& BasicProperties.BASIC_TYPE_FLAG ≠ 0 then p.basic_type.encode else [])
  ++ (if p.flags &&& BasicProperties.USER_ID_FLAG ≠ 0 then p.user_id.encode else [])
  ++ (if p.flags &&& BasicProperties.APP_ID_FLAG ≠ 0 then p.app_id.encode else [])
  ++ (if p.flags &&& BasicProperties.CLUSTER_ID_FLAG ≠ 0 then p.cluster_id.encode else [])

/-- Mirror of `enum Property` from `src/frame/base.rs`. -/
inductive Property where
  | Connection (p : ConnectionProperties)
  | Channel (p : ChannelProperties)
  | Access (p : AccessProperties)
  | Exchange (p : ExchangeProperties)
  | Queue (p : QueueProperties)
  | Basic (p : BasicProperties)
  | Tx (p : TxProperties)
  | Confirm (p : ConfirmProperties)
deriving DecidableEq

/-- Mirror of `impl Encode for Property`. -/
def Property.encode : Property → List Nat
  | .Connection p => u32be p.flags
  | .Channel p => u32be p.flags
  | .Access p => u32be p.flags
  | .Exchange p => u32be p.flags
  | .Queue p => u32be p.flags
  | .Basic p => p.encode
  | .Tx p => u32be p.flags
  | .Confirm p => u32be p.flags

/-- Mirror of `impl Decode<Property> for ConnectionProperties` — note the
error passes through UNwrapped (`Err(e) => return Err(e)`). -/
def ConnectionProperties.decode (buffer : List Nat) :
    Except FrameDecodeErr (List Nat × Property) :=
  match u32dec buffer with
  | .error e => .error e
  | .ok (buffer, flags) => .ok (buffer, .Connection ⟨flags⟩)

/-- Mirror of `impl Decode<Property> for ChannelProperties` (unwrapped error). -/
def ChannelProperties.decode (buffer : List Nat) :
    Except FrameDecodeErr (List Nat × Property) :=
  match u32dec buffer with
  | .error e => .error e
  | .ok (buffer, flags) => .ok (buffer, .Channel ⟨flags⟩)

/-- Mirror of `impl Decode<Property> for AccessProperties` — this one WRAPS
its error with a context. -/
def AccessProperties.decode (buffer : List Nat) :
    Except FrameDecodeErr (List Nat × Property) :=
  match u32dec buffer with
  | .error e => .error (wrapErr "decode AccessProperties flags -> " e)
  | .ok (buffer, flags) => .ok (buffer, .Access ⟨flags⟩)

/-- Decode for `ExchangeProperties`, modelled after `src/exchange.rs`
(unwrapped error, like the other trivial properties). -/
def ExchangeProperties.decode (buffer : List Nat) :
    Except FrameDecodeErr (List Nat × Property) :=
  match u32dec buffer with
  | .error e => .error e
  | .ok (buffer, flags) => .ok (buffer, .Exchange ⟨flags⟩)

/-- Mirror of `impl Decode<Property> for QueueProperties` (unwrapped error). -/
def QueueProperties.decode (buffer : List Nat) :
    Except FrameDecodeErr (List Nat × Property) :=
  match u32dec buffer with
  | .error e => .error e
  | .ok (buffer, flags) => .ok (buffer, .Queue ⟨flags⟩)

/-- Mirror of `impl Decode<Property> for TxProperties` (unwrapped error). -/
def TxProperties.decode (buffer : List Nat) :
    Except FrameDecodeErr (List Nat × Property) :=
  match u32dec buffer with
  | .error e => .error e
  | .ok (buffer, flags) => .ok (buffer, .Tx ⟨flags⟩)

/-- Mirror of `impl Decode<Property> for ConfirmProperties` (unwrapped error). -/
def ConfirmProperties.decode (buffer : List Nat) :
    Except FrameDecodeErr (List Nat × Property) :=
  match u32dec buffer with
  | .error e => .error e
  | .ok (buffer, flags) => .ok (buffer, .Confirm ⟨flags⟩)

/-- Mirror of `impl Decode<Property> for BasicProperties`: read the flags
word, then conditionally consume each present field in descending flag-bit
order, populating a default value through the flag-setting setters. -/
def BasicProperties.decode (buffer : List Nat) :
    Except FrameDecodeErr (List Nat × Property) := do
  let (buffer, flags) ← match u32dec buffer with
    | .error e => .error (wrapErr "decode BasicProperties flags -> " e)
    | .ok r => Except.ok r
  let properties : BasicProperties := {}
  let (buffer, properties) ←
    if flags &&& BasicProperties.CONTENT_TYPE_FLAG ≠ 0 then
      match ShortStr.decode buffer with
      | .error e => .error (wrapErr "decode BasicProperties content type -> " e)
      | .ok (buffer, content_type) => Except.ok (buffer, properties.set_content_type content_type)
    else Except.ok (buffer, properties)
  let (buffer, properties) ←
    if flags &&& BasicProperties.CONTENT_ENCODING_FLAG ≠ 0 then
      match ShortStr.decode buffer with
      | .error e => .error (wrapErr "decode BasicProperties content-encoding -> " e)
      | .ok (buffer, content_encoding) =>
        Except.ok (buffer, properties.set_content_encoding content_encoding)
    else Except.ok (buffer, properties)
  let (buffer, properties) ←
    if flags &&& BasicProperties.HEADERS_FLAG ≠ 0 then
      match FieldTable.decode buffer with
      | .error e => .error (wrapErr "decode BasicProperties headers -> " e)
      | .ok (buffer, headers) => Except.ok (buffer, properties.set_headers headers)
    else Except.ok (buffer, properties)
  let (buffer, properties) ←
    if flags &&& BasicProperties.DELIVERY_FLAG ≠ 0 then
      match u8dec buffer with
      | .error e => .error (wrapErr "decode BasicProperties delivery mode -> " e)
      | .ok (buffer, delivery_mode) => Except.ok (buffer, properties.set_delivery_mode delivery_mode)
    else Except.ok (buffer, properties)
  let (buffer, properties) ←
    if flags &&& BasicProperties.PRIORITY_FLAG ≠ 0 then
      match u8dec buffer with
      | .error e => .error (wrapErr "decode BasicPropertiespriority -> " e)
      | .ok (buffer, priority) => Except.ok (buffer, properties.set_priority priority)
    else Except.ok (buffer, properties)
  let (buffer, properties) ←
    if flags &&& BasicProperties.CORRELATION_ID_FLAG ≠ 0 then
      match ShortStr.decode buffer with
      | .error e => .error (wrapErr "decode BasicProperties correlation id -> " e)
      | .ok (buffer, correlation_id) =>
        Except.ok (buffer, properties.set_correlation_id correlation_id)
    else Except.ok (buffer, properties)
  let (buffer, properties) ←
    if flags &&& BasicProperties.REPLY_TO_FLAG ≠ 0 then
      match ShortStr.decode buffer with
      | .error e => .error (wrapErr "decode BasicProperties reply_to -> " e)
      | .ok (buffer, reply_to) => Except.ok (buffer, properties.set_reply_to reply_to)
    else Except.ok (buffer, properties)
  let (buffer, properties) ←
    if flags &&& BasicProperties.EXPIRATION_FLAG ≠ 0 then
      match ShortStr.decode buffer with
      | .error e => .error (wrapErr "decode BasicProperties expiration -> " e)
      | .ok (buffer, expiration) => Except.ok (buffer, properties.set_expiration expiration)
    else Except.ok (buffer, properties)
  let (buffer, properties) ←
    if flags &&& BasicProperties.MESSAGE_ID_FLAG ≠ 0 then
      match ShortStr.decode buffer with
      | .error e => .error (wrapErr "decode BasicProperties message_id -> " e)
      | .ok (buffer, message_id) => Except.ok (buffer, properties.set_message_id message_id)
    else Except.ok (buffer, properties)
  let (buffer, properties) ←
    if flags &&& BasicProperties.TIMESTAMP_FLAG ≠ 0 then
      match u64dec buffer with
      | .error e => .error (wrapErr "decode BasicProperties timestamp -> " e)
      | .ok (buffer, timestamp) => Except.ok (buffer, properties.set_timestamp timestamp)
    else Except.ok (buffer, properties)
  let (buffer, properties) ←
    if flags &&& BasicProperties.BASIC_TYPE_FLAG ≠ 0 then
      match ShortStr.decode buffer with
      | .error e => .error (wrapErr "decode BasicProperties basic_type -> " e)
      | .ok (buffer, basic_type) => Except.ok (buffer, properties.set_basic_type basic_type)
    else Except.ok (buffer, properties)
  let (buffer, properties) ←
    if flags &&& BasicProperties.USER_ID_FLAG ≠ 0 then
      match ShortStr.decode buffer with
      | .error e => .error (wrapErr "decode BasicProperties user_id -> " e)
      | .ok (buffer, user_id) => Except.ok (buffer, properties.set_user_id user_id)
    else Except.ok (buffer, properties)
  let (buffer, properties) ←
    if flags &&& BasicProperties.APP_ID_FLAG ≠ 0 then
      match ShortStr.decode buffer with
      | .error e => .error (wrapErr "decode BasicProperties app_id -> " e)
      | .ok (buffer, app_id) => Except.ok (buffer, properties.set_app_id app_id)
    else Except.ok (buffer, properties)
  let (buffer, properties) ←
    if flags &&& BasicProperties.CLUSTER_ID_FLAG ≠ 0 then
      match ShortStr.decode buffer with
      | .error e => .error (wrapErr "decode BasicProperties cluster_id -> " e)
      | .ok (buffer, cluster_id) => Except.ok (buffer, properties.set_cluster_id cluster_id)
    else Except.ok (buffer, properties)
  Except.ok (buffer, Property.Basic properties)

/-! ### Method argument structs (`src/frame/method/`) -/

/-- Mirror of `ConnectionStart` from `src/frame/method/connection.rs`. -/
structure ConnectionStart where
  version_major : Nat
  version_minor : Nat
  server_properties : FieldTable
  mechanisms : LongStr
  locales : LongStr
deriving DecidableEq

/-- Mirror of `ConnectionStartOk`. -/
structure ConnectionStartOk where
  client_properties : FieldTable
  mechanism : ShortStr
  response : LongStr
  locale : ShortStr
deriving DecidableEq

/-- Mirror of `ConnectionSecure`. -/
structure ConnectionSecure where
  challenge : LongStr
deriving DecidableEq

/-- Mirror of `ConnectionSecureOk`. -/
structure ConnectionSecureOk where
  response : LongStr
deriving DecidableEq

/-- Mirror of `ConnectionTune`. -/
structure ConnectionTune where
  channel_max : Nat
  frame_max : Nat
  heartbeat : Nat
deriving DecidableEq

/-- Mirror of `ConnectionTuneOk`. -/
structure ConnectionTuneOk where
  channel_max : Nat
  frame_max : Nat
  heartbeat : Nat
deriving DecidableEq

/-- Mirror of `ConnectionOpen`. -/
structure ConnectionOpen where
  vhost : ShortStr
  capabilities : ShortStr
  insist : Bool
deriving DecidableEq

/-- Mirror of `ConnectionOpenOk`. -/
structure ConnectionOpenOk where
  known_hosts : ShortStr
deriving DecidableEq

/-- Mirror of `ConnectionClose` (`class` is named `cls` here: `class` is a
reserved word in Lean). -/
structure ConnectionClose where
  reply_code : Nat
  reply_text : ShortStr
  cls : Class
  method : Method
deriving DecidableEq

/-- Mirror of the unit struct `ConnectionCloseOk`. -/
structure ConnectionCloseOk where
deriving DecidableEq

/-- Mirror of `ChannelOpen` from `src/frame/method/channel.rs`. -/
structure ChannelOpen where
  out_of_band : ShortStr
deriving DecidableEq

/-- Mirror of `ChannelOpenOk`. -/
structure ChannelOpenOk where
  channel_id : LongStr
deriving DecidableEq

/-- Mirror of `ChannelFlow`. -/
structure ChannelFlow where
  active : Bool
deriving DecidableEq

/-- Mirror of `ChannelFlowOk`. -/
structure ChannelFlowOk where
  active : Bool
deriving DecidableEq

/-- Mirror of `ChannelClose`. -/
structure ChannelClose where
  reply_code : Nat
  reply_text : ShortStr
  cls : Class
  method : Method
deriving DecidableEq

/-- Mirror of the unit struct `ChannelCloseOk`. -/
structure ChannelCloseOk where
deriving DecidableEq

/-- Mirror of `AccessRequest` from `src/frame/method/access.rs`. -/
structure AccessRequest where
  realm : ShortStr
  exclusive : Bool
  passive : Bool
  active : Bool
  write : Bool
  read : Bool
deriving DecidableEq

/-- Mirror of `AccessRequestOk`. -/
structure AccessRequestOk where
  ticket : Nat
deriving DecidableEq

/-- Mirror of `ExchangeDeclare` from `src/frame/method/exchange.rs`. -/
structure ExchangeDeclare where
  ticket : Nat
  exchange_name : ShortStr
  exchange_type : ShortStr
  passive : Bool
  durable : Bool
  auto_delete : Bool
  internal : Bool
  no_wait : Bool
  args : FieldTable
deriving DecidableEq

/-- Mirror of the unit struct `ExchangeDeclareOk`. -/
structure ExchangeDeclareOk where
deriving DecidableEq

/-- Mirror of `ExchangeDelete`. -/
structure ExchangeDelete where
  ticket : Nat
  exchange_name : ShortStr
  if_unused : Bool
  no_wait : Bool
deriving DecidableEq

/-- Mirror of the unit struct `ExchangeDeleteOk`. -/
structure ExchangeDeleteOk where
deriving DecidableEq

/-- Mirror of `ExchangeBind`. -/
structure ExchangeBind where
  ticket : Nat
  destination : ShortStr
  source : ShortStr
  routing_key : ShortStr
  no_wait : Bool
  args : FieldTable
deriving DecidableEq

/-- Mirror of the unit struct `ExchangeBindOk`. -/
structure ExchangeBindOk where
deriving DecidableEq

/-- Mirror of `ExchangeUnbind`. -/
structure ExchangeUnbind where
  ticket : Nat
  destination : ShortStr
  source : ShortStr
  routing_key : ShortStr
  no_wait : Bool
  args : FieldTable
deriving DecidableEq

/-- Mirror of the unit struct `ExchangeUnbindOk`. -/
structure ExchangeUnbindOk where
deriving DecidableEq

/-- Mirror of `QueueDeclare` from `src/frame/method/queue.rs`. -/
structure QueueDeclare where
  ticket : Nat
  queue_name : ShortStr
  passive : Bool
  durable : Bool
  exclusive : Bool
  auto_delete : Bool
  no_wait : Bool
  args : FieldTable
deriving DecidableEq

/-- Mirror of `QueueDeclareOk`. -/
structure QueueDeclareOk where
  queue_name : ShortStr
  message_count : Nat
  consumer_count : Nat
deriving DecidableEq

/-- Mirror of `QueueBind`. -/
structure QueueBind where
  ticket : Nat
  queue_name : ShortStr
  exchange_name : ShortStr
  routing_key : ShortStr
  no_wait : Bool
  args : FieldTable
deriving DecidableEq

/-- Mirror of the unit struct `QueueBindOk`. -/
structure QueueBindOk where
deriving DecidableEq

/-- Mirror of `QueueUnbind` (no `no_wait` flag byte in this one). -/
structure QueueUnbind where
  ticket : Nat
  queue_name : ShortStr
  exchange_name : ShortStr
  routing_key : ShortStr
  args : FieldTable
deriving DecidableEq

/-- Mirror of the unit struct `QueueUnbindOk`. -/
structure QueueUnbindOk where
deriving DecidableEq

/-- Mirror of `QueuePurge`. -/
structure QueuePurge where
  ticket : Nat
  queue_name : ShortStr
  no_wait : Bool
deriving DecidableEq

/-- Mirror of `QueuePurgeOk`. -/
structure QueuePurgeOk where
  message_count : Nat
deriving DecidableEq

/-- Mirror of `QueueDelete`. -/
structure QueueDelete where
  ticket : Nat
  queue_name : ShortStr
  if_unused : Bool
  if_empty : Bool
  no_wait : Bool
deriving DecidableEq

/-- Mirror of `QueueDeleteOk`. -/
structure QueueDeleteOk where
  message_count : Nat
deriving DecidableEq

/-- Mirror of `BasicQos` from `src/frame/method/basic.rs`. -/
structure BasicQos where
  prefetch_size : Nat
  prefetch_count : Nat
  global : Bool
deriving DecidableEq

/-- Mirror of the unit struct `BasicQosOk`. -/
structure BasicQosOk where
deriving DecidableEq

/-- Mirror of `BasicConsume`. -/
structure BasicConsume where
  ticket : Nat
  queue_name : ShortStr
  consumer_tag : ShortStr
  no_local : Bool
  no_ack : Bool
  exclusive : Bool
  no_wait : Bool
  args : FieldTable
deriving DecidableEq

/-- Mirror of `BasicConsumeOk`. -/
structure BasicConsumeOk where
  consumer_tag : ShortStr
deriving DecidableEq

/-- Mirror of `BasicCancel`. -/
structure BasicCancel where
  consumer_tag : ShortStr
  no_wait : Bool
deriving DecidableEq

/-- Mirror of `BasicCancelOk`. -/
structure BasicCancelOk where
  consumer_tag : ShortStr
deriving DecidableEq

/-- Mirror of `BasicPublish`. -/
structure BasicPublish where
  ticket : Nat
  exchange_name : ShortStr
  routing_key : ShortStr
  mandatory : Bool
  immediate : Bool
deriving DecidableEq

/-- Mirror of `BasicReturn`. -/
structure BasicReturn where
  reply_code : Nat
  reply_text : ShortStr
  exchange_name : ShortStr
  routing_key : ShortStr
deriving DecidableEq

/-- Mirror of `BasicDeliver`. -/
structure BasicDeliver where
  consumer_tag : ShortStr
  delivery_tag : Nat
  redelivered : Bool
  exchange_name : ShortStr
  routing_key : ShortStr
deriving DecidableEq

/-- Mirror of `BasicGet`. -/
structure BasicGet where
  ticket : Nat
  queue_name : ShortStr
  no_ack : Bool
deriving DecidableEq

/-- Mirror of `BasicGetOk`. -/
structure BasicGetOk where
  delivery_tag : Nat
  redelivered : Bool
  exchange_name : ShortStr
  routing_key : ShortStr
  message_count : Nat
deriving DecidableEq

/-- Mirror of `BasicGetEmpty`. -/
structure BasicGetEmpty where
  cluster_id : ShortStr
deriving DecidableEq

/-- Mirror of `BasicAck`. -/
structure BasicAck where
  delivery_tag : Nat
  multiple : Bool
deriving DecidableEq

/-- Mirror of `BasicReject`. -/
structure BasicReject where
  delivery_tag : Nat
  requeue : Bool
deriving DecidableEq

/-- Mirror of `BasicRecoverAsync`. -/
structure BasicRecoverAsync where
  requeue : Bool
deriving DecidableEq

/-- Mirror of `BasicRecover`. -/
structure BasicRecover where
  requeue : Bool
deriving DecidableEq

/-- Mirror of the unit struct `BasicRecoverOk`. -/
structure BasicRecoverOk where
deriving DecidableEq

/-- Mirror of `BasicNack`. -/
structure BasicNack where
  delivery_tag : Nat
  multiple : Bool
  requeue : Bool
deriving DecidableEq

/-- Mirror of the unit struct `TxSelect` from `src/frame/method/tx.rs`. -/
structure TxSelect where
deriving DecidableEq

/-- Mirror of the unit struct `TxSelectOk`. -/
structure TxSelectOk where
deriving DecidableEq

/-- Mirror of the unit struct `TxCommit`. -/
structure TxCommit where
deriving DecidableEq

/-- Mirror of the unit struct `TxCommitOk`. -/
structure TxCommitOk where
deriving DecidableEq

/-- Mirror of the unit struct `TxRollback`. -/
structure TxRollback where
deriving DecidableEq

/-- Mirror of the unit struct `TxRollbackOk`. -/
structure TxRollbackOk where
deriving DecidableEq

/-- Mirror of `ConfirmSelect` from `src/frame/method/confirm.rs`. -/
structure ConfirmSelect where
  no_wait : Bool
deriving DecidableEq

/-- Mirror of the unit struct `ConfirmSelectOk`. -/
structure ConfirmSelectOk where
deriving DecidableEq

/-- Mirror of `enum Arguments` from `src/frame/base.rs`. -/
inductive Arguments where
  | ConnectionStart (args : ConnectionStart)
  | ConnectionStartOk (args : ConnectionStartOk)
  | ConnectionSecure (args : ConnectionSecure)
  | ConnectionSecureOk (args : ConnectionSecureOk)
  | ConnectionTune (args : ConnectionTune)
  | ConnectionTuneOk (args : ConnectionTuneOk)
  | ConnectionOpen (args : ConnectionOpen)
  | ConnectionOpenOk (args : ConnectionOpenOk)
  | ConnectionClose (args : ConnectionClose)
  | ConnectionCloseOk (args : ConnectionCloseOk)
  | ChannelOpen (args : ChannelOpen)
  | ChannelOpenOk (args : ChannelOpenOk)
  | ChannelFlow (args : ChannelFlow)
  | ChannelFlowOk (args : ChannelFlowOk)
  | ChannelClose (args : ChannelClose)
  | ChannelCloseOk (args : ChannelCloseOk)
  | AccessRequest (args : AccessRequest)
  | AccessRequestOk (args : AccessRequestOk)
  | ExchangeDeclare (args : ExchangeDeclare)
  | ExchangeDeclareOk (args : ExchangeDeclareOk)
  | ExchangeDelete (args : ExchangeDelete)
  | ExchangeDeleteOk (args : ExchangeDeleteOk)
  | ExchangeBind (args : ExchangeBind)
  | ExchangeBindOk (args : ExchangeBindOk)
  | ExchangeUnbind (args : ExchangeUnbind)
  | ExchangeUnbindOk (args : ExchangeUnbindOk)
  | QueueDeclare (args : QueueDeclare)
  | QueueDeclareOk (args : QueueDeclareOk)
  | QueueBind (args : QueueBind)
  | QueueBindOk (args : QueueBindOk)
  | QueueUnbind (args : QueueUnbind)
  | QueueUnbindOk (args : QueueUnbindOk)
  | QueuePurge (args : QueuePurge)
  | QueuePurgeOk (args : QueuePurgeOk)
  | QueueDelete (args : QueueDelete)
  | QueueDeleteOk (args : QueueDeleteOk)
  | BasicQos (args : BasicQos)
  | BasicQosOk (args : BasicQosOk)
  | BasicConsume (args : BasicConsume)
  | BasicConsumeOk (args : BasicConsumeOk)
  | BasicCancel (args : BasicCancel)
  | BasicCancelOk (args : BasicCancelOk)
  | BasicPublish (args : BasicPublish)
  | BasicReturn (args : BasicReturn)
  | BasicDeliver (args : BasicDeliver)
  | BasicGet (args : BasicGet)
  | BasicGetOk (args : BasicGetOk)
  | BasicGetEmpty (args : BasicGetEmpty)
  | BasicAck (args : BasicAck)
  | BasicReject (args : BasicReject)
  | BasicRecoverAsync (args : BasicRecoverAsync)
  | BasicRecover (args : BasicRecover)
  | BasicRecoverOk (args : BasicRecoverOk)
  | BasicNack (args : BasicNack)
  | TxSelect (args : TxSelect)
  | TxSelectOk (args : TxSelectOk)
  | TxCommit (args : TxCommit)
  | TxCommitOk (args : TxCommitOk)
  | TxRollback (args : TxRollback)
  | TxRollbackOk (args : TxRollbackOk)
  | ConfirmSelect (args : ConfirmSelect)
  | ConfirmSelectOk (args : ConfirmSelectOk)

/-- `impl Encode for ConnectionStart`. -/
def ConnectionStart.encode (v : ConnectionStart) : List Nat :=
  u8enc v.version_major ++ u8enc v.version_minor ++ v.server_properties.encode
    ++ v.mechanisms.encode ++ v.locales.encode

/-- `impl Decode<Arguments> for ConnectionStart`. -/
def ConnectionStart.decode (buffer : List Nat) :
    Except FrameDecodeErr (List Nat × Arguments) :=
  match u8dec buffer with
  | .error e => .error (wrapErr "decode ConnectionStart version_major -> " e)
  | .ok (buffer, version_major) =>
  match u8dec buffer with
  | .error e => .error (wrapErr "decode ConnectionStart version_minor -> " e)
  | .ok (buffer, version_minor) =>
  match FieldTable.decode buffer with
  | .error e => .error (wrapErr "decode ConnectionStart server_properties -> " e)
  | .ok (buffer, server_properties) =>
  match LongStr.decode buffer with
  | .error e => .error (wrapErr "decode ConnectionStart mechanisms -> " e)
  | .ok (buffer, mechanisms) =>
  match LongStr.decode buffer with
  | .error e => .error (wrapErr "decode ConnectionStart locales -> " e)
  | .ok (buffer, locales) =>
    .ok (buffer, .ConnectionStart
      ⟨version_major, version_minor, server_properties, mechanisms, locales⟩)

/-- `impl Encode for ConnectionStartOk`. -/
def ConnectionStartOk.encode (v : ConnectionStartOk) : List Nat :=
  v.client_properties.encode ++ v.mechanism.encode ++ v.response.encode ++ v.locale.encode

/-- `impl Decode<Arguments> for ConnectionStartOk`. -/
def ConnectionStartOk.decode (buffer : List Nat) :
    Except FrameDecodeErr (List Nat × Arguments) :=
  match FieldTable.decode buffer with
  | .error e => .error (wrapErr "decode ConnectionStartOk client_properties -> " e)
  | .ok (buffer, client_properties) =>
  match ShortStr.decode buffer with
  | .error e => .error (wrapErr "decode ConnectionStartOk mechanism -> " e)
  | .ok (buffer, mechanism) =>
  match LongStr.decode buffer with
  | .error e => .error (wrapErr "decode ConnectionStartOk response -> " e)
  | .ok (buffer, response) =>
  match ShortStr.decode buffer with
  | .error e => .error (wrapErr "decode ConnectionStartOk locale -> " e)
  | .ok (buffer, locale) =>
    .ok (buffer, .ConnectionStartOk ⟨client_properties, mechanism, response, locale⟩)

/-- `impl Encode for ConnectionSecure`. -/
def ConnectionSecure.encode (v : ConnectionSecure) : List Nat := v.challenge.encode

/-- `impl Decode<Arguments> for ConnectionSecure`. -/
def ConnectionSecure.decode (buffer : List Nat) :
    Except FrameDecodeErr (List Nat × Arguments) :=
  match LongStr.decode buffer with
  | .error e => .error (wrapErr "decode ConnectionSecure challenge -> " e)
  | .ok (buffer, challenge) => .ok (buffer, .ConnectionSecure ⟨challenge⟩)

/-- `impl Encode for ConnectionSecureOk`. -/
def ConnectionSecureOk.encode (v : ConnectionSecureOk) : List Nat := v.response.encode

/-- `impl Decode<Arguments> for ConnectionSecureOk`. -/
def ConnectionSecureOk.decode (buffer : List Nat) :
    Except FrameDecodeErr (List Nat × Arguments) :=
  match LongStr.decode buffer with
  | .error e => .error (wrapErr "decode ConnectionSecureOk response -> " e)
  | .ok (buffer, response) => .ok (buffer, .ConnectionSecureOk ⟨response⟩)

/-- `impl Encode for ConnectionTune`. -/
def ConnectionTune.encode (v : ConnectionTune) : List Nat :=
  u16be v.channel_max ++ u32be v.frame_max ++ u16be v.heartbeat

/-- `impl Decode<Arguments> for ConnectionTune`. -/
def ConnectionTune.decode (buffer : List Nat) :
    Except FrameDecodeErr (List Nat × Arguments) :=
  match u16dec buffer with
  | .error e => .error (wrapErr "decode ConnectionTune channel_max -> " e)
  | .ok (buffer, channel_max) =>
  match u32dec buffer with
  | .error e => .error (wrapErr "decode ConnectionTune frame_max -> " e)
  | .ok (buffer, frame_max) =>
  match u16dec buffer with
  | .error e => .error (wrapErr "decode ConnectionTune heartbeat -> " e)
  | .ok (buffer, heartbeat) =>
    .ok (buffer, .ConnectionTune ⟨channel_max, frame_max, heartbeat⟩)

/-- `impl Encode for ConnectionTuneOk`. -/
def ConnectionTuneOk.encode (v : ConnectionTuneOk) : List Nat :=
  u16be v.channel_max ++ u32be v.frame_max ++ u16be v.heartbeat

/-- `impl Decode<Arguments> for ConnectionTuneOk`. -/
def ConnectionTuneOk.decode (buffer : List Nat) :
    Except FrameDecodeErr (List Nat × Arguments) :=
  match u16dec buffer with
  | .error e => .error (wrapErr "decode ConnectionTuneOk channel_max -> " e)
  | .ok (buffer, channel_max) =>
  match u32dec buffer with
  | .error e => .error (wrapErr "decode ConnectionTuneOk frame_max -> " e)
  | .ok (buffer, frame_max) =>
  match u16dec buffer with
  | .error e => .error (wrapErr "decode ConnectionTuneOk heartbeat -> " e)
  | .ok (buffer, heartbeat) =>
    .ok (buffer, .ConnectionTuneOk ⟨channel_max, frame_max, heartbeat⟩)

/-- `impl Encode for ConnectionOpen`. -/
def ConnectionOpen.encode (v : ConnectionOpen) : List Nat :=
  v.vhost.encode ++ v.capabilities.encode ++ u8enc (if v.insist then 1 else 0)

/-- `impl Decode<Arguments> for ConnectionOpen`. -/
def ConnectionOpen.decode (buffer : List Nat) :
    Except FrameDecodeErr (List Nat × Arguments) :=
  match ShortStr.decode buffer with
  | .error e => .error (wrapErr "decode ConnectionOpen vhost -> " e)
  | .ok (buffer, vhost) =>
  match ShortStr.decode buffer with
  | .error e => .error (wrapErr "decode ConnectionOpen capabilities -> " e)
  | .ok (buffer, capabilities) =>
  match u8dec buffer with
  | .error e => .error (wrapErr "decode ConnectionOpen flags -> " e)
  | .ok (buffer, flags) =>
    .ok (buffer, .ConnectionOpen ⟨vhost, capabilities, flags &&& (1 <<< 0) != 0⟩)

/-- `impl Encode for ConnectionOpenOk`. -/
def ConnectionOpenOk.encode (v : ConnectionOpenOk) : List Nat := v.known_hosts.encode

/-- `impl Decode<Arguments> for ConnectionOpenOk`. -/
def ConnectionOpenOk.decode (buffer : List Nat) :
    Except FrameDecodeErr (List Nat × Arguments) :=
  match ShortStr.decode buffer with
  | .error e => .error (wrapErr "decode ConnectionOpenOk known_hosts -> " e)
  | .ok (buffer, known_hosts) => .ok (buffer, .ConnectionOpenOk ⟨known_hosts⟩)

/-- `impl Encode for ConnectionClose`. -/
def ConnectionClose.encode (v : ConnectionClose) : List Nat :=
  u16be v.reply_code ++ v.reply_text.encode ++ u16be v.cls.class_id
    ++ u16be v.method.method_id

/-- `impl Decode<Arguments> for ConnectionClose`: after the scalar reads, an
unknown class is a direct syntax error and an unknown method id is wrapped. -/
def ConnectionClose.decode (buffer : List Nat) :
    Except FrameDecodeErr (List Nat × Arguments) :=
  match u16dec buffer with
  | .error e => .error (wrapErr "decode ConnectionClose reply_code -> " e)
  | .ok (buffer, reply_code) =>
  match ShortStr.decode buffer with
  | .error e => .error (wrapErr "decode ConnectionClose reply_text -> " e)
  | .ok (buffer, reply_text) =>
  match u16dec buffer with
  | .error e => .error (wrapErr "decode ConnectionClose class_id -> " e)
  | .ok (buffer, class_id) =>
  match u16dec buffer with
  | .error e => .error (wrapErr "decode ConnectionClose method_id -> " e)
  | .ok (buffer, method_id) =>
    let cls := Class.fromU16 class_id
    if cls = Class.Unknown then
      .error (.SyntaxError "decode ConnectionClose class unknown")
    else
      match get_method_type cls method_id with
      | .error e => .error (wrapErr "decode ConnectionClose method -> " e)
      | .ok method => .ok (buffer, .ConnectionClose ⟨reply_code, reply_text, cls, method⟩)

/-- `impl Encode for ConnectionCloseOk` (writes nothing). -/
def ConnectionCloseOk.encode (_ : ConnectionCloseOk) : List Nat := []

/-- `impl Decode<Arguments> for ConnectionCloseOk`. -/
def ConnectionCloseOk.decode (buffer : List Nat) :
    Except FrameDecodeErr (List Nat × Arguments) :=
  .ok (buffer, .ConnectionCloseOk ⟨⟩)

/-- `impl Encode for ChannelOpen`. -/
def ChannelOpen.encode (v : ChannelOpen) : List Nat := v.out_of_band.encode

/-- `impl Decode<Arguments> for ChannelOpen`. -/
def ChannelOpen.decode (buffer : List Nat) :
    Except FrameDecodeErr (List Nat × Arguments) :=
  match ShortStr.decode buffer with
  | .error e => .error (wrapErr "decode ChannelOpen out_of_band -> " e)
  | .ok (buffer, out_of_band) => .ok (buffer, .ChannelOpen ⟨out_of_band⟩)

/-- `impl Encode for ChannelOpenOk`. -/
def ChannelOpenOk.encode (v : ChannelOpenOk) : List Nat := v.channel_id.encode

/-- `impl Decode<Arguments> for ChannelOpenOk`. -/
def ChannelOpenOk.decode (buffer : List Nat) :
    Except FrameDecodeErr (List Nat × Arguments) :=
  match LongStr.decode buffer with
  | .error e => .error (wrapErr "decode ChannelOpenOk channel_id -> " e)
  | .ok (buffer, channel_id) => .ok (buffer, .ChannelOpenOk ⟨channel_id⟩)

/-- `impl Encode for ChannelFlow`. -/
def ChannelFlow.encode (v : ChannelFlow) : List Nat := u8enc (if v.active then 1 else 0)

/-- `impl Decode<Arguments> for ChannelFlow`. -/
def ChannelFlow.decode (buffer : List Nat) :
    Except FrameDecodeErr (List Nat × Arguments) :=
  match u8dec buffer with
  | .error e => .error (wrapErr "decode ChannelFlow flags -> " e)
  | .ok (buffer, flags) => .ok (buffer, .ChannelFlow ⟨flags &&& (1 <<< 0) != 0⟩)

/-- `impl Encode for ChannelFlowOk`. -/
def ChannelFlowOk.encode (v : ChannelFlowOk) : List Nat := u8enc (if v.active then 1 else 0)

/-- `impl Decode<Arguments> for ChannelFlowOk`. -/
def ChannelFlowOk.decode (buffer : List Nat) :
    Except FrameDecodeErr (List Nat × Arguments) :=
  match u8dec buffer with
  | .error e => .error (wrapErr "decode ChannelFlowOk flags -> " e)
  | .ok (buffer, flags) => .ok (buffer, .ChannelFlowOk ⟨flags &&& (1 <<< 0) != 0⟩)

/-- `impl Encode for ChannelClose`. -/
def ChannelClose.encode (v : ChannelClose) : List Nat :=
  u16be v.reply_code ++ v.reply_text.encode ++ u16be v.cls.class_id
    ++ u16be v.method.method_id

/-- `impl Decode<Arguments> for ChannelClose`. -/
def ChannelClose.decode (buffer : List Nat) :
    Except FrameDecodeErr (List Nat × Arguments) :=
  match u16dec buffer with
  | .error e => .error (wrapErr "decode ChannelClose reply_code -> " e)
  | .ok (buffer, reply_code) =>
  match ShortStr.decode buffer with
  | .error e => .error (wrapErr "decode ChannelClose reply_text -> " e)
  | .ok (buffer, reply_text) =>
  match u16dec buffer with
  | .error e => .error (wrapErr "decode ChannelClose class_id -> " e)
  | .ok (buffer, class_id) =>
  match u16dec buffer with
  | .error e => .error (wrapErr "decode ChannelClose method_id -> " e)
  | .ok (buffer, method_id) =>
    let cls := Class.fromU16 class_id
    if cls = Class.Unknown then
      .error (.SyntaxError "decode ChannelClose class unknown")
    else
      match get_method_type cls method_id with
      | .error e => .error (wrapErr "decode ChannelClose method -> " e)
      | .ok method => .ok (buffer, .ChannelClose ⟨reply_code, reply_text, cls, method⟩)

/-- `impl Encode for ChannelCloseOk` (writes nothing). -/
def ChannelCloseOk.encode (_ : ChannelCloseOk) : List Nat := []

/-- `impl Decode<Arguments> for ChannelCloseOk`. -/
def ChannelCloseOk.decode (buffer : List Nat) :
    Except FrameDecodeErr (List Nat × Arguments) :=
  .ok (buffer, .ChannelCloseOk ⟨⟩)

/-- `impl Encode for AccessRequest`: the realm, then a single `0` filler byte. -/
def AccessRequest.encode (v : AccessRequest) : List Nat := v.realm.encode ++ u8enc 0

/-- `impl Decode<Arguments> for AccessRequest`: reads the realm, then reads
the filler byte but DISCARDS the advanced buffer (`let (_, _) = ...` in the
source), so the returned remainder still holds the filler byte; the five
permission flags are always decoded as `false`. -/
def AccessRequest.decode (buffer : List Nat) :
    Except FrameDecodeErr (List Nat × Arguments) :=
  match ShortStr.decode buffer with
  | .error e => .error (wrapErr "decode AccessRequest realm -> " e)
  | .ok (buffer, realm) =>
  match u8dec buffer with
  | .error e => .error (wrapErr "decode AccessRequest flags -> " e)
  | .ok (_, _) =>
    .ok (buffer, .AccessRequest ⟨realm, false, false, false, false, false⟩)

/-- `impl Encode for AccessRequestOk`. -/
def AccessRequestOk.encode (v : AccessRequestOk) : List Nat := u16be v.ticket

/-- `impl Decode<Arguments> for AccessRequestOk`: reads the ticket but
returns the ORIGINAL buffer (`let (_, ticket) = ...` in the source). -/
def AccessRequestOk.decode (buffer : List Nat) :
    Except FrameDecodeErr (List Nat × Arguments) :=
  match u16dec buffer with
  | .error e => .error (wrapErr "decode AccessRequestOk ticket -> " e)
  | .ok (_, ticket) => .ok (buffer, .AccessRequestOk ⟨ticket⟩)

/-- `impl Encode for ExchangeDeclare`. -/
def ExchangeDeclare.encode (v : ExchangeDeclare) : List Nat :=
  u16be v.ticket ++ v.exchange_name.encode ++ v.exchange_type.encode
    ++ u8enc ((if v.passive then 1 else 0) ||| (if v.durable then 1 <<< 1 else 0)
      ||| (if v.auto_delete then 1 <<< 2 else 0) ||| (if v.internal then 1 <<< 3 else 0)
      ||| (if v.no_wait then 1 <<< 4 else 0))
    ++ v.args.encode

/-- `impl Decode<Arguments> for ExchangeDeclare`. -/
def ExchangeDeclare.decode (buffer : List Nat) :
    Except FrameDecodeErr (List Nat × Arguments) :=
  match u16dec buffer with
  | .error e => .error (wrapErr "decode ExchangeDeclare ticket -> " e)
  | .ok (buffer, ticket) =>
  match ShortStr.decode buffer with
  | .error e => .error (wrapErr "decode ExchangeDeclare exchange_name -> " e)
  | .ok (buffer, exchange_name) =>
  match ShortStr.decode buffer with
  | .error e => .error (wrapErr "decode ExchangeDeclare exchange_type -> " e)
  | .ok (buffer, exchange_type) =>
  match u8dec buffer with
  | .error e => .error (wrapErr "decode ExchangeDeclare flags -> " e)
  | .ok (buffer, flags) =>
  match FieldTable.decode buffer with
  | .error e => .error (wrapErr "decode ExchangeDeclare args -> " e)
  | .ok (buffer, args) =>
    .ok (buffer, .ExchangeDeclare ⟨ticket, exchange_name, exchange_type,
      flags &&& (1 <<< 0) != 0, flags &&& (1 <<< 1) != 0, flags &&& (1 <<< 2) != 0,
      flags &&& (1 <<< 3) != 0, flags &&& (1 <<< 4) != 0, args⟩)

/-- `impl Encode for ExchangeDeclareOk` (writes nothing). -/
def ExchangeDeclareOk.encode (_ : ExchangeDeclareOk) : List Nat := []

/-- `impl Decode<Arguments> for ExchangeDeclareOk`. -/
def ExchangeDeclareOk.decode (buffer : List Nat) :
    Except FrameDecodeErr (List Nat × Arguments) :=
  .ok (buffer, .ExchangeDeclareOk ⟨⟩)

/-- `impl Encode for ExchangeDelete`. -/
def ExchangeDelete.encode (v : ExchangeDelete) : List Nat :=
  u16be v.ticket ++ v.exchange_name.encode
    ++ u8enc ((if v.if_unused then 1 else 0) ||| (if v.no_wait then 1 <<< 1 else 0))

/-- `impl Decode<Arguments> for ExchangeDelete`. -/
def ExchangeDelete.decode (buffer : List Nat) :
    Except FrameDecodeErr (List Nat × Arguments) :=
  match u16dec buffer with
  | .error e => .error (wrapErr "decode ExchangeDelete ticket -> " e)
  | .ok (buffer, ticket) =>
  match ShortStr.decode buffer with
  | .error e => .error (wrapErr "decode ExchangeDelete exchange_name -> " e)
  | .ok (buffer, exchange_name) =>
  match u8dec buffer with
  | .error e => .error (wrapErr "decode ExchangeDelete flags -> " e)
  | .ok (buffer, flags) =>
    .ok (buffer, .ExchangeDelete ⟨ticket, exchange_name,
      flags &&& (1 <<< 0) != 0, flags &&& (1 <<< 1) != 0⟩)

/-- `impl Encode for ExchangeDeleteOk` (writes nothing). -/
def ExchangeDeleteOk.encode (_ : ExchangeDeleteOk) : List Nat := []

/-- `impl Decode<Arguments> for ExchangeDeleteOk`. -/
def ExchangeDeleteOk.decode (buffer : List Nat) :
    Except FrameDecodeErr (List Nat × Arguments) :=
  .ok (buffer, .ExchangeDeleteOk ⟨⟩)

/-- `impl Encode for ExchangeBind`. -/
def ExchangeBind.encode (v : ExchangeBind) : List Nat :=
  u16be v.ticket ++ v.destination.encode ++ v.source.encode ++ v.routing_key.encode
    ++ u8enc (if v.no_wait then 1 else 0) ++ v.args.encode

/-- `impl Decode<Arguments> for ExchangeBind`. -/
def ExchangeBind.decode (buffer : List Nat) :
    Except FrameDecodeErr (List Nat × Arguments) :=
  match u16dec buffer with
  | .error e => .error (wrapErr "decode ExchangeBind ticket -> " e)
  | .ok (buffer, ticket) =>
  match ShortStr.decode buffer with
  | .error e => .error (wrapErr "decode ExchangeBind destination -> " e)
  | .ok (buffer, destination) =>
  match ShortStr.decode buffer with
  | .error e => .error (wrapErr "decode ExchangeBind source -> " e)
  | .ok (buffer, source) =>
  match ShortStr.decode buffer with
  | .error e => .error (wrapErr "decode ExchangeBind routing_key -> " e)
  | .ok (buffer, routing_key) =>
  match u8dec buffer with
  | .error e => .error (wrapErr "decode ExchangeBind flags -> " e)
  | .ok (buffer, flags) =>
  match FieldTable.decode buffer with
  | .error e => .error (wrapErr "decode ExchangeBind args -> " e)
  | .ok (buffer, args) =>
    .ok (buffer, .ExchangeBind ⟨ticket, destination, source, routing_key,
      flags &&& (1 <<< 0) != 0, args⟩)

/-- `impl Encode for ExchangeBindOk` (writes nothing). -/
def ExchangeBindOk.encode (_ : ExchangeBindOk) : List Nat := []

/-- `impl Decode<Arguments> for ExchangeBindOk`. -/
def ExchangeBindOk.decode (buffer : List Nat) :
    Except FrameDecodeErr (List Nat × Arguments) :=
  .ok (buffer, .ExchangeBindOk ⟨⟩)

/-- `impl Encode for ExchangeUnbind`. -/
def ExchangeUnbind.encode (v : ExchangeUnbind) : List Nat :=
  u16be v.ticket ++ v.destination.encode ++ v.source.encode ++ v.routing_key.encode
    ++ u8enc (if v.no_wait then 1 else 0) ++ v.args.encode

/-- `impl Decode<Arguments> for ExchangeUnbind`. -/
def ExchangeUnbind.decode (buffer : List Nat) :
    Except FrameDecodeErr (List Nat × Arguments) :=
  match u16dec buffer with
  | .error e => .error (wrapErr "decode ExchangeUnbind ticket -> " e)
  | .ok (buffer, ticket) =>
  match ShortStr.decode buffer with
  | .error e => .error (wrapErr "decode ExchangeUnbind destination -> " e)
  | .ok (buffer, destination) =>
  match ShortStr.decode buffer with
  | .error e => .error (wrapErr "decode ExchangeUnbind source -> " e)
  | .ok (buffer, source) =>
  match ShortStr.decode buffer with
  | .error e => .error (wrapErr "decode ExchangeUnbind routing_key -> " e)
  | .ok (buffer, routing_key) =>
  match u8dec buffer with
  | .error e => .error (wrapErr "decode ExchangeUnbind flags -> " e)
  | .ok (buffer, flags) =>
  match FieldTable.decode buffer with
  | .error e => .error (wrapErr "decode ExchangeUnbind args -> " e)
  | .ok (buffer, args) =>
    .ok (buffer, .ExchangeUnbind ⟨ticket, destination, source, routing_key,
      flags &&& (1 <<< 0) != 0, args⟩)

/-- `impl Encode for ExchangeUnbindOk` (writes nothing). -/
def ExchangeUnbindOk.encode (_ : ExchangeUnbindOk) : List Nat := []

/-- `impl Decode<Arguments> for ExchangeUnbindOk`. -/
def ExchangeUnbindOk.decode (buffer : List Nat) :
    Except FrameDecodeErr (List Nat × Arguments) :=
  .ok (buffer, .ExchangeUnbindOk ⟨⟩)

/-- `impl Encode for QueueDeclare`. -/
def QueueDeclare.encode (v : QueueDeclare) : List Nat :=
  u16be v.ticket ++ v.queue_name.encode
    ++ u8enc ((if v.passive then 1 else 0) ||| (if v.durable then 1 <<< 1 else 0)
      ||| (if v.exclusive then 1 <<< 2 else 0) ||| (if v.auto_delete then 1 <<< 3 else 0)
      ||| (if v.no_wait then 1 <<< 4 else 0))
    ++ v.args.encode

/-- `impl Decode<Arguments> for QueueDeclare`. -/
def QueueDeclare.decode (buffer : List Nat) :
    Except FrameDecodeErr (List Nat × Arguments) :=
  match u16dec buffer with
  | .error e => .error (wrapErr "decode QueueDeclare ticket -> " e)
  | .ok (buffer, ticket) =>
  match ShortStr.decode buffer with
  | .error e => .error (wrapErr "decode QueueDeclare queue_name -> " e)
  | .ok (buffer, queue_name) =>
  match u8dec buffer with
  | .error e => .error (wrapErr "decode QueueDeclare flags -> " e)
  | .ok (buffer, flags) =>
  match FieldTable.decode buffer with
  | .error e => .error (wrapErr "decode QueueDeclare args -> " e)
  | .ok (buffer, args) =>
    .ok (buffer, .QueueDeclare ⟨ticket, queue_name,
      flags &&& (1 <<< 0) != 0, flags &&& (1 <<< 1) != 0, flags &&& (1 <<< 2) != 0,
      flags &&& (1 <<< 3) != 0, flags &&& (1 <<< 4) != 0, args⟩)

/-- `impl Encode for QueueDeclareOk`. -/
def QueueDeclareOk.encode (v : QueueDeclareOk) : List Nat :=
  v.queue_name.encode ++ u32be v.message_count ++ u32be v.consumer_count

/-- `impl Decode<Arguments> for QueueDeclareOk`. -/
def QueueDeclareOk.decode (buffer : List Nat) :
    Except FrameDecodeErr (List Nat × Arguments) :=
  match ShortStr.decode buffer with
  | .error e => .error (wrapErr "decode QueueDeclareOk queue_name -> " e)
  | .ok (buffer, queue_name) =>
  match u32dec buffer with
  | .error e => .error (wrapErr "decode QueueDeclareOk message_count -> " e)
  | .ok (buffer, message_count) =>
  match u32dec buffer with
  | .error e => .error (wrapErr "decode QueueDeclareOk consumer_count -> " e)
  | .ok (buffer, consumer_count) =>
    .ok (buffer, .QueueDeclareOk ⟨queue_name, message_count, consumer_count⟩)

/-- `impl Encode for QueueBind`. -/
def QueueBind.encode (v : QueueBind) : List Nat :=
  u16be v.ticket ++ v.queue_name.encode ++ v.exchange_name.encode ++ v.routing_key.encode
    ++ u8enc (if v.no_wait then 1 else 0) ++ v.args.encode

/-- `impl Decode<Arguments> for QueueBind`. -/
def QueueBind.decode (buffer : List Nat) :
    Except FrameDecodeErr (List Nat × Arguments) :=
  match u16dec buffer with
  | .error e => .error (wrapErr "decode QueueBind ticket -> " e)
  | .ok (buffer, ticket) =>
  match ShortStr.decode buffer with
  | .error e => .error (wrapErr "decode QueueBind queue_name -> " e)
  | .ok (buffer, queue_name) =>
  match ShortStr.decode buffer with
  | .error e => .error (wrapErr "decode QueueBind exchange_name -> " e)
  | .ok (buffer, exchange_name) =>
  match ShortStr.decode buffer with
  | .error e => .error (wrapErr "decode QueueBind routing_key -> " e)
  | .ok (buffer, routing_key) =>
  match u8dec buffer with
  | .error e => .error (wrapErr "decode QueueBind flags -> " e)
  | .ok (buffer, flags) =>
  match FieldTable.decode buffer with
  | .error e => .error (wrapErr "decode QueueBind args -> " e)
  | .ok (buffer, args) =>
    .ok (buffer, .QueueBind ⟨ticket, queue_name, exchange_name, routing_key,
      flags &&& (1 <<< 0) != 0, args⟩)

/-- `impl Encode for QueueBindOk` (writes nothing). -/
def QueueBindOk.encode (_ : QueueBindOk) : List Nat := []

/-- `impl Decode<Arguments> for QueueBindOk`. -/
def QueueBindOk.decode (buffer : List Nat) :
    Except FrameDecodeErr (List Nat × Arguments) :=
  .ok (buffer, .QueueBindOk ⟨⟩)

/-- `impl Encode for QueueUnbind` (no flag byte). -/
def QueueUnbind.encode (v : QueueUnbind) : List Nat :=
  u16be v.ticket ++ v.queue_name.encode ++ v.exchange_name.encode ++ v.routing_key.encode
    ++ v.args.encode

/-- `impl Decode<Arguments> for QueueUnbind`. -/
def QueueUnbind.decode (buffer : List Nat) :
    Except FrameDecodeErr (List Nat × Arguments) :=
  match u16dec buffer with
  | .error e => .error (wrapErr "decode QueueUnbind ticket -> " e)
  | .ok (buffer, ticket) =>
  match ShortStr.decode buffer with
  | .error e => .error (wrapErr "decode QueueUnbind queue_name -> " e)
  | .ok (buffer, queue_name) =>
  match ShortStr.decode buffer with
  | .error e => .error (wrapErr "decode QueueUnbind exchange_name -> " e)
  | .ok (buffer, exchange_name) =>
  match ShortStr.decode buffer with
  | .error e => .error (wrapErr "decode QueueUnbind routing_key -> " e)
  | .ok (buffer, routing_key) =>
  match FieldTable.decode buffer with
  | .error e => .error (wrapErr "decode QueueUnbind args -> " e)
  | .ok (buffer, args) =>
    .ok (buffer, .QueueUnbind ⟨ticket, queue_name, exchange_name, routing_key, args⟩)

/-- `impl Encode for QueueUnbindOk` (writes nothing). -/
def QueueUnbindOk.encode (_ : QueueUnbindOk) : List Nat := []

/-- `impl Decode<Arguments> for QueueUnbindOk`. -/
def QueueUnbindOk.decode (buffer : List Nat) :
    Except FrameDecodeErr (List Nat × Arguments) :=
  .ok (buffer, .QueueUnbindOk ⟨⟩)

/-- `impl Encode for QueuePurge`. -/
def QueuePurge.encode (v : QueuePurge) : List Nat :=
  u16be v.ticket ++ v.queue_name.encode ++ u8enc (if v.no_wait then 1 else 0)

/-- `impl Decode<Arguments> for QueuePurge`. -/
def QueuePurge.decode (buffer : List Nat) :
    Except FrameDecodeErr (List Nat × Arguments) :=
  match u16dec buffer with
  | .error e => .error (wrapErr "decode QueuePurge ticket -> " e)
  | .ok (buffer, ticket) =>
  match ShortStr.decode buffer with
  | .error e => .error (wrapErr "decode QueuePurge queue_name -> " e)
  | .ok (buffer, queue_name) =>
  match u8dec buffer with
  | .error e => .error (wrapErr "decode QueuePurge flags -> " e)
  | .ok (buffer, flags) =>
    .ok (buffer, .QueuePurge ⟨ticket, queue_name, flags &&& (1 <<< 0) != 0⟩)

/-- `impl Encode for QueuePurgeOk`. -/
def QueuePurgeOk.encode (v : QueuePurgeOk) : List Nat := u32be v.message_count

/-- `impl Decode<Arguments> for QueuePurgeOk`. -/
def QueuePurgeOk.decode (buffer : List Nat) :
    Except FrameDecodeErr (List Nat × Arguments) :=
  match u32dec buffer with
  | .error e => .error (wrapErr "decode QueuePurgeOk message_count -> " e)
  | .ok (buffer, message_count) => .ok (buffer, .QueuePurgeOk ⟨message_count⟩)

/-- `impl Encode for QueueDelete`. -/
def QueueDelete.encode (v : QueueDelete) : List Nat :=
  u16be v.ticket ++ v.queue_name.encode
    ++ u8enc ((if v.if_unused then 1 else 0) ||| (if v.if_empty then 1 <<< 1 else 0)
      ||| (if v.no_wait then 1 <<< 2 else 0))

/-- `impl Decode<Arguments> for QueueDelete`. -/
def QueueDelete.decode (buffer : List Nat) :
    Except FrameDecodeErr (List Nat × Arguments) :=
  match u16dec buffer with
  | .error e => .error (wrapErr "decode QueueDelete ticket -> " e)
  | .ok (buffer, ticket) =>
  match ShortStr.decode buffer with
  | .error e => .error (wrapErr "decode QueueDelete queue_name -> " e)
  | .ok (buffer, queue_name) =>
  match u8dec buffer with
  | .error e => .error (wrapErr "decode QueueDelete flags -> " e)
  | .ok (buffer, flags) =>
    .ok (buffer, .QueueDelete ⟨ticket, queue_name,
      flags &&& (1 <<< 0) != 0, flags &&& (1 <<< 1) != 0, flags &&& (1 <<< 2) != 0⟩)

/-- `impl Encode for QueueDeleteOk`. -/
def QueueDeleteOk.encode (v : QueueDeleteOk) : List Nat := u32be v.message_count

/-- `impl Decode<Arguments> for QueueDeleteOk`. -/
def QueueDeleteOk.decode (buffer : List Nat) :
    Except FrameDecodeErr (List Nat × Arguments) :=
  match u32dec buffer with
  | .error e => .error (wrapErr "decode QueueDeleteOk message_count -> " e)
  | .ok (buffer, message_count) => .ok (buffer, .QueueDeleteOk ⟨message_count⟩)

/-- `impl Encode for BasicQos`. -/
def BasicQos.encode (v : BasicQos) : List Nat :=
  u32be v.prefetch_size ++ u16be v.prefetch_count ++ u8enc (if v.global then 1 else 0)

/-- `impl Decode<Arguments> for BasicQos`. -/
def BasicQos.decode (buffer : List Nat) :
    Except FrameDecodeErr (List Nat × Arguments) :=
  match u32dec buffer with
  | .error e => .error (wrapErr "decode BasicQos prefetch_size -> " e)
  | .ok (buffer, prefetch_size) =>
  match u16dec buffer with
  | .error e => .error (wrapErr "decode BasicQos prefetch_count -> " e)
  | .ok (buffer, prefetch_count) =>
  match u8dec buffer with
  | .error e => .error (wrapErr "decode BasicQos flags -> " e)
  | .ok (buffer, flags) =>
    .ok (buffer, .BasicQos ⟨prefetch_size, prefetch_count, flags &&& (1 <<< 0) != 0⟩)

/-- `impl Encode for BasicQosOk` (writes nothing). -/
def BasicQosOk.encode (_ : BasicQosOk) : List Nat := []

/-- `impl Decode<Arguments> for BasicQosOk`. -/
def BasicQosOk.decode (buffer : List Nat) :
    Except FrameDecodeErr (List Nat × Arguments) :=
  .ok (buffer, .BasicQosOk ⟨⟩)

/-- `impl Encode for BasicConsume`. -/
def BasicConsume.encode (v : BasicConsume) : List Nat :=
  u16be v.ticket ++ v.queue_name.encode ++ v.consumer_tag.encode
    ++ u8enc ((if v.no_local then 1 else 0) ||| (if v.no_ack then 1 <<< 1 else 0)
      ||| (if v.exclusive then 1 <<< 2 else 0) ||| (if v.no_wait then 1 <<< 3 else 0))
    ++ v.args.encode

/-- `impl Decode<Arguments> for BasicConsume` — the args context in the
source is the copy-pasted string "decode BasicDeliver consumer_tag -> ". -/
def BasicConsume.decode (buffer : List Nat) :
    Except FrameDecodeErr (List Nat × Arguments) :=
  match u16dec buffer with
  | .error e => .error (wrapErr "decode BasicConsume ticket -> " e)
  | .ok (buffer, ticket) =>
  match ShortStr.decode buffer with
  | .error e => .error (wrapErr "decode BasicConsume queue_name -> " e)
  | .ok (buffer, queue_name) =>
  match ShortStr.decode buffer with
  | .error e => .error (wrapErr "decode BasicConsume consumer_tag -> " e)
  | .ok (buffer, consumer_tag) =>
  match u8dec buffer with
  | .error e => .error (wrapErr "decode BasicConsume flags -> " e)
  | .ok (buffer, flags) =>
  match FieldTable.decode buffer with
  | .error e => .error (wrapErr "decode BasicDeliver consumer_tag -> " e)
  | .ok (buffer, args) =>
    .ok (buffer, .BasicConsume ⟨ticket, queue_name, consumer_tag,
      flags &&& (1 <<< 0) != 0, flags &&& (1 <<< 1) != 0, flags &&& (1 <<< 2) != 0,
      flags &&& (1 <<< 3) != 0, args⟩)

/-- `impl Encode for BasicConsumeOk`. -/
def BasicConsumeOk.encode (v : BasicConsumeOk) : List Nat := v.consumer_tag.encode

/-- `impl Decode<Arguments> for BasicConsumeOk`. -/
def BasicConsumeOk.decode (buffer : List Nat) :
    Except FrameDecodeErr (List Nat × Arguments) :=
  match ShortStr.decode buffer with
  | .error e => .error (wrapErr "decode BasicConsumeOk consumer_tag -> " e)
  | .ok (buffer, consumer_tag) => .ok (buffer, .BasicConsumeOk ⟨consumer_tag⟩)

/-- `impl Encode for BasicCancel`. -/
def BasicCancel.encode (v : BasicCancel) : List Nat :=
  v.consumer_tag.encode ++ u8enc (if v.no_wait then 1 else 0)

/-- `impl Decode<Arguments> for BasicCancel`. -/
def BasicCancel.decode (buffer : List Nat) :
    Except FrameDecodeErr (List Nat × Arguments) :=
  match ShortStr.decode buffer with
  | .error e => .error (wrapErr "decode BasicCancel consumer_tag -> " e)
  | .ok (buffer, consumer_tag) =>
  match u8dec buffer with
  | .error e => .error (wrapErr "decode BasicCancel flags -> " e)
  | .ok (buffer, flags) =>
    .ok (buffer, .BasicCancel ⟨consumer_tag, flags &&& (1 <<< 0) != 0⟩)

/-- `impl Encode for BasicCancelOk`. -/
def BasicCancelOk.encode (v : BasicCancelOk) : List Nat := v.consumer_tag.encode

/-- `impl Decode<Arguments> for BasicCancelOk`. -/
def BasicCancelOk.decode (buffer : List Nat) :
    Except FrameDecodeErr (List Nat × Arguments) :=
  match ShortStr.decode buffer with
  | .error e => .error (wrapErr "decode BasicCancelOk consumer_tag -> " e)
  | .ok (buffer, consumer_tag) => .ok (buffer, .BasicCancelOk ⟨consumer_tag⟩)

/-- `impl Encode for BasicPublish`. -/
def BasicPublish.encode (v : BasicPublish) : List Nat :=
  u16be v.ticket ++ v.exchange_name.encode ++ v.routing_key.encode
    ++ u8enc ((if v.mandatory then 1 else 0) ||| (if v.immediate then 1 <<< 1 else 0))

/-- `impl Decode<Arguments> for BasicPublish`. -/
def BasicPublish.decode (buffer : List Nat) :
    Except FrameDecodeErr (List Nat × Arguments) :=
  match u16dec buffer with
  | .error e => .error (wrapErr "decode BasicPublish ticket -> " e)
  | .ok (buffer, ticket) =>
  match ShortStr.decode buffer with
  | .error e => .error (wrapErr "decode BasicPublish exchange_name -> " e)
  | .ok (buffer, exchange_name) =>
  match ShortStr.decode buffer with
  | .error e => .error (wrapErr "decode BasicPublish routing_key -> " e)
  | .ok (buffer, routing_key) =>
  match u8dec buffer with
  | .error e => .error (wrapErr "decode BasicPublish flags -> " e)
  | .ok (buffer, flags) =>
    .ok (buffer, .BasicPublish ⟨ticket, exchange_name, routing_key,
      flags &&& (1 <<< 0) != 0, flags &&& (1 <<< 1) != 0⟩)

/-- `impl Encode for BasicReturn`. -/
def BasicReturn.encode (v : BasicReturn) : List Nat :=
  u16be v.reply_code ++ v.reply_text.encode ++ v.exchange_name.encode
    ++ v.routing_key.encode

/-- `impl Decode<Arguments> for BasicReturn`. -/
def BasicReturn.decode (buffer : List Nat) :
    Except FrameDecodeErr (List Nat × Arguments) :=
  match u16dec buffer with
  | .error e => .error (wrapErr "decode BasicReturn reply_code -> " e)
  | .ok (buffer, reply_code) =>
  match ShortStr.decode buffer with
  | .error e => .error (wrapErr "decode BasicReturn reply_text -> " e)
  | .ok (buffer, reply_text) =>
  match ShortStr.decode buffer with
  | .error e => .error (wrapErr "decode BasicReturn exchange_name -> " e)
  | .ok (buffer, exchange_name) =>
  match ShortStr.decode buffer with
  | .error e => .error (wrapErr "decode BasicReturn routing_key -> " e)
  | .ok (buffer, routing_key) =>
    .ok (buffer, .BasicReturn ⟨reply_code, reply_text, exchange_name, routing_key⟩)

/-- `impl Encode for BasicDeliver`. -/
def BasicDeliver.encode (v : BasicDeliver) : List Nat :=
  v.consumer_tag.encode ++ u64be v.delivery_tag ++ u8enc (if v.redelivered then 1 else 0)
    ++ v.exchange_name.encode ++ v.routing_key.encode

/-- `impl Decode<Arguments> for BasicDeliver`. -/
def BasicDeliver.decode (buffer : List Nat) :
    Except FrameDecodeErr (List Nat × Arguments) :=
  match ShortStr.decode buffer with
  | .error e => .error (wrapErr "decode BasicDeliver consumer_tag -> " e)
  | .ok (buffer, consumer_tag) =>
  match u64dec buffer with
  | .error e => .error (wrapErr "decode BasicDeliver delivery_tag -> " e)
  | .ok (buffer, delivery_tag) =>
  match u8dec buffer with
  | .error e => .error (wrapErr "decode BasicDeliver flags -> " e)
  | .ok (buffer, flags) =>
  match ShortStr.decode buffer with
  | .error e => .error (wrapErr "decode BasicDeliver exchange_name -> " e)
  | .ok (buffer, exchange_name) =>
  match ShortStr.decode buffer with
  | .error e => .error (wrapErr "decode BasicDeliver routing_key -> " e)
  | .ok (buffer, routing_key) =>
    .ok (buffer, .BasicDeliver ⟨consumer_tag, delivery_tag,
      flags &&& (1 <<< 0) != 0, exchange_name, routing_key⟩)

/-- `impl Encode for BasicGet`. -/
def BasicGet.encode (v : BasicGet) : List Nat :=
  u16be v.ticket ++ v.queue_name.encode ++ u8enc (if v.no_ack then 1 else 0)

/-- `impl Decode<Arguments> for BasicGet`. -/
def BasicGet.decode (buffer : List Nat) :
    Except FrameDecodeErr (List Nat × Arguments) :=
  match u16dec buffer with
  | .error e => .error (wrapErr "decode BasicGet ticket -> " e)
  | .ok (buffer, ticket) =>
  match ShortStr.decode buffer with
  | .error e => .error (wrapErr "decode BasicGet queue_name -> " e)
  | .ok (buffer, queue_name) =>
  match u8dec buffer with
  | .error e => .error (wrapErr "decode BasicGet flags -> " e)
  | .ok (buffer, flags) =>
    .ok (buffer, .BasicGet ⟨ticket, queue_name, flags &&& (1 <<< 0) != 0⟩)

/-- `impl Encode for BasicGetOk`. -/
def BasicGetOk.encode (v : BasicGetOk) : List Nat :=
  u64be v.delivery_tag ++ u8enc (if v.redelivered then 1 else 0)
    ++ v.exchange_name.encode ++ v.routing_key.encode ++ u32be v.message_count

/-- `impl Decode<Arguments> for BasicGetOk`. -/
def BasicGetOk.decode (buffer : List Nat) :
    Except FrameDecodeErr (List Nat × Arguments) :=
  match u64dec buffer with
  | .error e => .error (wrapErr "decode BasicGetOk delivery_tag -> " e)
  | .ok (buffer, delivery_tag) =>
  match u8dec buffer with
  | .error e => .error (wrapErr "decode BasicGetOk flags -> " e)
  | .ok (buffer, flags) =>
  match ShortStr.decode buffer with
  | .error e => .error (wrapErr "decode BasicGetOk exchange_name -> " e)
  | .ok (buffer, exchange_name) =>
  match ShortStr.decode buffer with
  | .error e => .error (wrapErr "decode BasicGetOk routing_key -> " e)
  | .ok (buffer, routing_key) =>
  match u32dec buffer with
  | .error e => .error (wrapErr "decode BasicGetOk message_count -> " e)
  | .ok (buffer, message_count) =>
    .ok (buffer, .BasicGetOk ⟨delivery_tag, flags &&& (1 <<< 0) != 0,
      exchange_name, routing_key, message_count⟩)

/-- `impl Encode for BasicGetEmpty`. -/
def BasicGetEmpty.encode (v : BasicGetEmpty) : List Nat := v.cluster_id.encode

/-- `impl Decode<Arguments> for BasicGetEmpty`. -/
def BasicGetEmpty.decode (buffer : List Nat) :
    Except FrameDecodeErr (List Nat × Arguments) :=
  match ShortStr.decode buffer with
  | .error e => .error (wrapErr "decode BasicGetEmpty cluster_id -> " e)
  | .ok (buffer, cluster_id) => .ok (buffer, .BasicGetEmpty ⟨cluster_id⟩)

/-- `impl Encode for BasicAck`. -/
def BasicAck.encode (v : BasicAck) : List Nat :=
  u64be v.delivery_tag ++ u8enc (if v.multiple then 1 else 0)

/-- `impl Decode<Arguments> for BasicAck`. -/
def BasicAck.decode (buffer : List Nat) :
    Except FrameDecodeErr (List Nat × Arguments) :=
  match u64dec buffer with
  | .error e => .error (wrapErr "decode BasicAck delivery_tag -> " e)
  | .ok (buffer, delivery_tag) =>
  match u8dec buffer with
  | .error e => .error (wrapErr "decode BasicAck flags -> " e)
  | .ok (buffer, flags) =>
    .ok (buffer, .BasicAck ⟨delivery_tag, flags &&& (1 <<< 0) != 0⟩)

/-- `impl Encode for BasicReject`. -/
def BasicReject.encode (v : BasicReject) : List Nat :=
  u64be v.delivery_tag ++ u8enc (if v.requeue then 1 else 0)

/-- `impl Decode<Arguments> for BasicReject`. -/
def BasicReject.decode (buffer : List Nat) :
    Except FrameDecodeErr (List Nat × Arguments) :=
  match u64dec buffer with
  | .error e => .error (wrapErr "decode BasicReject delivery_tag -> " e)
  | .ok (buffer, delivery_tag) =>
  match u8dec buffer with
  | .error e => .error (wrapErr "decode BasicReject flags -> " e)
  | .ok (buffer, flags) =>
    .ok (buffer, .BasicReject ⟨delivery_tag, flags &&& (1 <<< 0) != 0⟩)

/-- `impl Encode for BasicRecoverAsync`. -/
def BasicRecoverAsync.encode (v : BasicRecoverAsync) : List Nat :=
  u8enc (if v.requeue then 1 else 0)

/-- `impl Decode<Arguments> for BasicRecoverAsync`. -/
def BasicRecoverAsync.decode (buffer : List Nat) :
    Except FrameDecodeErr (List Nat × Arguments) :=
  match u8dec buffer with
  | .error e => .error (wrapErr "decode BasicRecoverAsync flags -> " e)
  | .ok (buffer, flags) => .ok (buffer, .BasicRecoverAsync ⟨flags &&& (1 <<< 0) != 0⟩)

/-- `impl Encode for BasicRecover`. -/
def BasicRecover.encode (v : BasicRecover) : List Nat :=
  u8enc (if v.requeue then 1 else 0)

/-- `impl Decode<Arguments> for BasicRecover`. -/
def BasicRecover.decode (buffer : List Nat) :
    Except FrameDecodeErr (List Nat × Arguments) :=
  match u8dec buffer with
  | .error e => .error (wrapErr "decode BasicRecover flags -> " e)
  | .ok (buffer, flags) => .ok (buffer, .BasicRecover ⟨flags &&& (1 <<< 0) != 0⟩)

/-- `impl Encode for BasicRecoverOk` (writes nothing). -/
def BasicRecoverOk.encode (_ : BasicRecoverOk) : List Nat := []

/-- `impl Decode<Arguments> for BasicRecoverOk`. -/
def BasicRecoverOk.decode (buffer : List Nat) :
    Except FrameDecodeErr (List Nat × Arguments) :=
  .ok (buffer, .BasicRecoverOk ⟨⟩)

/-- `impl Encode for BasicNack`. -/
def BasicNack.encode (v : BasicNack) : List Nat :=
  u64be v.delivery_tag
    ++ u8enc ((if v.multiple then 1 else 0) ||| (if v.requeue then 1 <<< 1 else 0))

/-- `impl Decode<Arguments> for BasicNack`. -/
def BasicNack.decode (buffer : List Nat) :
    Except FrameDecodeErr (List Nat × Arguments) :=
  match u64dec buffer with
  | .error e => .error (wrapErr "decode BasicNack delivery_tag -> " e)
  | .ok (buffer, delivery_tag) =>
  match u8dec buffer with
  | .error e => .error (wrapErr "decode BasicNack flags -> " e)
  | .ok (buffer, flags) =>
    .ok (buffer, .BasicNack ⟨delivery_tag,
      flags &&& (1 <<< 0) != 0, flags &&& (1 <<< 1) != 0⟩)

/-- `impl Encode for TxSelect` (writes nothing). -/
def TxSelect.encode (_ : TxSelect) : List Nat := []

/-- `impl Decode<Arguments> for TxSelect`. -/
def TxSelect.decode (buffer : List Nat) :
    Except FrameDecodeErr (List Nat × Arguments) :=
  .ok (buffer, .TxSelect ⟨⟩)

/-- `impl Encode for TxSelectOk` (writes nothing). -/
def TxSelectOk.encode (_ : TxSelectOk) : List Nat := []

/-- `impl Decode<Arguments> for TxSelectOk`. -/
def TxSelectOk.decode (buffer : List Nat) :
    Except FrameDecodeErr (List Nat × Arguments) :=
  .ok (buffer, .TxSelectOk ⟨⟩)

/-- `impl Encode for TxCommit` (writes nothing). -/
def TxCommit.encode (_ : TxCommit) : List Nat := []

/-- `impl Decode<Arguments> for TxCommit`. -/
def TxCommit.decode (buffer : List Nat) :
    Except FrameDecodeErr (List Nat × Arguments) :=
  .ok (buffer, .TxCommit ⟨⟩)

/-- `impl Encode for TxCommitOk` (writes nothing). -/
def TxCommitOk.encode (_ : TxCommitOk) : List Nat := []

/-- `impl Decode<Arguments> for TxCommitOk`. -/
def TxCommitOk.decode (buffer : List Nat) :
    Except FrameDecodeErr (List Nat × Arguments) :=
  .ok (buffer, .TxCommitOk ⟨⟩)

/-- `impl Encode for TxRollback` (writes nothing). -/
def TxRollback.encode (_ : TxRollback) : List Nat := []

/-- `impl Decode<Arguments> for TxRollback`. -/
def TxRollback.decode (buffer : List Nat) :
    Except FrameDecodeErr (List Nat × Arguments) :=
  .ok (buffer, .TxRollback ⟨⟩)

/-- `impl Encode for TxRollbackOk` (writes nothing). -/
def TxRollbackOk.encode (_ : TxRollbackOk) : List Nat := []

/-- `impl Decode<Arguments> for TxRollbackOk`. -/
def TxRollbackOk.decode (buffer : List Nat) :
    Except FrameDecodeErr (List Nat × Arguments) :=
  .ok (buffer, .TxRollbackOk ⟨⟩)

/-- `impl Encode for ConfirmSelect`. -/
def ConfirmSelect.encode (v : ConfirmSelect) : List Nat :=
  u8enc (if v.no_wait then 1 else 0)

/-- `impl Decode<Arguments> for ConfirmSelect`. -/
def ConfirmSelect.decode (buffer : List Nat) :
    Except FrameDecodeErr (List Nat × Arguments) :=
  match u8dec buffer with
  | .error e => .error (wrapErr "decode ConfirmSelect flags -> " e)
  | .ok (buffer, flags) => .ok (buffer, .ConfirmSelect ⟨flags &&& (1 <<< 0) != 0⟩)

/-- `impl Encode for ConfirmSelectOk` (writes nothing). -/
def ConfirmSelectOk.encode (_ : ConfirmSelectOk) : List Nat := []

/-- `impl Decode<Arguments> for ConfirmSelectOk`. -/
def ConfirmSelectOk.decode (buffer : List Nat) :
    Except FrameDecodeErr (List Nat × Arguments) :=
  .ok (buffer, .ConfirmSelectOk ⟨⟩)

/-- Mirror of `impl Encode for Arguments`. -/
def Arguments.encode : Arguments → List Nat
  | .ConnectionStart args => args.encode
  | .ConnectionStartOk args => args.encode
  | .ConnectionSecure args => args.encode
  | .ConnectionSecureOk args => args.encode
  | .ConnectionTune args => args.encode
  | .ConnectionTuneOk args => args.encode
  | .ConnectionOpen args => args.encode
  | .ConnectionOpenOk args => args.encode
  | .ConnectionClose args => args.encode
  | .ConnectionCloseOk args => args.encode
  | .ChannelOpen args => args.encode
  | .ChannelOpenOk args => args.encode
  | .ChannelFlow args => args.encode
  | .ChannelFlowOk args => args.encode
  | .ChannelClose args => args.encode
  | .ChannelCloseOk args => args.encode
  | .AccessRequest args => args.encode
  | .AccessRequestOk args => args.encode
  | .ExchangeDeclare args => args.encode
  | .ExchangeDeclareOk args => args.encode
  | .ExchangeDelete args => args.encode
  | .ExchangeDeleteOk args => args.encode
  | .ExchangeBind args => args.encode
  | .ExchangeBindOk args => args.encode
  | .ExchangeUnbind args => args.encode
  | .ExchangeUnbindOk args => args.encode
  | .QueueDeclare args => args.encode
  | .QueueDeclareOk args => args.encode
  | .QueueBind args => args.encode
  | .QueueBindOk args => args.encode
  | .QueueUnbind args => args.encode
  | .QueueUnbindOk args => args.encode
  | .QueuePurge args => args.encode
  | .QueuePurgeOk args => args.encode
  | .QueueDelete args => args.encode
  | .QueueDeleteOk args => args.encode
  | .BasicQos args => args.encode
  | .BasicQosOk args => args.encode
  | .BasicConsume args => args.encode
  | .BasicConsumeOk args => args.encode
  | .BasicCancel args => args.encode
  | .BasicCancelOk args => args.encode
  | .BasicPublish args => args.encode
  | .BasicReturn args => args.encode
  | .BasicDeliver args => args.encode
  | .BasicGet args => args.encode
  | .BasicGetOk args => args.encode
  | .BasicGetEmpty args => args.encode
  | .BasicAck args => args.encode
  | .BasicReject args => args.encode
  | .BasicRecoverAsync args => args.encode
  | .BasicRecover args => args.encode
  | .BasicRecoverOk args => args.encode
  | .BasicNack args => args.encode
  | .TxSelect args => args.encode
  | .TxSelectOk args => args.encode
  | .TxCommit args => args.encode
  | .TxCommitOk args => args.encode
  | .TxRollback args => args.encode
  | .TxRollbackOk args => args.encode
  | .ConfirmSelect args => args.encode
  | .ConfirmSelectOk args => args.encode

/-! ### Frame payloads and frames (`src/frame/base.rs`, `src/frame/frame_codec.rs`) -/

/-- Mirror of `MethodPayload` from `src/frame/base.rs` (`class` renamed to
`cls`: `class` is a reserved word in Lean). -/
structure MethodPayload where
  cls : Class
  method : Method
  args : Arguments

/-- Mirror of `impl Encode for MethodPayload`. -/
def MethodPayload.encode (p : MethodPayload) : List Nat :=
  u16be p.cls.class_id ++ u16be p.method.method_id ++ p.args.encode

/-- The tail of `MethodPayload::decode`: a successful argument decode yields
the payload, an error is wrapped with `"decode MethodPayload error: "`. The
`return Err(SyntaxError(...))` arms for `Unknown` methods bypass this wrap. -/
def wrapMethodArgs (cls : Class) (method : Method)
    (r : Except FrameDecodeErr (List Nat × Arguments)) :
    Except FrameDecodeErr (List Nat × MethodPayload) :=
  match r with
  | .ok (buffer, args) => .ok (buffer, ⟨cls, method, args⟩)
  | .error e => .error (wrapErr "decode MethodPayload error: " e)

/-- Mirror of `impl Decode<MethodPayload> for MethodPayload`: the two u16 id
reads pass `Incomplete` through unchanged; everything after is wrapped. -/
def MethodPayload.decode (buffer : List Nat) :
    Except FrameDecodeErr (List Nat × MethodPayload) :=
  match u16dec buffer with
  | .error .Incomplete => .error .Incomplete
  | .error e => .error (wrapErr "decode MethodPayload class id failed -> " e)
  | .ok (buffer, class_id) =>
  match u16dec buffer with
  | .error .Incomplete => .error .Incomplete
  | .error e => .error (wrapErr "decode MethodPayload method id failed -> " e)
  | .ok (buffer, method_id) =>
  let cls := Class.fromU16 class_id
  if cls = Class.Unknown then
    .error (.DecodeError ("decode MethodPayload unknown class: " ++ toString class_id))
  else
    match get_method_type cls method_id with
    | .error e => .error (wrapErr "decode MethodPayload unknown method -> " e)
    | .ok method =>
      match method with
      | .Connection mt =>
        match mt with
        | .Start => wrapMethodArgs cls method (ConnectionStart.decode buffer)
        | .StartOk => wrapMethodArgs cls method (ConnectionStartOk.decode buffer)
        | .Tune => wrapMethodArgs cls method (ConnectionTune.decode buffer)
        | .TuneOk => wrapMethodArgs cls method (ConnectionTuneOk.decode buffer)
        | .Secure => wrapMethodArgs cls method (ConnectionSecure.decode buffer)
        | .SecureOk => wrapMethodArgs cls method (ConnectionSecureOk.decode buffer)
        | .Open => wrapMethodArgs cls method (ConnectionOpen.decode buffer)
        | .OpenOk => wrapMethodArgs cls method (ConnectionOpenOk.decode buffer)
        | .Close => wrapMethodArgs cls method (ConnectionClose.decode buffer)
        | .CloseOk => wrapMethodArgs cls method (ConnectionCloseOk.decode buffer)
        | .Unknown => .error (.SyntaxError "decode MethodPayload unknown connection method")
      | .Channel mt =>
        match mt with
        | .Open => wrapMethodArgs cls method (ChannelOpen.decode buffer)
        | .OpenOk => wrapMethodArgs cls method (ChannelOpenOk.decode buffer)
        | .Flow => wrapMethodArgs cls method (ChannelFlow.decode buffer)
        | .FlowOk => wrapMethodArgs cls method (ChannelFlowOk.decode buffer)
        | .Close => wrapMethodArgs cls method (ChannelClose.decode buffer)
        | .CloseOk => wrapMethodArgs cls method (ChannelCloseOk.decode buffer)
        | .Unknown => .error (.SyntaxError "decode MethodPayload unknown channel method")
      | .Access mt =>
        match mt with
        | .Request => wrapMethodArgs cls method (AccessRequest.decode buffer)
        | .RequestOk => wrapMethodArgs cls method (AccessRequestOk.decode buffer)
        | .Unknown => .error (.SyntaxError "decode MethodPayload unknown access method")
      | .Exchange mt =>
        match mt with
        | .Declare => wrapMethodArgs cls method (ExchangeDeclare.decode buffer)
        | .DeclareOk => wrapMethodArgs cls method (ExchangeDeclareOk.decode buffer)
        | .Bind => wrapMethodArgs cls method (ExchangeBind.decode buffer)
        | .BindOk => wrapMethodArgs cls method (ExchangeBindOk.decode buffer)
        | .Unbind => wrapMethodArgs cls method (ExchangeUnbind.decode buffer)
        | .UnbindOk => wrapMethodArgs cls method (ExchangeUnbindOk.decode buffer)
        | .Delete => wrapMethodArgs cls method (ExchangeDelete.decode buffer)
        | .DeleteOk => wrapMethodArgs cls method (ExchangeDeleteOk.decode buffer)
        | .Unknown => .error (.SyntaxError "decode MethodPayload unknown exchange method")
      | .Queue mt =>
        match mt with
        | .Declare => wrapMethodArgs cls method (QueueDeclare.decode buffer)
        | .DeclareOk => wrapMethodArgs cls method (QueueDeclareOk.decode buffer)
        | .Bind => wrapMethodArgs cls method (QueueBind.decode buffer)
        | .BindOk => wrapMethodArgs cls method (QueueBindOk.decode buffer)
        | .Unbind => wrapMethodArgs cls method (QueueUnbind.decode buffer)
        | .UnbindOk => wrapMethodArgs cls method (QueueUnbindOk.decode buffer)
        | .Purge => wrapMethodArgs cls method (QueuePurge.decode buffer)
        | .PurgeOk => wrapMethodArgs cls method (QueuePurgeOk.decode buffer)
        | .Delete => wrapMethodArgs cls method (QueueDelete.decode buffer)
        | .DeleteOk => wrapMethodArgs cls method (QueueDeleteOk.decode buffer)
        | .Unknown => .error (.SyntaxError "decode MethodPayload unknown queue method")
      | .Basic mt =>
        match mt with
        | .Qos => wrapMethodArgs cls method (BasicQos.decode buffer)
        | .QosOk => wrapMethodArgs cls method (BasicQosOk.decode buffer)
        | .Consume => wrapMethodArgs cls method (BasicConsume.decode buffer)
        | .ConsumeOk => wrapMethodArgs cls method (BasicConsumeOk.decode buffer)
        | .Cancel => wrapMethodArgs cls method (BasicCancel.decode buffer)
        | .CancelOk => wrapMethodArgs cls method (BasicCancelOk.decode buffer)
        | .Publish => wrapMethodArgs cls method (BasicPublish.decode buffer)
        | .Return => wrapMethodArgs cls method (BasicReturn.decode buffer)
        | .Deliver => wrapMethodArgs cls method (BasicDeliver.decode buffer)
        | .Get => wrapMethodArgs cls method (BasicGet.decode buffer)
        | .GetEmpty => wrapMethodArgs cls method (BasicGetEmpty.decode buffer)
        | .GetOk => wrapMethodArgs cls method (BasicGetOk.decode buffer)
        | .Reject => wrapMethodArgs cls method (BasicReject.decode buffer)
        | .RecoverAsync => wrapMethodArgs cls method (BasicRecoverAsync.decode buffer)
        | .Recover => wrapMethodArgs cls method (BasicRecover.decode buffer)
        | .RecoverOk => wrapMethodArgs cls method (BasicRecoverOk.decode buffer)
        | .Ack => wrapMethodArgs cls method (BasicAck.decode buffer)
        | .Nack => wrapMethodArgs cls method (BasicNack.decode buffer)
        | .Unknown => .error (.SyntaxError "decode MethodPayload unknown basic method")
      | .Tx mt =>
        match mt with
        | .Select => wrapMethodArgs cls method (TxSelect.decode buffer)
        | .SelectOk => wrapMethodArgs cls method (TxSelectOk.decode buffer)
        | .Commit => wrapMethodArgs cls method (TxCommit.decode buffer)
        | .CommitOk => wrapMethodArgs cls method (TxCommitOk.decode buffer)
        | .Rollback => wrapMethodArgs cls method (TxRollback.decode buffer)
        | .RollbackOk => wrapMethodArgs cls method (TxRollbackOk.decode buffer)
        | .Unknown => .error (.SyntaxError "decode MethodPayload unknown tx method")
      | .Confirm mt =>
        match mt with
        | .Select => wrapMethodArgs cls method (ConfirmSelect.decode buffer)
        | .SelectOk => wrapMethodArgs cls method (ConfirmSelectOk.decode buffer)
        | .Unknown => .error (.SyntaxError "decode MethodPayload unknown confirm method")

/-- Mirror of `ContentHeaderPayload` from `src/frame/base.rs`. -/
structure ContentHeaderPayload where
  cls : Class
  weight : Nat
  body_size : Nat
  properties : Property
deriving DecidableEq

/-- Mirror of `impl Encode for ContentHeaderPayload`. -/
def ContentHeaderPayload.encode (p : ContentHeaderPayload) : List Nat :=
  u16be p.cls.class_id ++ u16be p.weight ++ u64be p.body_size ++ p.properties.encode

/-- Mirror of `impl Decode<ContentHeaderPayload> for ContentHeaderPayload`. -/
def ContentHeaderPayload.decode (buffer : List Nat) :
    Except FrameDecodeErr (List Nat × ContentHeaderPayload) :=
  match u16dec buffer with
  | .error e => .error (wrapErr "decode ContentHeaderPayload class id failed -> " e)
  | .ok (buffer, class_id) =>
  let class_type := Class.fromU16 class_id
  if class_type = Class.Unknown then
    .error (.DecodeError ("decode ContentHeaderPayload class tyep unknown -> "
      ++ toString class_id))
  else
  match u16dec buffer with
  | .error e => .error (wrapErr "decode ContentHeaderPayload weight -> " e)
  | .ok (buffer, weight) =>
  match u64dec buffer with
  | .error e => .error (wrapErr "decode ContentHeaderPayload body_size -> " e)
  | .ok (buffer, body_size) =>
  let wrapProps : Except FrameDecodeErr (List Nat × Property) →
      Except FrameDecodeErr (List Nat × ContentHeaderPayload) := fun r =>
    match r with
    | .ok (buffer, properties) => .ok (buffer, ⟨class_type, weight, body_size, properties⟩)
    | .error e => .error (wrapErr "decode ContentHeaderPayload properties -> " e)
  match class_type with
  | .Connection => wrapProps (ConnectionProperties.decode buffer)
  | .Access => wrapProps (AccessProperties.decode buffer)
  | .Exchange => wrapProps (ExchangeProperties.decode buffer)
  | .Channel => wrapProps (ChannelProperties.decode buffer)
  | .Queue => wrapProps (QueueProperties.decode buffer)
  | .Basic => wrapProps (BasicProperties.decode buffer)
  | .Tx => wrapProps (TxProperties.decode buffer)
  | .Confirm => wrapProps (ConfirmProperties.decode buffer)
  | .Unknown => .error (.SyntaxError "decode ContentHeaderPayload unknown class")

/-- Mirror of the unit struct `HeartbeatPayload`. -/
structure HeartbeatPayload where
deriving DecidableEq

/-- Mirror of `impl Encode for HeartbeatPayload` (writes nothing). -/
def HeartbeatPayload.encode (_ : HeartbeatPayload) : List Nat := []

/-- Mirror of `impl Decode<HeartbeatPayload> for HeartbeatPayload`: always
succeeds, performs NO validation of the buffer (in particular no length
check), and leaves the buffer untouched. -/
def HeartbeatPayload.decode (buffer : List Nat) :
    Except FrameDecodeErr (List Nat × HeartbeatPayload) :=
  .ok (buffer, ⟨⟩)

/-- Mirror of `enum Payload` from `src/frame/base.rs`. -/
inductive Payload where
  | Heartbeat (p : HeartbeatPayload)
  | Method (p : MethodPayload)
  | ContentHeader (p : ContentHeaderPayload)
  | ContentBody (b : List Nat)

/-- Mirror of `impl Encode for Payload`. -/
def Payload.encode : Payload → List Nat
  | .Heartbeat p => p.encode
  | .Method p => p.encode
  | .ContentHeader p => p.encode
  | .ContentBody b => b

/-- `pub const FRAME_END: u8 = 0xce;`. -/
def FRAME_END : Nat := 0xce

/-- Mirror of `enum FrameType`. -/
inductive FrameType where
  | METHOD | HEADER | BODY | HEARTBEAT | UNKNOWN
deriving DecidableEq, Repr

/-- Mirror of `FrameType::frame_type_id`. -/
def FrameType.frame_type_id : FrameType → Nat
  | .METHOD => 1
  | .HEADER => 2
  | .BODY => 3
  | .HEARTBEAT => 4
  | .UNKNOWN => 0xff

/-- Mirror of `impl From<u8> for FrameType`. -/
def FrameType.fromU8 : Nat → FrameType
  | 1 => .METHOD
  | 2 => .HEADER
  | 3 => .BODY
  | 4 => .HEARTBEAT
  | _ => .UNKNOWN

/-- Mirror of `struct Frame`. -/
structure Frame where
  frame_type : FrameType
  channel : Nat
  length : Nat
  payload : Payload

/-- Mirror of `Frame::len`: `(self.length + 8u32) as usize` — a `u32`
addition, so it wraps modulo `2^32`. -/
def Frame.len (f : Frame) : Nat := (f.length + 8) % 2 ^ 32

/-- Mirror of `impl Encode for Frame`. -/
def Frame.encode (f : Frame) : List Nat :=
  u8enc f.frame_type.frame_type_id ++ u16be f.channel ++ u32be f.length
    ++ f.payload.encode ++ u8enc FRAME_END

/-- Mirror of `impl Decode<Frame> for Frame`: five reads (type, channel,
length, payload bytes, end byte) each passing `Incomplete` through unchanged;
a wrong end byte is a decode error; the payload is then parsed from the taken
bytes according to the frame type, with payload errors wrapped (the METHOD
arm's context string says "heartbeat" in the source). -/
def Frame.decode (buffer : List Nat) : Except FrameDecodeErr (List Nat × Frame) :=
  match u8dec buffer with
  | .error .Incomplete => .error .Incomplete
  | .error e => .error (wrapErr "decode Frame frame_type -> " e)
  | .ok (buffer, frame_type) =>
  match u16dec buffer with
  | .error .Incomplete => .error .Incomplete
  | .error e => .error (wrapErr "decode Frame channle id -> " e)
  | .ok (buffer, channel) =>
  match u32dec buffer with
  | .error .Incomplete => .error .Incomplete
  | .error e => .error (wrapErr "decode Frame payload length -> " e)
  | .ok (buffer, length) =>
  match take_bytes buffer length with
  | .error .Incomplete => .error .Incomplete
  | .error e => .error (wrapErr "decode Frame payload data -> " e)
  | .ok (buffer, payload_data) =>
  match u8dec buffer with
  | .error .Incomplete => .error .Incomplete
  | .error e => .error (wrapErr "decode Frame end -> " e)
  | .ok (buffer, frame_end) =>
  if FRAME_END = frame_end then
    let ft := FrameType.fromU8 frame_type
    match ft with
    | .HEARTBEAT =>
      match HeartbeatPayload.decode payload_data with
      | .ok (_, heartbeat_payload) =>
        .ok (buffer, ⟨ft, channel, length, .Heartbeat heartbeat_payload⟩)
      | .error e => .error (wrapErr "decode Frame heartbeat payload failed -> " e)
    | .METHOD =>
      match MethodPayload.decode payload_data with
      | .ok (_, method_payload) =>
        .ok (buffer, ⟨ft, channel, length, .Method method_payload⟩)
      | .error e => .error (wrapErr "decode Frame heartbeat payload failed -> " e)
    | .HEADER =>
      match ContentHeaderPayload.decode payload_data with
      | .ok (_, content_header_payload) =>
        .ok (buffer, ⟨ft, channel, length, .ContentHeader content_header_payload⟩)
      | .error e => .error (wrapErr "decode Frame content header payload failed -> " e)
    | .BODY => .ok (buffer, ⟨ft, channel, length, .ContentBody payload_data⟩)
    | .UNKNOWN =>
      .error (.DecodeError ("decode Frame unknown frame type: "
        ++ toString ft.frame_type_id))
  else
    .error (.DecodeError ("decode Frame end error: " ++ toString frame_end))

/-- Mirror of `struct ProtocolHeader`. -/
structure ProtocolHeader where
  protocol : List Nat
  major_id : Nat
  minor_id : Nat
  major_version : Nat
  minor_version : Nat
deriving DecidableEq, Repr

/-- Mirror of `impl Default for ProtocolHeader`: the bytes "AMQP" 0 0 9 1. -/
def ProtocolHeader.default : ProtocolHeader := ⟨[65, 77, 81, 80], 0, 0, 9, 1⟩

/-- Mirror of `impl Encode for ProtocolHeader`. -/
def ProtocolHeader.encode (h : ProtocolHeader) : List Nat :=
  h.protocol ++ u8enc h.major_id ++ u8enc h.minor_id ++ u8enc h.major_version
    ++ u8enc h.minor_version

/-- Mirror of `impl Decode<ProtocolHeader> for ProtocolHeader`: reads the
4-byte scheme, which must equal "AMQP" (else a direct syntax error); every
read failure — including `Incomplete` — is wrapped into a `DecodeError`. -/
def ProtocolHeader.decode (buffer : List Nat) :
    Except FrameDecodeErr (List Nat × ProtocolHeader) :=
  match take_bytes buffer 4 with
  | .error e => .error (wrapErr "decode protocol scheme -> " e)
  | .ok (buffer, protocol) =>
  if protocol ≠ [65, 77, 81, 80] then
    .error (.SyntaxError "Wrong protocol, expected AMQP")
  else
  match u8dec buffer with
  | .error e => .error (wrapErr "decode major_id -> " e)
  | .ok (buffer, major_id) =>
  match u8dec buffer with
  | .error e => .error (wrapErr "decode minor_id -> " e)
  | .ok (buffer, minor_id) =>
  match u8dec buffer with
  | .error e => .error (wrapErr "decode major_version -> " e)
  | .ok (buffer, major_version) =>
  match u8dec buffer with
  | .error e => .error (wrapErr "decode minor_version -> " e)
  | .ok (buffer, minor_version) =>
    .ok (buffer, ⟨protocol, major_id, minor_id, major_version, minor_version⟩)

/-- `pub const PROTOCOL_HEADER_SIZE: usize = 8;` from `src/frame/frame_codec.rs`. -/
def PROTOCOL_HEADER_SIZE : Nat := 8

/-- Mirror of `enum DecodedFrame` from `src/frame/frame_codec.rs`. -/
inductive DecodedFrame where
  | ProtocolHeader (h : ProtocolHeader)
  | AmqpFrame (f : Frame)

/-- Mirror of `struct FrameCodec`: the only state is the
protocol-header-received flag. -/
structure FrameCodec where
  header_received : Bool
deriving DecidableEq, Repr

/-- Mirror of `impl Default for FrameCodec`: the flag starts false. -/
def FrameCodec.default : FrameCodec := ⟨false⟩

/-- Mirror of `impl Decoder for FrameCodec` (`FrameCodec::decode`): the
result, the codec state after the call, and the buffer after the call.
Translated faithfully from the source: note that the success path of the
protocol-header branch splits off 8 bytes and returns WITHOUT setting
`header_received`. -/
def FrameCodec.decode (codec : FrameCodec) (src : List Nat) :
    Except FrameDecodeErr (Option DecodedFrame) × FrameCodec × List Nat :=
  if !codec.header_received then
    match ProtocolHeader.decode src with
    | .ok (_, header) =>
      (.ok (some (.ProtocolHeader header)), codec, src.drop PROTOCOL_HEADER_SIZE)
    | .error .Incomplete => (.ok none, codec, src)
    | .error e =>
      (.error (wrapErr "codec decode ProtocolHeader failed -> " e), codec, src)
  else
    match Frame.decode src with
    | .ok (_, frame) => (.ok (some (.AmqpFrame frame)), codec, src.drop frame.len)
    | .error .Incomplete => (.ok none, codec, src)
    | .error e => (.error (wrapErr "codec decode Frame failed -> " e), codec, src)

/-! ### Frame-layer lemmas and claim theorems -/

/-- Reading one byte from a cons cell. -/
theorem u8dec_cons (t : Nat) (rest : List Nat) : u8dec (t :: rest) = .ok (rest, t) := by
  rw [u8dec, decodeBE, if_pos (by simp)]
  simp [beNat]

/-- C1: `FrameCodec::decode` never sets `header_received` after decoding the
protocol header, so on a buffer holding the 8 protocol-header bytes followed
by a complete valid heartbeat frame, the first call consumes the 8 bytes and
emits the `ProtocolHeader` token but leaves the flag false, and the second
call — although `Frame::decode` on the remaining heartbeat bytes would
succeed — fails with a protocol-header decode error. -/
theorem claim_C1_code_bug :
    FrameCodec.decode ⟨false⟩ ([65, 77, 81, 80, 0, 0, 9, 1] ++ [4, 0, 0, 0, 0, 0, 0, 206]) =
      (.ok (some (.ProtocolHeader ⟨[65, 77, 81, 80], 0, 0, 9, 1⟩)), ⟨false⟩,
        [4, 0, 0, 0, 0, 0, 0, 206]) ∧
    Frame.decode [4, 0, 0, 0, 0, 0, 0, 206] =
      .ok ([], ⟨.HEARTBEAT, 0, 0, .Heartbeat ⟨⟩⟩) ∧
    FrameCodec.decode ⟨false⟩ [4, 0, 0, 0, 0, 0, 0, 206] =
      (.error (.DecodeError
        "codec decode ProtocolHeader failed -> Syntax error: Wrong protocol, expected AMQP"),
        ⟨false⟩, [4, 0, 0, 0, 0, 0, 0, 206]) :=
  ⟨rfl, rfl, rfl⟩

/-- C7: the registry's asymmetric `Exchange.UnbindOk` id 51 is reproduced,
with (40, 41) rejected; but the catalog does NOT reproduce the section-6
registry exactly: `BasicMethod::from` lacks a `120 => Nack` arm, so the
registered method `Basic.Nack` (id 120) is rejected by `get_method_type` even
though `method_id` maps `Nack` to 120. The last two conjuncts exhibit the
consequence at the `MethodPayload` level. -/
theorem claim_C7_code_bug :
    get_method_type .Exchange 51 = .ok (.Exchange .UnbindOk) ∧
    ExchangeMethod.method_id .UnbindOk = 51 ∧
    get_method_type .Exchange 41 = .error (.SyntaxError "unknown method for exchange") ∧
    BasicMethod.method_id .Nack = 120 ∧
    BasicMethod.fromU16 120 = .Unknown ∧
    get_method_type .Basic 120 = .error (.SyntaxError "unknown method for basic") ∧
    MethodPayload.decode [0, 40, 0, 51] =
      .ok ([], ⟨.Exchange, .Exchange .UnbindOk, .ExchangeUnbindOk ⟨⟩⟩) ∧
    MethodPayload.decode [0, 60, 0, 120] =
      .error (.DecodeError
        "decode MethodPayload unknown method -> Syntax error: unknown method for basic") :=
  ⟨rfl, rfl, rfl, rfl, rfl, rfl, rfl, rfl⟩

/-- C8: the `BasicProperties` value with content_type "text/plain" and
timestamp 1000 (set through the flag-maintaining setters) carries flag bits
15 and 6, encodes as `00 00 80 40`, the ShortStr "text/plain", and the 8-byte
big-endian 1000, and decoding those bytes reconstructs exactly the same value
(all other fields left at their defaults). -/
theorem claim_C8_roundtrip :
    (BasicProperties.set_timestamp
      (BasicProperties.set_content_type {} ⟨[116, 101, 120, 116, 47, 112, 108, 97, 105, 110]⟩)
      1000).flags = 0x8040 ∧
    BasicProperties.encode (BasicProperties.set_timestamp
      (BasicProperties.set_content_type {} ⟨[116, 101, 120, 116, 47, 112, 108, 97, 105, 110]⟩)
      1000) =
      [0x00, 0x00, 0x80, 0x40]
        ++ [10, 116, 101, 120, 116, 47, 112, 108, 97, 105, 110]
        ++ [0, 0, 0, 0, 0, 0, 3, 232] ∧
    BasicProperties.decode
      ([0x00, 0x00, 0x80, 0x40]
        ++ [10, 116, 101, 120, 116, 47, 112, 108, 97, 105, 110]
        ++ [0, 0, 0, 0, 0, 0, 3, 232]) =
      .ok ([], .Basic (BasicProperties.set_timestamp
        (BasicProperties.set_content_type {} ⟨[116, 101, 120, 116, 47, 112, 108, 97, 105, 110]⟩)
        1000)) :=
  ⟨rfl, rfl, rfl⟩

/-- C10: `FieldName::with_bytes` indexes `bytes[0]` before checking that the
name is non-empty, so the empty byte slice makes it panic (modelled by the
distinguished `Panicked` outcome), and `FieldName::decode` on the encoding of
a zero-length name (`[0]`) panics the same way — the functions are NOT total
at the public interface. -/
theorem claim_C10_code_bug :
    FieldName.with_bytes [] = .error .Panicked ∧
    FieldName.decode [0] = .error .Panicked :=
  ⟨rfl, rfl⟩

/-- C9 (corrected): `Access.Request`'s encode emits the realm then a `0`
filler byte, and decode reads the filler byte but does NOT consume it (the
source discards the advanced buffer: `let (_, _) = u8::decode(buffer)`), and
discards the five permission flags; decoding encode's output therefore
returns the realm-preserving value with all flags false and leaves exactly
the one filler byte unconsumed. -/
theorem claim_C9_corrected (v : AccessRequest) (h : v.realm.wfB = true) :
    AccessRequest.encode v = ShortStr.encode v.realm ++ [0] ∧
    AccessRequest.decode (AccessRequest.encode v) =
      .ok ([0], .AccessRequest ⟨v.realm, false, false, false, false, false⟩) := by
  constructor
  · rfl
  · rw [AccessRequest.encode, AccessRequest.decode,
      show u8enc 0 = [0] from rfl, shortStr_decode_encode v.realm h [0]]
    rfl

/-- C9 witness: the corrected claim instantiated on the realm "a". -/
theorem claim_C9_witness :
    AccessRequest.encode ⟨⟨[97]⟩, false, false, false, false, false⟩ =
      ShortStr.encode ⟨[97]⟩ ++ [0] ∧
    AccessRequest.decode (AccessRequest.encode ⟨⟨[97]⟩, false, false, false, false, false⟩) =
      .ok ([0], .AccessRequest ⟨⟨[97]⟩, false, false, false, false, false⟩) :=
  claim_C9_corrected ⟨⟨[97]⟩, false, false, false, false, false⟩ (by decide)

/-- C9 counterexample, refuting the claim as stated: for the empty realm the
encoding is `[0, 0]`, and decode returns with the filler byte `[0]` still in
the remainder — it does not consume the entire argument body. -/
theorem claim_C9_counterexample :
    AccessRequest.encode ⟨⟨[]⟩, false, false, false, false, false⟩ = [0, 0] ∧
    AccessRequest.decode [0, 0] =
      .ok ([0], .AccessRequest ⟨⟨[]⟩, false, false, false, false, false⟩) ∧
    AccessRequest.decode [0, 0] ≠
      .ok ([], .AccessRequest ⟨⟨[]⟩, false, false, false, false, false⟩) := by
  refine ⟨rfl, rfl, ?_⟩
  intro hcontra
  rw [show AccessRequest.decode [0, 0] =
      .ok ([0], .AccessRequest ⟨⟨[]⟩, false, false, false, false, false⟩) from rfl] at hcontra
  have h1 : ([0] : List Nat) = [] := congrArg Prod.fst (Except.ok.inj hcontra)
  exact List.noConfusion h1

/-- A HEARTBEAT-type frame whose length field matches the number of payload
bytes present decodes successfully whatever that length is:
`HeartbeatPayload::decode` validates nothing. -/
theorem frame_decode_heartbeat (ch L : Nat) (payload : List Nat)
    (hch : ch < 2 ^ 16) (hL : L < 2 ^ 32) (hp : payload.length = L) :
    Frame.decode ([4] ++ (u16be ch ++ (u32be L ++ (payload ++ [206])))) =
      .ok ([], ⟨.HEARTBEAT, ch, L, .Heartbeat ⟨⟩⟩) := by
  rw [List.singleton_append, Frame.decode]
  simp only [u8dec_cons,
    show u16dec (u16be ch ++ (u32be L ++ (payload ++ [206]))) =
      .ok (u32be L ++ (payload ++ [206]), ch) by
        rw [u16dec_enc, Nat.mod_eq_of_lt hch],
    show u32dec (u32be L ++ (payload ++ [206])) = .ok (payload ++ [206], L) by
      rw [u32dec_enc, Nat.mod_eq_of_lt hL],
    show take_bytes (payload ++ [206]) L = .ok ([206], payload) by
      rw [← hp, take_bytes_append],
    show u8dec [206] = .ok ([], 206) from rfl]
  rfl

/-- C6 (corrected): `HeartbeatPayload::decode` performs no length validation,
so a frame with type byte 4, ANY length field matching the number of payload
bytes present, and a correct `0xCE` terminator decodes successfully as a
heartbeat frame — a non-zero length is NOT a decode error. -/
theorem claim_C6_corrected (ch L : Nat) (payload : List Nat)
    (hch : ch < 2 ^ 16) (hL : L < 2 ^ 32) (hp : payload.length = L) :
    Frame.decode ([4] ++ (u16be ch ++ (u32be L ++ (payload ++ [206])))) =
      .ok ([], ⟨.HEARTBEAT, ch, L, .Heartbeat ⟨⟩⟩) :=
  frame_decode_heartbeat ch L payload hch hL hp

/-- C6 witness: the corrected claim instantiated on a length-1 heartbeat
frame with payload byte `0xAA`. -/
theorem claim_C6_witness :
    Frame.decode ([4] ++ (u16be 0 ++ (u32be 1 ++ ([170] ++ [206])))) =
      .ok ([], ⟨.HEARTBEAT, 0, 1, .Heartbeat ⟨⟩⟩) :=
  claim_C6_corrected 0 1 [170] (by decide) (by decide) (by decide)

/-- C6 counterexample, refuting the claim as stated: the concrete frame bytes
`04 00 00 00 00 00 01 AA CE` have frame type HEARTBEAT and a non-zero length
field (1, with one payload byte present), yet decoding returns `Ok` with an
accepted heartbeat frame instead of the decode error the claim requires. -/
theorem claim_C6_counterexample :
    Frame.decode [4, 0, 0, 0, 0, 0, 1, 170, 206] =
      .ok ([], ⟨.HEARTBEAT, 0, 1, .Heartbeat ⟨⟩⟩) ∧
    resKind (Frame.decode [4, 0, 0, 0, 0, 0, 1, 170, 206]) = .ok :=
  ⟨rfl, rfl⟩

/-- C4 (corrected): prefix-safety of frame decoding. For every frame byte
sequence `F = type ++ channel ++ length ++ payload ++ [0xCE]` (payload
matching the length field) that decodes successfully and completely, every
strict prefix of `F` decodes to the distinguished `Incomplete` error with no
bytes consumed; but the frame's `len` — `(self.length + 8u32) as usize`, a
wrapping u32 addition — is `(length + 8) mod 2^32`, and `FrameCodec::decode`
(past the header phase) advances the buffer by that wrapped amount, which
equals the claimed `length + 8 = |F|` only when the length field stays below
`2^32 - 8` (final conjunct). -/
theorem claim_C4_corrected (t ch L : Nat) (payload : List Nat) (fr : Frame)
    (ht : t < 256) (hch : ch < 2 ^ 16) (hL : L < 2 ^ 32) (hp : payload.length = L)
    (hok : Frame.decode ([t] ++ (u16be ch ++ (u32be L ++ (payload ++ [206])))) =
      .ok ([], fr)) :
    (∀ k, k < ([t] ++ (u16be ch ++ (u32be L ++ (payload ++ [206])))).length →
      Frame.decode (([t] ++ (u16be ch ++ (u32be L ++ (payload ++ [206])))).take k) =
        .error .Incomplete) ∧
    fr.len = (L + 8) % 2 ^ 32 ∧
    FrameCodec.decode ⟨true⟩ ([t] ++ (u16be ch ++ (u32be L ++ (payload ++ [206])))) =
      (.ok (some (.AmqpFrame fr)), ⟨true⟩,
        ([t] ++ (u16be ch ++ (u32be L ++ (payload ++ [206])))).drop ((L + 8) % 2 ^ 32)) ∧
    (L + 8 < 2 ^ 32 →
      fr.len = ([t] ++ (u16be ch ++ (u32be L ++ (payload ++ [206])))).length ∧
      FrameCodec.decode ⟨true⟩ ([t] ++ (u16be ch ++ (u32be L ++ (payload ++ [206])))) =
        (.ok (some (.AmqpFrame fr)), ⟨true⟩, [])) := by
  have hFlen : ([t] ++ (u16be ch ++ (u32be L ++ (payload ++ [206])))).length = 8 + L := by
    simp only [List.length_append, List.length_singleton, u16be_length, u32be_length,
      List.length_cons, List.length_nil, hp]
    omega
  have hfr : fr.length = L := by
    rw [List.singleton_append, Frame.decode] at hok
    simp only [u8dec_cons,
      show u16dec (u16be ch ++ (u32be L ++ (payload ++ [206]))) =
        .ok (u32be L ++ (payload ++ [206]), ch) by rw [u16dec_enc, Nat.mod_eq_of_lt hch],
      show u32dec (u32be L ++ (payload ++ [206])) = .ok (payload ++ [206], L) by
        rw [u32dec_enc, Nat.mod_eq_of_lt hL],
      show take_bytes (payload ++ [206]) L = .ok ([206], payload) by
        rw [← hp, take_bytes_append],
      show u8dec [206] = .ok ([], 206) from rfl] at hok
    rw [if_pos (show FRAME_END = 206 from rfl)] at hok
    rcases hft : FrameType.fromU8 t with _ | _ | _ | _ | _
    · -- METHOD
      simp only [hft] at hok
      match hmp : MethodPayload.decode payload with
      | .error e =>
        simp only [hmp] at hok
        exact Except.noConfusion hok
      | .ok (b, mp) =>
        simp only [hmp] at hok
        have h3 : Frame.mk .METHOD ch L (.Method mp) = fr :=
          congrArg Prod.snd (Except.ok.inj hok)
        rw [← h3]
    · -- HEADER
      simp only [hft] at hok
      match hmp : ContentHeaderPayload.decode payload with
      | .error e =>
        simp only [hmp] at hok
        exact Except.noConfusion hok
      | .ok (b, hp2) =>
        simp only [hmp] at hok
        have h3 : Frame.mk .HEADER ch L (.ContentHeader hp2) = fr :=
          congrArg Prod.snd (Except.ok.inj hok)
        rw [← h3]
    · -- BODY
      simp only [hft] at hok
      have h3 : Frame.mk .BODY ch L (.ContentBody payload) = fr :=
        congrArg Prod.snd (Except.ok.inj hok)
      rw [← h3]
    · -- HEARTBEAT
      simp only [hft, HeartbeatPayload.decode] at hok
      have h3 : Frame.mk .HEARTBEAT ch L (.Heartbeat ⟨⟩) = fr :=
        congrArg Prod.snd (Except.ok.inj hok)
      rw [← h3]
    · -- UNKNOWN
      simp only [hft] at hok
      exact Except.noConfusion hok
  have hlen : fr.len = (L + 8) % 2 ^ 32 := by
    rw [Frame.len, hfr]
  have hcodec : FrameCodec.decode ⟨true⟩ ([t] ++ (u16be ch ++ (u32be L ++ (payload ++ [206])))) =
      (.ok (some (.AmqpFrame fr)), ⟨true⟩,
        ([t] ++ (u16be ch ++ (u32be L ++ (payload ++ [206])))).drop ((L + 8) % 2 ^ 32)) := by
    rw [FrameCodec.decode]
    simp only [hok, hlen]
    rfl
  refine ⟨?_, hlen, hcodec, fun hL8 => ⟨?_, ?_⟩⟩
  · intro k hk
    rw [hFlen] at hk
    rcases Nat.eq_zero_or_pos k with rfl | hpos
    · rfl
    obtain ⟨k', rfl⟩ : ∃ m, k = m + 1 := ⟨k - 1, by omega⟩
    rw [List.singleton_append, List.take_succ_cons, Frame.decode]
    simp only [u8dec_cons]
    rcases Nat.lt_or_ge k' 2 with h2 | h2
    · simp only [show u16dec ((u16be ch ++ (u32be L ++ (payload ++ [206]))).take k') =
        .error .Incomplete by
          rw [u16dec, decodeBE_short _ _ (by rw [List.length_take]; omega)]]
    · rw [take_app_ge _ _ _ (by rw [u16be_length]; omega), u16be_length]
      simp only [show u16dec (u16be ch ++ ((u32be L ++ (payload ++ [206])).take (k' - 2))) =
        .ok ((u32be L ++ (payload ++ [206])).take (k' - 2), ch) by
          rw [u16dec_enc, Nat.mod_eq_of_lt hch]]
      rcases Nat.lt_or_ge k' 6 with h6 | h6
      · simp only [show u32dec ((u32be L ++ (payload ++ [206])).take (k' - 2)) =
          .error .Incomplete by
            rw [u32dec, decodeBE_short _ _ (by rw [List.length_take]; omega)]]
      · rw [take_app_ge _ _ _ (by rw [u32be_length]; omega), u32be_length]
        simp only [show u32dec (u32be L ++ ((payload ++ [206]).take (k' - 2 - 4))) =
          .ok ((payload ++ [206]).take (k' - 2 - 4), L) by
            rw [u32dec_enc, Nat.mod_eq_of_lt hL]]
        rcases Nat.lt_or_ge (k' - 2 - 4) L with h7 | h7
        · simp only [show take_bytes ((payload ++ [206]).take (k' - 2 - 4)) L =
            .error .Incomplete from
              take_bytes_short _ _ (by rw [List.length_take]; omega)]
        · have h8 : (payload ++ [206]).take (k' - 2 - 4) = payload := by
            rw [show k' - 2 - 4 = L from by omega, ← hp, List.take_left]
          have h9 : take_bytes payload L = .ok ([], payload) := by
            rw [← hp]
            simpa using take_bytes_append payload []
          simp only [h8, h9, show u8dec ([] : List Nat) = .error .Incomplete from rfl]
  · rw [hlen, Nat.mod_eq_of_lt hL8, hFlen]
    omega
  · have hdrop : ([t] ++ (u16be ch ++ (u32be L ++ (payload ++ [206])))).drop (L + 8) = [] :=
      List.drop_eq_nil_of_le (by omega)
    rw [hcodec, Nat.mod_eq_of_lt hL8, hdrop]

/-- C4 witness: the corrected theorem instantiated on the zero-length
heartbeat frame `04 00 00 00 00 00 00 CE`: its 3-byte prefix decodes to
`Incomplete`, and the codec past the header phase consumes exactly 8 bytes. -/
theorem claim_C4_witness :
    Frame.decode (([4] ++ (u16be 0 ++ (u32be 0 ++ ([] ++ [206])))).take 3) =
      .error .Incomplete ∧
    FrameCodec.decode ⟨true⟩ ([4] ++ (u16be 0 ++ (u32be 0 ++ ([] ++ [206])))) =
      (.ok (some (.AmqpFrame ⟨.HEARTBEAT, 0, 0, .Heartbeat ⟨⟩⟩)), ⟨true⟩, []) :=
  ⟨(claim_C4_corrected 4 0 0 [] ⟨.HEARTBEAT, 0, 0, .Heartbeat ⟨⟩⟩
      (by decide) (by decide) (by decide) (by decide) rfl).1 3 (by decide),
    ((claim_C4_corrected 4 0 0 [] ⟨.HEARTBEAT, 0, 0, .Heartbeat ⟨⟩⟩
      (by decide) (by decide) (by decide) (by decide) rfl).2.2.2 (by decide)).2⟩

/-- C4 counterexample, refuting the claim as stated at the u32 wraparound:
the heartbeat frame whose length field is `0xFFFFFFF8 = 2^32 - 8` (with that
many payload bytes and the 0xCE terminator) decodes successfully, but
`Frame::len` — the wrapping u32 addition `(length + 8u32) as usize` — is 0,
not `length + 8`, so `FrameCodec::decode` returns the frame WITHOUT advancing
the buffer at all instead of consuming the `length + 8 = |F|` frame bytes. -/
theorem claim_C4_counterexample :
    Frame.decode ([4] ++ (u16be 0 ++ (u32be 4294967288 ++
        (List.replicate 4294967288 0 ++ [206])))) =
      .ok ([], ⟨.HEARTBEAT, 0, 4294967288, .Heartbeat ⟨⟩⟩) ∧
    Frame.len ⟨.HEARTBEAT, 0, 4294967288, .Heartbeat ⟨⟩⟩ = 0 ∧
    ([4] ++ (u16be 0 ++ (u32be 4294967288 ++
      (List.replicate 4294967288 0 ++ [206])))).length = 4294967288 + 8 ∧
    FrameCodec.decode ⟨true⟩ ([4] ++ (u16be 0 ++ (u32be 4294967288 ++
        (List.replicate 4294967288 0 ++ [206])))) =
      (.ok (some (.AmqpFrame ⟨.HEARTBEAT, 0, 4294967288, .Heartbeat ⟨⟩⟩)), ⟨true⟩,
        [4] ++ (u16be 0 ++ (u32be 4294967288 ++
          (List.replicate 4294967288 0 ++ [206])))) := by
  have hdec := frame_decode_heartbeat 0 4294967288 (List.replicate 4294967288 0)
    (by norm_num) (by norm_num) (List.length_replicate _ _)
  have hlen0 : Frame.len ⟨.HEARTBEAT, 0, 4294967288, .Heartbeat ⟨⟩⟩ = 0 := by
    rw [Frame.len]
    norm_num
  refine ⟨hdec, hlen0, ?_, ?_⟩
  · rw [List.length_append, List.length_append, List.length_append, List.length_append,
      List.length_replicate, u16be_length, u32be_length, List.length_singleton,
      List.length_singleton]
  · rw [FrameCodec.decode, hdec]
    rfl

end AmqpProto
